import Mathlib

/-!
Verification of the D3D11 shader-resource cache
(`ShaderResourceCacheD3D11.hpp`) against its specification.

The development is a shallow embedding of the cache:

* pointer-typed native handles (`ID3D11Buffer*`, `ID3D11ShaderResourceView*`,
  ...) become `Option Nat` (`none` = null pointer, `some id` = the pointer's
  identity);
* the cached descriptor structs (`CachedCB`, `CachedSampler`,
  `CachedResource`) become Lean structures with the same fields;
* the per-stage slot arrays of the packed store become functions
  `Nat → Nat → _` (stage index → slot index → entry); element counts, which
  the C++ derives from the offset table built at `Initialize`, are passed
  explicitly to the helpers that need them;
* `Uint16`/`Uint32` mask arithmetic is `Nat` arithmetic with explicit
  `% 2 ^ 16` / `2 ^ 32 - 1` where the C++ truncates or complements;
* the diff-and-bind helpers, which mutate caller-owned committed arrays in
  place, become functions from the committed arrays to the updated arrays
  plus the returned `MinMaxSlot` range.

Collaborator classes that live outside this header (`BufferD3D11Impl`,
view and sampler implementation classes, `D3D11ResourceBindPoints`,
`AlignUp`) are modelled from the specification, as indicated by their doc
comments.
-/

namespace DiligentD3D11

/-- Modelled from the spec: a buffer object (`BufferD3D11Impl`, outside this
header).  `uiSizeInBytes` is `GetDesc().uiSizeInBytes`; `pd3d11Buffer` is the
identity of the native buffer returned by `GetD3D11Buffer()` (always
non-null for a live buffer object). -/
structure BufferD3D11Impl where
  uiSizeInBytes : Nat
  pd3d11Buffer : Nat
deriving DecidableEq, Repr

/-- Modelled from the spec: a sampler object (`SamplerD3D11Impl`, outside
this header); `pd3d11Sampler` is `GetD3D11SamplerState()`. -/
structure SamplerD3D11Impl where
  pd3d11Sampler : Nat
deriving DecidableEq, Repr

/-- Modelled from the spec: a texture view object (`TextureViewD3D11Impl`,
outside this header).  `viewId` is the object identity, `textureId` the
parent texture (`GetTexture`), `pd3d11Texture` the parent's native resource
(`GetD3D11Texture`), `pd3d11View` the native view (`GetD3D11View`). -/
structure TextureViewD3D11Impl where
  viewId : Nat
  textureId : Nat
  pd3d11Texture : Nat
  pd3d11View : Nat
deriving DecidableEq, Repr

/-- Modelled from the spec: a buffer view object (`BufferViewD3D11Impl`,
outside this header), with the parent buffer in place of the texture. -/
structure BufferViewD3D11Impl where
  viewId : Nat
  bufferId : Nat
  pd3d11Buffer : Nat
  pd3d11View : Nat
deriving DecidableEq, Repr

/-- `D3D11ResourceBindPoints::NumShaderTypes`: the six D3D11 shader
stages. -/
def NumShaderTypes : Nat := 6

/-- Modelled from the spec: a multi-stage bind-point set
(`D3D11ResourceBindPoints`, outside this header) — a stage-activity bitmask
plus one slot index per stage. -/
structure D3D11ResourceBindPoints where
  ActiveStagesMask : Nat
  Bindings : Nat → Nat

/-- The stages a bind-point set iterates over, in the order the C++ loop
`ExtractFirstShaderStageIndex` produces them (ascending stage index). -/
def D3D11ResourceBindPoints.activeStages (bp : D3D11ResourceBindPoints) : List Nat :=
  (List.range NumShaderTypes).filter fun i => bp.ActiveStagesMask.testBit i

/-- `ShaderResourceCacheD3D11::CachedCB`: cached constant-buffer
descriptor. -/
structure CachedCB where
  pBuff : Option BufferD3D11Impl := none
  BaseOffset : Nat := 0
  RangeSize : Nat := 0
  DynamicOffset : Nat := 0
deriving DecidableEq, Repr

/-- `CachedCB::Set`.  The subtraction cannot underflow in the source because
`SetCB` checks `BufferOffset + BufferRange <= buffer size` first; `Nat`
subtraction is exact on that domain. -/
def CachedCB.set (pB : Option BufferD3D11Impl) (BaseOffset RangeSize : Nat) : CachedCB :=
  { pBuff := pB
    BaseOffset := BaseOffset
    RangeSize :=
      match pB with
      | some b => if RangeSize = 0 then b.uiSizeInBytes - BaseOffset else RangeSize
      | none => RangeSize
    DynamicOffset := 0 }

/-- `CachedCB::AllowsDynamicOffset`: bound, non-zero range, range strictly
smaller than the whole buffer. -/
def CachedCB.allowsDynamicOffset (cb : CachedCB) : Bool :=
  match cb.pBuff with
  | none => false
  | some b => decide (cb.RangeSize ≠ 0) && decide (cb.RangeSize < b.uiSizeInBytes)

/-- `ShaderResourceCacheD3D11::CachedSampler`. -/
structure CachedSampler where
  pSampler : Option SamplerD3D11Impl := none
deriving DecidableEq, Repr

/-- `CachedSampler::Set`. -/
def CachedSampler.set (pSam : Option SamplerD3D11Impl) : CachedSampler :=
  { pSampler := pSam }

/-- `ShaderResourceCacheD3D11::CachedResource`: cached SRV/UAV descriptor.
Object references are represented by their identities. -/
structure CachedResource where
  pView : Option Nat := none
  pTexture : Option Nat := none
  pBuffer : Option Nat := none
  pd3d11Resource : Option Nat := none
deriving DecidableEq, Repr

/-- `CachedResource::Set(RefCntAutoPtr<TextureViewD3D11Impl>)`. -/
def CachedResource.setTex (v : Option TextureViewD3D11Impl) : CachedResource :=
  { pBuffer := none
    pTexture := v.map (·.textureId)
    pView := v.map (·.viewId)
    pd3d11Resource := v.map (·.pd3d11Texture) }

/-- `CachedResource::Set(RefCntAutoPtr<BufferViewD3D11Impl>)`. -/
def CachedResource.setBuf (v : Option BufferViewD3D11Impl) : CachedResource :=
  { pTexture := none
    pBuffer := v.map (·.bufferId)
    pView := v.map (·.viewId)
    pd3d11Resource := v.map (·.pd3d11Buffer) }

/-- Modelled from the spec: `AlignUp` from `Align.hpp` (outside this header)
— rounds `val` up to the nearest multiple of `alignment`. -/
def AlignUp (val alignment : Nat) : Nat :=
  ((val + alignment - 1) / alignment) * alignment

/-- `UINT_MAX`, the invalid-sentinel initial value of
`MinMaxSlot::MinSlot`. -/
def UINT_MAX : Nat := 2 ^ 32 - 1

/-- `ShaderResourceCacheD3D11::MinMaxSlot`. -/
structure MinMaxSlot where
  MinSlot : Nat := UINT_MAX
  MaxSlot : Nat := 0
deriving DecidableEq, Repr

/-- `MinMaxSlot::Add`. -/
def MinMaxSlot.add (s : MinMaxSlot) (Slot : Nat) : MinMaxSlot :=
  { MinSlot := min s.MinSlot Slot, MaxSlot := Slot }

/-- `MinMaxSlot::operator bool`. -/
def MinMaxSlot.toBool (s : MinMaxSlot) : Bool :=
  decide (s.MinSlot ≤ s.MaxSlot)

/-- The common loop of `BindResources` / `BindResourceViews` / `BindCBs`:
walk slots `res = 0 .. n-1`, compare the committed entry at
`BaseBinding + res` against the cache entry, record the slot in the
`MinMaxSlot` accumulator if it differs, then overwrite the committed entry.
`entry res` is the value the cache holds for slot `res`; `differs` is the
comparison the source performs (for `BindResourceViews` only the view
component is compared). -/
def diffBindAux {α : Type} (entry : Nat → α) (differs : α → α → Bool)
    (BaseBinding : Nat) :
    Nat → Nat → (Nat → α) → MinMaxSlot → (Nat → α) × MinMaxSlot
  | 0, _res, Committed, Slots => (Committed, Slots)
  | n + 1, res, Committed, Slots =>
    let Slot := BaseBinding + res
    let Slots' := if differs (Committed Slot) (entry res) then Slots.add Slot else Slots
    let Committed' : Nat → α := fun j => if j = Slot then entry res else Committed j
    diffBindAux entry differs BaseBinding n (res + 1) Committed' Slots'

/-- `ShaderResourceCacheD3D11::BindResources` for one stage.  `ResCount` is
`GetResourceCount<Range>(ShaderInd)`, `CachedHandles` is
`ResArrays.second`, `Committed` the caller's committed array. -/
def BindResources (ResCount : Nat) (CachedHandles : Nat → Option Nat)
    (BaseBinding : Nat) (Committed : Nat → Option Nat) :
    (Nat → Option Nat) × MinMaxSlot :=
  diffBindAux CachedHandles (fun c e => decide (c ≠ e)) BaseBinding ResCount 0 Committed {}

/-- The pair of values `BindResourceViews` writes for cache slot `res`: the
native view handle (`ResArrays.second[res]`) and the underlying native
resource (`ResArrays.first[res].pd3d11Resource`). -/
def viewEntry (Resources : Nat → CachedResource) (Handles : Nat → Option Nat)
    (res : Nat) : Option Nat × Option Nat :=
  (Handles res, (Resources res).pd3d11Resource)

/-- `ShaderResourceCacheD3D11::BindResourceViews` for one stage.  The two
caller-owned committed arrays (views and resources) are packed as a
pair-valued function; only the view component participates in the diff. -/
def BindResourceViews (ResCount : Nat) (Resources : Nat → CachedResource)
    (Handles : Nat → Option Nat) (BaseBinding : Nat)
    (Committed : Nat → Option Nat × Option Nat) :
    (Nat → Option Nat × Option Nat) × MinMaxSlot :=
  diffBindAux (viewEntry Resources Handles) (fun c e => decide (c.1 ≠ e.1))
    BaseBinding ResCount 0 Committed {}

/-- The triple of values `BindCBs` writes for cache slot `res`: the native
buffer, `FirstCBConstant = (BaseOffset + DynamicOffset) / 16`, and
`NumCBConstants = AlignUp(RangeSize / 16, 16)`. -/
def cbEntry (CBs : Nat → CachedCB) (Handles : Nat → Option Nat) (res : Nat) :
    Option Nat × Nat × Nat :=
  (Handles res,
   ((CBs res).BaseOffset + (CBs res).DynamicOffset) / 16,
   AlignUp ((CBs res).RangeSize / 16) 16)

/-- `ShaderResourceCacheD3D11::BindCBs` for one stage.  The three
caller-owned committed arrays (buffers, FirstConstants, NumConstants) are
packed as a triple-valued function; all three components participate in the
diff. -/
def BindCBs (ResCount : Nat) (CBs : Nat → CachedCB) (Handles : Nat → Option Nat)
    (BaseBinding : Nat) (Committed : Nat → Option Nat × Nat × Nat) :
    (Nat → Option Nat × Nat × Nat) × MinMaxSlot :=
  diffBindAux (cbEntry CBs Handles) (fun c e => decide (c ≠ e))
    BaseBinding ResCount 0 Committed {}

/-- The loop body of `BindDynamicCBs` over the list of slot indices whose
`DynamicCBOffsetsMask` bit is set: if any of the three committed values
differs from the cache-derived value, overwrite all three and invoke the
bind handler (recorded here as the returned list of handled slots). -/
def bindDynamicCBsAux (CBs : Nat → CachedCB) (Handles : Nat → Option Nat)
    (BaseBinding : Nat) :
    List Nat → ((Nat → Option Nat) × (Nat → Nat) × (Nat → Nat)) →
    ((Nat → Option Nat) × (Nat → Nat) × (Nat → Nat)) × List Nat
  | [], Committed => (Committed, [])
  | Binding :: rest, Committed =>
    let Slot := BaseBinding + Binding
    let pd3d11CB := Handles Binding
    let FirstCBConstant := ((CBs Binding).BaseOffset + (CBs Binding).DynamicOffset) / 16
    let NumCBConstants := AlignUp ((CBs Binding).RangeSize / 16) 16
    if Committed.1 Slot ≠ pd3d11CB ∨ Committed.2.1 Slot ≠ FirstCBConstant ∨
        Committed.2.2 Slot ≠ NumCBConstants then
      let Committed' : (Nat → Option Nat) × (Nat → Nat) × (Nat → Nat) :=
        (fun j => if j = Slot then pd3d11CB else Committed.1 j,
         fun j => if j = Slot then FirstCBConstant else Committed.2.1 j,
         fun j => if j = Slot then NumCBConstants else Committed.2.2 j)
      let r := bindDynamicCBsAux CBs Handles BaseBinding rest Committed'
      (r.1, Slot :: r.2)
    else
      bindDynamicCBsAux CBs Handles BaseBinding rest Committed

/-- `ShaderResourceCacheD3D11::UpdateDynamicCBOffsetFlag` for
`D3D11_RESOURCE_RANGE_CBV`.  The masks are `Uint16` values; `|=` truncates
to 16 bits on assignment and `~BufferBit` is the 32-bit complement, written
here as xor with `2 ^ 32 - 1`. -/
def updateDynamicCBOffsetFlagCBV (SlotsMask OffsetsMask : Nat) (CB : CachedCB)
    (Binding : Nat) : Nat :=
  if SlotsMask &&& (1 <<< Binding) ≠ 0 then
    if CB.allowsDynamicOffset then (OffsetsMask ||| (1 <<< Binding)) % 2 ^ 16
    else (OffsetsMask &&& ((1 <<< Binding) ^^^ (2 ^ 32 - 1))) % 2 ^ 16
  else OffsetsMask

/-- The mutable contents of one `ShaderResourceCacheD3D11`: the four pairs
of parallel per-stage slot arrays of the packed store (stage index → slot
index → entry) and the two dynamic-CB masks (stage index → `Uint16`
mask). -/
structure CacheState where
  cbs : Nat → Nat → CachedCB
  cbHandles : Nat → Nat → Option Nat
  srvs : Nat → Nat → CachedResource
  srvHandles : Nat → Nat → Option Nat
  samplers : Nat → Nat → CachedSampler
  samplerHandles : Nat → Nat → Option Nat
  uavs : Nat → Nat → CachedResource
  uavHandles : Nat → Nat → Option Nat
  DynamicCBSlotsMask : Nat → Nat
  DynamicCBOffsetsMask : Nat → Nat

/-- Pointwise update of a two-index slot array. -/
def upd2 {α : Type} (f : Nat → Nat → α) (i b : Nat) (x : α) : Nat → Nat → α :=
  fun i' b' => if i' = i ∧ b' = b then x else f i' b'

/-- Pointwise update of a per-stage value. -/
def upd1 {α : Type} (f : Nat → α) (i : Nat) (x : α) : Nat → α :=
  fun i' => if i' = i then x else f i'

/-- `Initialize`: zero-filled slots (nothing bound), the caller-supplied
dynamic-slots mask, and an all-zero dynamic-offsets mask. -/
def initCache (SlotsMask : Nat → Nat) : CacheState :=
  { cbs := fun _ _ => {}
    cbHandles := fun _ _ => none
    srvs := fun _ _ => {}
    srvHandles := fun _ _ => none
    samplers := fun _ _ => {}
    samplerHandles := fun _ _ => none
    uavs := fun _ _ => {}
    uavHandles := fun _ _ => none
    DynamicCBSlotsMask := SlotsMask
    DynamicCBOffsetsMask := fun _ => 0 }

/-- One iteration of `SetD3D11ResourceInternal<CBV>` for one active stage:
write the descriptor and the parallel native handle, then recompute that
stage's dynamic-offset bit. -/
def setCBInternalStep (newCB : CachedCB) (pd3d11 : Option Nat) (bind : Nat → Nat)
    (s : CacheState) (ShaderInd : Nat) : CacheState :=
  let Binding := bind ShaderInd
  { s with
    cbs := upd2 s.cbs ShaderInd Binding newCB
    cbHandles := upd2 s.cbHandles ShaderInd Binding pd3d11
    DynamicCBOffsetsMask := upd1 s.DynamicCBOffsetsMask ShaderInd
      (updateDynamicCBOffsetFlagCBV (s.DynamicCBSlotsMask ShaderInd)
        (s.DynamicCBOffsetsMask ShaderInd) newCB Binding) }

/-- `SetD3D11ResourceInternal<D3D11_RESOURCE_RANGE_CBV>`: the loop over the
active stages of the bind-point set. -/
def setCBInternal (s : CacheState) (bp : D3D11ResourceBindPoints) (newCB : CachedCB)
    (pd3d11 : Option Nat) : CacheState :=
  bp.activeStages.foldl (setCBInternalStep newCB pd3d11 bp.Bindings) s

/-- `ShaderResourceCacheD3D11::SetCB`: derives the native buffer handle from
the resource, then runs the internal setter with the descriptor
`CachedCB::Set` builds. -/
def CacheState.SetCB (s : CacheState) (bp : D3D11ResourceBindPoints)
    (pBuffD3D11Impl : Option BufferD3D11Impl) (BufferOffset BufferRange : Nat) :
    CacheState :=
  setCBInternal s bp (CachedCB.set pBuffD3D11Impl BufferOffset BufferRange)
    (pBuffD3D11Impl.map (·.pd3d11Buffer))

/-- One iteration of `SetD3D11ResourceInternal<SRV>` for one active stage. -/
def setSRVInternalStep (newRes : CachedResource) (pd3d11 : Option Nat)
    (bind : Nat → Nat) (s : CacheState) (ShaderInd : Nat) : CacheState :=
  { s with
    srvs := upd2 s.srvs ShaderInd (bind ShaderInd) newRes
    srvHandles := upd2 s.srvHandles ShaderInd (bind ShaderInd) pd3d11 }

/-- `SetD3D11ResourceInternal<D3D11_RESOURCE_RANGE_SRV>` (the generic
`UpdateDynamicCBOffsetFlag` is a no-op for this range). -/
def setSRVInternal (s : CacheState) (bp : D3D11ResourceBindPoints)
    (newRes : CachedResource) (pd3d11 : Option Nat) : CacheState :=
  bp.activeStages.foldl (setSRVInternalStep newRes pd3d11 bp.Bindings) s

/-- One iteration of `SetD3D11ResourceInternal<UAV>` for one active stage. -/
def setUAVInternalStep (newRes : CachedResource) (pd3d11 : Option Nat)
    (bind : Nat → Nat) (s : CacheState) (ShaderInd : Nat) : CacheState :=
  { s with
    uavs := upd2 s.uavs ShaderInd (bind ShaderInd) newRes
    uavHandles := upd2 s.uavHandles ShaderInd (bind ShaderInd) pd3d11 }

/-- `SetD3D11ResourceInternal<D3D11_RESOURCE_RANGE_UAV>`. -/
def setUAVInternal (s : CacheState) (bp : D3D11ResourceBindPoints)
    (newRes : CachedResource) (pd3d11 : Option Nat) : CacheState :=
  bp.activeStages.foldl (setUAVInternalStep newRes pd3d11 bp.Bindings) s

/-- One iteration of `SetD3D11ResourceInternal<SAMPLER>` for one active
stage. -/
def setSamplerInternalStep (newSam : CachedSampler) (pd3d11 : Option Nat)
    (bind : Nat → Nat) (s : CacheState) (ShaderInd : Nat) : CacheState :=
  { s with
    samplers := upd2 s.samplers ShaderInd (bind ShaderInd) newSam
    samplerHandles := upd2 s.samplerHandles ShaderInd (bind ShaderInd) pd3d11 }

/-- `SetD3D11ResourceInternal<D3D11_RESOURCE_RANGE_SAMPLER>`. -/
def setSamplerInternal (s : CacheState) (bp : D3D11ResourceBindPoints)
    (newSam : CachedSampler) (pd3d11 : Option Nat) : CacheState :=
  bp.activeStages.foldl (setSamplerInternalStep newSam pd3d11 bp.Bindings) s

/-- `ShaderResourceCacheD3D11::SetTexSRV`. -/
def CacheState.SetTexSRV (s : CacheState) (bp : D3D11ResourceBindPoints)
    (pTexView : Option TextureViewD3D11Impl) : CacheState :=
  setSRVInternal s bp (CachedResource.setTex pTexView) (pTexView.map (·.pd3d11View))

/-- `ShaderResourceCacheD3D11::SetBufSRV`. -/
def CacheState.SetBufSRV (s : CacheState) (bp : D3D11ResourceBindPoints)
    (pBuffView : Option BufferViewD3D11Impl) : CacheState :=
  setSRVInternal s bp (CachedResource.setBuf pBuffView) (pBuffView.map (·.pd3d11View))

/-- `ShaderResourceCacheD3D11::SetTexUAV`. -/
def CacheState.SetTexUAV (s : CacheState) (bp : D3D11ResourceBindPoints)
    (pTexView : Option TextureViewD3D11Impl) : CacheState :=
  setUAVInternal s bp (CachedResource.setTex pTexView) (pTexView.map (·.pd3d11View))

/-- `ShaderResourceCacheD3D11::SetBufUAV`. -/
def CacheState.SetBufUAV (s : CacheState) (bp : D3D11ResourceBindPoints)
    (pBuffView : Option BufferViewD3D11Impl) : CacheState :=
  setUAVInternal s bp (CachedResource.setBuf pBuffView) (pBuffView.map (·.pd3d11View))

/-- `ShaderResourceCacheD3D11::SetSampler`. -/
def CacheState.SetSampler (s : CacheState) (bp : D3D11ResourceBindPoints)
    (pSampler : Option SamplerD3D11Impl) : CacheState :=
  setSamplerInternal s bp (CachedSampler.set pSampler) (pSampler.map (·.pd3d11Sampler))

/-- One iteration of `SetDynamicCBOffset` for one active stage: only the
`DynamicOffset` field of the descriptor at that stage's slot is written. -/
def setDynamicCBOffsetStep (DynamicOffset : Nat) (bind : Nat → Nat)
    (s : CacheState) (ShaderInd : Nat) : CacheState :=
  let Binding := bind ShaderInd
  let newCB : CachedCB := { s.cbs ShaderInd Binding with DynamicOffset := DynamicOffset }
  { s with cbs := upd2 s.cbs ShaderInd Binding newCB }

/-- `ShaderResourceCacheD3D11::SetDynamicCBOffset`. -/
def CacheState.SetDynamicCBOffset (s : CacheState) (bp : D3D11ResourceBindPoints)
    (DynamicOffset : Nat) : CacheState :=
  bp.activeStages.foldl (setDynamicCBOffsetStep DynamicOffset bp.Bindings) s

/-- One iteration of `CopyResource<CBV>` for one active stage: clear the
IsBound accumulator if the source slot is empty, copy descriptor and native
handle, recompute this cache's dynamic-offset bit from the copied
descriptor. -/
def copyCBStep (src : CacheState) (bind : Nat → Nat) (acc : CacheState × Bool)
    (ShaderInd : Nat) : CacheState × Bool :=
  let Binding := bind ShaderInd
  let s := acc.1
  let srcCB := src.cbs ShaderInd Binding
  let IsBound := acc.2 && srcCB.pBuff.isSome
  let s' : CacheState :=
    { s with
      cbs := upd2 s.cbs ShaderInd Binding srcCB
      cbHandles := upd2 s.cbHandles ShaderInd Binding (src.cbHandles ShaderInd Binding)
      DynamicCBOffsetsMask := upd1 s.DynamicCBOffsetsMask ShaderInd
        (updateDynamicCBOffsetFlagCBV (s.DynamicCBSlotsMask ShaderInd)
          (s.DynamicCBOffsetsMask ShaderInd) srcCB Binding) }
  (s', IsBound)

/-- `CopyResource<D3D11_RESOURCE_RANGE_CBV>`; the `Bool` is the returned
`IsBound`. -/
def CacheState.CopyResourceCB (s src : CacheState) (bp : D3D11ResourceBindPoints) :
    CacheState × Bool :=
  bp.activeStages.foldl (copyCBStep src bp.Bindings) (s, true)

/-- One iteration of `CopyResource<SRV>` for one active stage. -/
def copySRVStep (src : CacheState) (bind : Nat → Nat) (acc : CacheState × Bool)
    (ShaderInd : Nat) : CacheState × Bool :=
  let Binding := bind ShaderInd
  let s := acc.1
  let srcRes := src.srvs ShaderInd Binding
  let IsBound := acc.2 && srcRes.pView.isSome
  let s' : CacheState :=
    { s with
      srvs := upd2 s.srvs ShaderInd Binding srcRes
      srvHandles := upd2 s.srvHandles ShaderInd Binding (src.srvHandles ShaderInd Binding) }
  (s', IsBound)

/-- `CopyResource<D3D11_RESOURCE_RANGE_SRV>` (generic
`UpdateDynamicCBOffsetFlag` is a no-op for this range). -/
def CacheState.CopyResourceSRV (s src : CacheState) (bp : D3D11ResourceBindPoints) :
    CacheState × Bool :=
  bp.activeStages.foldl (copySRVStep src bp.Bindings) (s, true)

/-- One iteration of `CopyResource<UAV>` for one active stage. -/
def copyUAVStep (src : CacheState) (bind : Nat → Nat) (acc : CacheState × Bool)
    (ShaderInd : Nat) : CacheState × Bool :=
  let Binding := bind ShaderInd
  let s := acc.1
  let srcRes := src.uavs ShaderInd Binding
  let IsBound := acc.2 && srcRes.pView.isSome
  let s' : CacheState :=
    { s with
      uavs := upd2 s.uavs ShaderInd Binding srcRes
      uavHandles := upd2 s.uavHandles ShaderInd Binding (src.uavHandles ShaderInd Binding) }
  (s', IsBound)

/-- `CopyResource<D3D11_RESOURCE_RANGE_UAV>`. -/
def CacheState.CopyResourceUAV (s src : CacheState) (bp : D3D11ResourceBindPoints) :
    CacheState × Bool :=
  bp.activeStages.foldl (copyUAVStep src bp.Bindings) (s, true)

/-- One iteration of `CopyResource<SAMPLER>` for one active stage. -/
def copySamplerStep (src : CacheState) (bind : Nat → Nat) (acc : CacheState × Bool)
    (ShaderInd : Nat) : CacheState × Bool :=
  let Binding := bind ShaderInd
  let s := acc.1
  let srcSam := src.samplers ShaderInd Binding
  let IsBound := acc.2 && srcSam.pSampler.isSome
  let s' : CacheState :=
    { s with
      samplers := upd2 s.samplers ShaderInd Binding srcSam
      samplerHandles := upd2 s.samplerHandles ShaderInd Binding
        (src.samplerHandles ShaderInd Binding) }
  (s', IsBound)

/-- `CopyResource<D3D11_RESOURCE_RANGE_SAMPLER>`. -/
def CacheState.CopyResourceSampler (s src : CacheState) (bp : D3D11ResourceBindPoints) :
    CacheState × Bool :=
  bp.activeStages.foldl (copySamplerStep src bp.Bindings) (s, true)

/-- `GetResource<CBV>`: the descriptor at the first active stage's slot
(the C++ asserts the bind-point set is non-empty). -/
def CacheState.getResourceCB (s : CacheState) (bp : D3D11ResourceBindPoints) : CachedCB :=
  match bp.activeStages with
  | [] => {}
  | i :: _ => s.cbs i (bp.Bindings i)

/-- `GetResource<SRV>`. -/
def CacheState.getResourceSRV (s : CacheState) (bp : D3D11ResourceBindPoints) : CachedResource :=
  match bp.activeStages with
  | [] => {}
  | i :: _ => s.srvs i (bp.Bindings i)

/-- `GetResource<UAV>`. -/
def CacheState.getResourceUAV (s : CacheState) (bp : D3D11ResourceBindPoints) : CachedResource :=
  match bp.activeStages with
  | [] => {}
  | i :: _ => s.uavs i (bp.Bindings i)

/-- `GetResource<SAMPLER>`. -/
def CacheState.getResourceSampler (s : CacheState) (bp : D3D11ResourceBindPoints) : CachedSampler :=
  match bp.activeStages with
  | [] => {}
  | i :: _ => s.samplers i (bp.Bindings i)

/-- The slot indices `BindDynamicCBs` visits for one stage: the set bits of
the (16-bit) `DynamicCBOffsetsMask`, in ascending order, exactly as the
`ExtractLSB` loop produces them. -/
def dynamicCBBindings (s : CacheState) (ShaderInd : Nat) : List Nat :=
  (List.range 16).filter fun b => (s.DynamicCBOffsetsMask ShaderInd).testBit b

/-- `ShaderResourceCacheD3D11::BindDynamicCBs` for one stage. -/
def CacheState.BindDynamicCBs (s : CacheState) (ShaderInd BaseBinding : Nat)
    (Committed : (Nat → Option Nat) × (Nat → Nat) × (Nat → Nat)) :
    ((Nat → Option Nat) × (Nat → Nat) × (Nat → Nat)) × List Nat :=
  bindDynamicCBsAux (s.cbs ShaderInd) (s.cbHandles ShaderInd) BaseBinding
    (dynamicCBBindings s ShaderInd) Committed

/-- One mutating cache operation, as issued after `Initialize`.  The copy
operations carry the (arbitrary) source cache they copy from. -/
inductive CacheOp where
  | setCB (bp : D3D11ResourceBindPoints) (pBuff : Option BufferD3D11Impl)
      (BufferOffset BufferRange : Nat)
  | setTexSRV (bp : D3D11ResourceBindPoints) (v : Option TextureViewD3D11Impl)
  | setBufSRV (bp : D3D11ResourceBindPoints) (v : Option BufferViewD3D11Impl)
  | setTexUAV (bp : D3D11ResourceBindPoints) (v : Option TextureViewD3D11Impl)
  | setBufUAV (bp : D3D11ResourceBindPoints) (v : Option BufferViewD3D11Impl)
  | setSampler (bp : D3D11ResourceBindPoints) (sam : Option SamplerD3D11Impl)
  | setDynamicCBOffset (bp : D3D11ResourceBindPoints) (DynamicOffset : Nat)
  | copyCB (src : CacheState) (bp : D3D11ResourceBindPoints)
  | copySRV (src : CacheState) (bp : D3D11ResourceBindPoints)
  | copyUAV (src : CacheState) (bp : D3D11ResourceBindPoints)
  | copySampler (src : CacheState) (bp : D3D11ResourceBindPoints)

/-- Apply one operation to the cache (the `IsBound` result of a copy is
dropped here; `CopyResource*` expose it). -/
def applyOp (s : CacheState) : CacheOp → CacheState
  | .setCB bp pBuff off rng => s.SetCB bp pBuff off rng
  | .setTexSRV bp v => s.SetTexSRV bp v
  | .setBufSRV bp v => s.SetBufSRV bp v
  | .setTexUAV bp v => s.SetTexUAV bp v
  | .setBufUAV bp v => s.SetBufUAV bp v
  | .setSampler bp sam => s.SetSampler bp sam
  | .setDynamicCBOffset bp off => s.SetDynamicCBOffset bp off
  | .copyCB src bp => (s.CopyResourceCB src bp).1
  | .copySRV src bp => (s.CopyResourceSRV src bp).1
  | .copyUAV src bp => (s.CopyResourceUAV src bp).1
  | .copySampler src bp => (s.CopyResourceSampler src bp).1

/-- Apply a sequence of operations. -/
def applyOps (s : CacheState) (ops : List CacheOp) : CacheState :=
  ops.foldl applyOp s

/-- The six Slot Setters (no dynamic-offset update, no copy). -/
def IsSlotSetter : CacheOp → Prop
  | .setCB _ _ _ _ => True
  | .setTexSRV _ _ => True
  | .setBufSRV _ _ => True
  | .setTexUAV _ _ => True
  | .setBufUAV _ _ => True
  | .setSampler _ _ => True
  | _ => False

/-! ### Characterization of the diff-and-bind loop -/

/-- Slots the loop never writes keep their committed value. -/
lemma diffBindAux_fst_out {α : Type} (entry : Nat → α) (differs : α → α → Bool)
    (base : Nat) :
    ∀ (n res : Nat) (C : Nat → α) (S : MinMaxSlot) (j : Nat),
      (∀ r, res ≤ r → r < res + n → j ≠ base + r) →
      (diffBindAux entry differs base n res C S).1 j = C j := by
  intro n
  induction n with
  | zero => intro res C S j _; rfl
  | succ n ih =>
    intro res C S j hj
    show (diffBindAux entry differs base n (res + 1) _ _).1 j = C j
    rw [ih]
    · have hne : j ≠ base + res := hj res le_rfl (by omega)
      simp [hne]
    · intro r hr1 hr2
      exact hj r (by omega) (by omega)

/-- Every slot in the walked window ends up holding the cache entry. -/
lemma diffBindAux_fst_in {α : Type} (entry : Nat → α) (differs : α → α → Bool)
    (base : Nat) :
    ∀ (n res : Nat) (C : Nat → α) (S : MinMaxSlot) (r : Nat),
      res ≤ r → r < res + n →
      (diffBindAux entry differs base n res C S).1 (base + r) = entry r := by
  intro n
  induction n with
  | zero => intro res C S r h1 h2; omega
  | succ n ih =>
    intro res C S r h1 h2
    show (diffBindAux entry differs base n (res + 1) _ _).1 (base + r) = entry r
    rcases Nat.eq_or_lt_of_le h1 with heq | hlt
    · subst heq
      rw [diffBindAux_fst_out]
      · simp
      · intro r' hr1 hr2
        omega
    · exact ih (res + 1) _ _ r hlt (by omega)

/-- The returned `MinMaxSlot` is the fold of `MinMaxSlot.add` over exactly
the slots whose original committed entry differed from the cache entry, in
walking order. -/
lemma diffBindAux_snd {α : Type} (entry : Nat → α) (differs : α → α → Bool)
    (base : Nat) :
    ∀ (n res : Nat) (C : Nat → α) (S : MinMaxSlot),
      (diffBindAux entry differs base n res C S).2 =
        ((List.range' res n).filter fun r => differs (C (base + r)) (entry r)).foldl
          (fun s r => s.add (base + r)) S := by
  intro n
  induction n with
  | zero => intro res C S; rfl
  | succ n ih =>
    intro res C S
    show (diffBindAux entry differs base n (res + 1) _ _).2 = _
    rw [ih]
    rw [List.range'_succ]
    have hcongr :
        ((List.range' (res + 1) n).filter fun r =>
            differs ((fun j => if j = base + res then entry res else C j) (base + r)) (entry r)) =
        ((List.range' (res + 1) n).filter fun r => differs (C (base + r)) (entry r)) := by
      apply List.filter_congr
      intro r hr
      rw [List.mem_range'_1] at hr
      have : base + r ≠ base + res := by omega
      simp [this]
    rw [hcongr]
    by_cases hd : differs (C (base + res)) (entry res) = true
    · simp [List.filter_cons, hd]
    · simp [List.filter_cons, hd]

/-- `MinSlot` of a fold of `add` is the fold of `min`. -/
lemma foldl_add_MinSlot :
    ∀ (M : List Nat) (S : MinMaxSlot),
      (M.foldl MinMaxSlot.add S).MinSlot = M.foldl min S.MinSlot := by
  intro M
  induction M with
  | nil => intro S; rfl
  | cons a M ih => intro S; simpa [MinMaxSlot.add] using ih (S.add a)

/-- `MaxSlot` of a fold of `add` is the last added slot (or the initial
value when nothing was added). -/
lemma foldl_add_MaxSlot :
    ∀ (M : List Nat) (S : MinMaxSlot),
      (M.foldl MinMaxSlot.add S).MaxSlot = M.getLastD S.MaxSlot := by
  intro M
  induction M with
  | nil => intro S; rfl
  | cons a M ih =>
    intro S
    rw [List.foldl_cons, ih, List.getLastD_cons]
    rfl

/-- A fold of `min` is a lower bound of its starting value. -/
lemma foldl_min_le_init : ∀ (M : List Nat) (a : Nat), M.foldl min a ≤ a := by
  intro M
  induction M with
  | nil => intro a; exact le_rfl
  | cons x M ih =>
    intro a
    calc M.foldl min (min a x) ≤ min a x := ih _
    _ ≤ a := min_le_left _ _

/-- A fold of `min` is a lower bound of every list element. -/
lemma foldl_min_le_mem :
    ∀ (M : List Nat) (a x : Nat), x ∈ M → M.foldl min a ≤ x := by
  intro M
  induction M with
  | nil => intro a x hx; cases hx
  | cons y M ih =>
    intro a x hx
    rcases List.mem_cons.mp hx with rfl | hx
    · calc M.foldl min (min a x) ≤ min a x := foldl_min_le_init _ _
      _ ≤ x := min_le_right _ _
    · exact ih _ x hx

/-- A fold of `min` is either the starting value or a list element. -/
lemma foldl_min_mem :
    ∀ (M : List Nat) (a : Nat), M.foldl min a ∈ a :: M := by
  intro M
  induction M with
  | nil => intro a; simp
  | cons x M ih =>
    intro a
    rw [List.foldl_cons]
    have h := ih (min a x)
    rcases List.mem_cons.mp h with heq | hmem
    · rcases min_choice a x with hax | hax
      · rw [heq, hax]; simp
      · rw [heq, hax]; simp
    · simp [List.mem_cons]
      tauto

/-- In a strictly sorted list, `getLastD` bounds every element from above. -/
lemma le_getLastD_of_pairwise :
    ∀ (M : List Nat), M.Pairwise (· < ·) → ∀ (d : Nat), ∀ x ∈ M, x ≤ M.getLastD d := by
  intro M
  induction M with
  | nil => intro _ d x hx; cases hx
  | cons a M ih =>
    intro hp d x hx
    rw [List.pairwise_cons] at hp
    rw [List.getLastD_cons]
    rcases List.mem_cons.mp hx with rfl | hx
    · rcases List.mem_cons.mp (List.getLastD_mem_cons M x) with h | h
      · exact le_of_eq h.symm
      · exact le_of_lt (hp.1 _ h)
    · exact ih hp.2 a x hx

/-- `getLastD` of a non-empty list is a member. -/
lemma getLastD_mem_of_ne_nil :
    ∀ (M : List Nat) (d : Nat), M ≠ [] → M.getLastD d ∈ M := by
  intro M d h
  cases M with
  | nil => exact absurd rfl h
  | cons a M => rw [List.getLastD_cons]; exact List.getLastD_mem_cons M a

/-- The slots (in walking order) whose committed entry differs from the
cache entry: the slots the diff-and-bind loop records in its `MinMaxSlot`
accumulator. -/
def diffSlotList {α : Type} (entry : Nat → α) (differs : α → α → Bool)
    (base n : Nat) (C : Nat → α) : List Nat :=
  ((List.range n).filter fun k => differs (C (base + k)) (entry k)).map (base + ·)

/-- The differing-slot list is strictly ascending. -/
lemma diffSlotList_pairwise {α : Type} (entry : Nat → α) (differs : α → α → Bool)
    (base n : Nat) (C : Nat → α) :
    (diffSlotList entry differs base n C).Pairwise (· < ·) := by
  unfold diffSlotList
  rw [List.pairwise_map]
  exact (List.pairwise_lt_range n).filter _ |>.imp (by omega)

/-- Members of the differing-slot list are within the walked window. -/
lemma diffSlotList_mem_lt {α : Type} (entry : Nat → α) (differs : α → α → Bool)
    (base n : Nat) (C : Nat → α) :
    ∀ d ∈ diffSlotList entry differs base n C, base ≤ d ∧ d < base + n := by
  intro d hd
  unfold diffSlotList at hd
  rcases List.mem_map.mp hd with ⟨k, hk, rfl⟩
  have := List.mem_range.mp (List.mem_filter.mp hk).1
  omega

/-- The accumulator returned by the loop is the fold of `add` over the
differing-slot list. -/
lemma diffBind_snd_eq_fold {α : Type} (entry : Nat → α) (differs : α → α → Bool)
    (base n : Nat) (C : Nat → α) (S : MinMaxSlot) :
    (diffBindAux entry differs base n 0 C S).2 =
      (diffSlotList entry differs base n C).foldl MinMaxSlot.add S := by
  rw [diffBindAux_snd]
  unfold diffSlotList
  rw [List.foldl_map, List.range_eq_range']

/-- Full characterization of the returned `MinMaxSlot` range: lower/upper
bound of every differing slot, membership of both endpoints when anything
differed, the untouched sentinel (`UINT_MAX`, `0`) when nothing differed,
and the boolean conversion. -/
lemma diffBind_minmax {α : Type} (entry : Nat → α) (differs : α → α → Bool)
    (base n : Nat) (C : Nat → α) (hwrap : base + n ≤ UINT_MAX) :
    (∀ d ∈ diffSlotList entry differs base n C,
        (diffBindAux entry differs base n 0 C {}).2.MinSlot ≤ d ∧
        d ≤ (diffBindAux entry differs base n 0 C {}).2.MaxSlot) ∧
    (diffSlotList entry differs base n C ≠ [] →
        (diffBindAux entry differs base n 0 C {}).2.MinSlot ∈
          diffSlotList entry differs base n C ∧
        (diffBindAux entry differs base n 0 C {}).2.MaxSlot ∈
          diffSlotList entry differs base n C) ∧
    (diffSlotList entry differs base n C = [] →
        (diffBindAux entry differs base n 0 C {}).2.MinSlot = UINT_MAX ∧
        (diffBindAux entry differs base n 0 C {}).2.MaxSlot = 0) ∧
    ((diffBindAux entry differs base n 0 C {}).2.toBool =
        !(diffSlotList entry differs base n C).isEmpty) := by
  set D := diffSlotList entry differs base n C with hD
  have hfold := diffBind_snd_eq_fold entry differs base n C {}
  have hmin : (diffBindAux entry differs base n 0 C {}).2.MinSlot = D.foldl min UINT_MAX := by
    rw [hfold, foldl_add_MinSlot]
  have hmax : (diffBindAux entry differs base n 0 C {}).2.MaxSlot = D.getLastD 0 := by
    rw [hfold, foldl_add_MaxSlot]
  have hlt : ∀ d ∈ D, d < UINT_MAX := by
    intro d hd
    have := diffSlotList_mem_lt entry differs base n C d hd
    omega
  have hub : ∀ d ∈ D, d ≤ D.getLastD 0 :=
    le_getLastD_of_pairwise D (diffSlotList_pairwise entry differs base n C) 0
  have hminmem : D ≠ [] → D.foldl min UINT_MAX ∈ D := by
    intro hne
    rcases List.mem_cons.mp (foldl_min_mem D UINT_MAX) with heq | hmem
    · obtain ⟨d0, D', hD'⟩ := List.exists_cons_of_ne_nil hne
      have hd0 : d0 ∈ D := by rw [hD']; exact List.mem_cons_self _ _
      have h1 : D.foldl min UINT_MAX ≤ d0 := foldl_min_le_mem _ _ _ hd0
      have h2 := hlt d0 hd0
      omega
    · exact hmem
  refine ⟨?_, ?_, ?_, ?_⟩
  · intro d hd
    rw [hmin, hmax]
    exact ⟨foldl_min_le_mem D UINT_MAX d hd, hub d hd⟩
  · intro hne
    rw [hmin, hmax]
    exact ⟨hminmem hne, getLastD_mem_of_ne_nil D 0 hne⟩
  · intro hnil
    rw [hmin, hmax, hnil]
    exact ⟨rfl, rfl⟩
  · cases hDnil : D with
    | nil =>
      rw [MinMaxSlot.toBool, hmin, hmax, hDnil]
      simp [UINT_MAX]
    | cons d0 D' =>
      rw [MinMaxSlot.toBool, hmin, hmax]
      have hmm : D.foldl min UINT_MAX ≤ D.getLastD 0 := by
        have h1 := hminmem (by rw [hDnil]; simp)
        have h2 := hub _ h1
        have h3 := foldl_min_le_mem D UINT_MAX _ h1
        omega
      rw [hDnil] at hmm
      rw [hDnil]
      simp only [List.isEmpty_cons, Bool.not_false]
      exact decide_eq_true hmm

/-! ### Characterization of the dynamic-CB bind loop -/

/-- Slots the dynamic-CB loop never visits keep their committed values. -/
lemma bindDynamicCBsAux_frame (CBs : Nat → CachedCB) (Handles : Nat → Option Nat)
    (base : Nat) :
    ∀ (L : List Nat) (Comm : (Nat → Option Nat) × (Nat → Nat) × (Nat → Nat)) (j : Nat),
      (∀ b ∈ L, j ≠ base + b) →
      (bindDynamicCBsAux CBs Handles base L Comm).1.1 j = Comm.1 j ∧
      (bindDynamicCBsAux CBs Handles base L Comm).1.2.1 j = Comm.2.1 j ∧
      (bindDynamicCBsAux CBs Handles base L Comm).1.2.2 j = Comm.2.2 j := by
  intro L
  induction L with
  | nil => intro Comm j _; exact ⟨rfl, rfl, rfl⟩
  | cons b0 rest ih =>
    intro Comm j hj
    have hjb : j ≠ base + b0 := hj b0 (List.mem_cons_self _ _)
    have hrest : ∀ b ∈ rest, j ≠ base + b := fun b hb => hj b (List.mem_cons_of_mem _ hb)
    simp only [bindDynamicCBsAux]
    split
    · have hT := ih
        (fun j' => if j' = base + b0 then Handles b0 else Comm.1 j',
         fun j' => if j' = base + b0 then ((CBs b0).BaseOffset + (CBs b0).DynamicOffset) / 16
           else Comm.2.1 j',
         fun j' => if j' = base + b0 then AlignUp ((CBs b0).RangeSize / 16) 16
           else Comm.2.2 j') j hrest
      exact ⟨hT.1.trans (by simp [hjb]), hT.2.1.trans (by simp [hjb]),
        hT.2.2.trans (by simp [hjb])⟩
    · exact ih Comm j hrest

/-- After the dynamic-CB loop, every visited slot holds the cache-derived
native buffer, first-constant `(BaseOffset + DynamicOffset) / 16`, and
constant-count `AlignUp(RangeSize / 16, 16)` — either the loop wrote them,
or they were already equal and the loop skipped the slot. -/
lemma bindDynamicCBsAux_post (CBs : Nat → CachedCB) (Handles : Nat → Option Nat)
    (base : Nat) :
    ∀ (L : List Nat), L.Nodup →
      ∀ (Comm : (Nat → Option Nat) × (Nat → Nat) × (Nat → Nat)), ∀ b ∈ L,
      (bindDynamicCBsAux CBs Handles base L Comm).1.1 (base + b) = Handles b ∧
      (bindDynamicCBsAux CBs Handles base L Comm).1.2.1 (base + b) =
        ((CBs b).BaseOffset + (CBs b).DynamicOffset) / 16 ∧
      (bindDynamicCBsAux CBs Handles base L Comm).1.2.2 (base + b) =
        AlignUp ((CBs b).RangeSize / 16) 16 := by
  intro L
  induction L with
  | nil => intro _ Comm b hb; cases hb
  | cons b0 rest ih =>
    intro hnd Comm b hb
    rw [List.nodup_cons] at hnd
    have hnotin : ∀ b' ∈ rest, base + b0 ≠ base + b' := by
      intro b' hb'
      have : b0 ≠ b' := fun h => hnd.1 (h ▸ hb')
      omega
    simp only [bindDynamicCBsAux]
    rcases List.mem_cons.mp hb with rfl | hbrest
    · split
      · have hT := bindDynamicCBsAux_frame CBs Handles base rest
          (fun j' => if j' = base + b then Handles b else Comm.1 j',
           fun j' => if j' = base + b then ((CBs b).BaseOffset + (CBs b).DynamicOffset) / 16
             else Comm.2.1 j',
           fun j' => if j' = base + b then AlignUp ((CBs b).RangeSize / 16) 16
             else Comm.2.2 j') (base + b) hnotin
        exact ⟨hT.1.trans (by simp), hT.2.1.trans (by simp), hT.2.2.trans (by simp)⟩
      · rename_i hcond
        push_neg at hcond
        have h := bindDynamicCBsAux_frame CBs Handles base rest Comm (base + b) hnotin
        exact ⟨h.1.trans hcond.1, h.2.1.trans hcond.2.1, h.2.2.trans hcond.2.2⟩
    · split
      · exact ih hnd.2
          (fun j' => if j' = base + b0 then Handles b0 else Comm.1 j',
           fun j' => if j' = base + b0 then ((CBs b0).BaseOffset + (CBs b0).DynamicOffset) / 16
             else Comm.2.1 j',
           fun j' => if j' = base + b0 then AlignUp ((CBs b0).RangeSize / 16) 16
             else Comm.2.2 j') b hbrest
      · exact ih hnd.2 Comm b hbrest

/-- The visited-slot list of `BindDynamicCBs` has no duplicates. -/
lemma dynamicCBBindings_nodup (s : CacheState) (ShaderInd : Nat) :
    (dynamicCBBindings s ShaderInd).Nodup :=
  (List.nodup_range 16).filter _

/-- A slot index is visited by `BindDynamicCBs` exactly when its
`DynamicCBOffsetsMask` bit is set (and it is within the 16-bit mask). -/
lemma mem_dynamicCBBindings (s : CacheState) (ShaderInd b : Nat) :
    b ∈ dynamicCBBindings s ShaderInd ↔
      b < 16 ∧ (s.DynamicCBOffsetsMask ShaderInd).testBit b = true := by
  unfold dynamicCBBindings
  rw [List.mem_filter, List.mem_range]

/-! ### Concrete example data (the spec's worked constant-buffer example) -/

/-- A 4096-byte buffer whose native handle has identity 7. -/
def exBuffer : BufferD3D11Impl := { uiSizeInBytes := 4096, pd3d11Buffer := 7 }

/-- A bind-point set active in stage 0 only, slot 0. -/
def exBindPoints : D3D11ResourceBindPoints := { ActiveStagesMask := 1, Bindings := fun _ => 0 }

/-- Cache after `Initialize` (slot 0 dynamic-eligible in every stage) and
`SetCB` with `BufferOffset = 256`, `BufferRange = 1024` on the 4096-byte
buffer. -/
def exCacheAfterSetCB : CacheState :=
  (initCache fun _ => 1).SetCB exBindPoints (some exBuffer) 256 1024

/-- The same cache after `SetDynamicCBOffset` with `DynamicOffset = 512`. -/
def exCacheDyn : CacheState := exCacheAfterSetCB.SetDynamicCBOffset exBindPoints 512

/-! ### Claims C1-C4 -/

/-- C1: every constant-buffer slot written by `BindCBs` receives
first-constant `(BaseOffset + DynamicOffset) / 16` and constant-count
`AlignUp(RangeSize / 16, 16)` (16-byte-constant units); every slot visited
by `BindDynamicCBs` ends up holding the same derived values; and for the
spec's example (offset 256, range 1024, 4096-byte buffer,
`DynamicOffset = 512`) the first-constant is 48 and the constant-count
is 64. -/
theorem C1_bind_cb_constant_arithmetic :
    (∀ (ResCount : Nat) (CBs : Nat → CachedCB) (Handles : Nat → Option Nat)
        (BaseBinding : Nat) (Committed : Nat → Option Nat × Nat × Nat) (r : Nat),
        r < ResCount →
        (BindCBs ResCount CBs Handles BaseBinding Committed).1 (BaseBinding + r) =
          (Handles r, ((CBs r).BaseOffset + (CBs r).DynamicOffset) / 16,
           AlignUp ((CBs r).RangeSize / 16) 16)) ∧
    (∀ (s : CacheState) (ShaderInd BaseBinding : Nat)
        (Committed : (Nat → Option Nat) × (Nat → Nat) × (Nat → Nat)),
        ∀ b ∈ dynamicCBBindings s ShaderInd,
        (s.BindDynamicCBs ShaderInd BaseBinding Committed).1.1 (BaseBinding + b) =
          s.cbHandles ShaderInd b ∧
        (s.BindDynamicCBs ShaderInd BaseBinding Committed).1.2.1 (BaseBinding + b) =
          ((s.cbs ShaderInd b).BaseOffset + (s.cbs ShaderInd b).DynamicOffset) / 16 ∧
        (s.BindDynamicCBs ShaderInd BaseBinding Committed).1.2.2 (BaseBinding + b) =
          AlignUp ((s.cbs ShaderInd b).RangeSize / 16) 16) ∧
    ((exCacheAfterSetCB.cbs 0 0).allowsDynamicOffset = true ∧
     ((exCacheDyn.cbs 0 0).BaseOffset + (exCacheDyn.cbs 0 0).DynamicOffset) / 16 = 48 ∧
     AlignUp ((exCacheDyn.cbs 0 0).RangeSize / 16) 16 = 64 ∧
     (BindCBs 1 (exCacheDyn.cbs 0) (exCacheDyn.cbHandles 0) 0
         (fun _ => (none, 0, 0))).1 0 = (some 7, 48, 64) ∧
     (exCacheDyn.BindDynamicCBs 0 0 (fun _ => none, fun _ => 0, fun _ => 0)).1.2.1 0 = 48 ∧
     (exCacheDyn.BindDynamicCBs 0 0 (fun _ => none, fun _ => 0, fun _ => 0)).1.2.2 0 = 64) := by
  refine ⟨?_, ?_, ?_⟩
  · intro ResCount CBs Handles BaseBinding Committed r hr
    exact diffBindAux_fst_in (cbEntry CBs Handles) (fun c e => decide (c ≠ e))
      BaseBinding ResCount 0 Committed {} r (Nat.zero_le r) (by omega)
  · intro s ShaderInd BaseBinding Committed b hb
    exact bindDynamicCBsAux_post (s.cbs ShaderInd) (s.cbHandles ShaderInd) BaseBinding
      (dynamicCBBindings s ShaderInd) (dynamicCBBindings_nodup s ShaderInd) Committed b hb
  · exact ⟨by decide, by decide, by decide, by decide, by decide, by decide⟩

/-- Witness for C1: the general `BindCBs` part applied to the spec's
concrete example yields first-constant 48 and constant-count 64 at slot
0. -/
theorem C1_bind_cb_constant_arithmetic_witness :
    (BindCBs 1 (exCacheDyn.cbs 0) (exCacheDyn.cbHandles 0) 0
        (fun _ => (none, 0, 0))).1 0 =
      (exCacheDyn.cbHandles 0 0,
       ((exCacheDyn.cbs 0 0).BaseOffset + (exCacheDyn.cbs 0 0).DynamicOffset) / 16,
       AlignUp ((exCacheDyn.cbs 0 0).RangeSize / 16) 16) :=
  C1_bind_cb_constant_arithmetic.1 1 (exCacheDyn.cbs 0) (exCacheDyn.cbHandles 0) 0
    (fun _ => (none, 0, 0)) 0 (by decide)

/-- C2: each diff-and-bind helper overwrites the committed entries of the
walked window with the cache values (pair/triple entries for
views/constant buffers), leaves entries outside the window unchanged, and
returns the exact inclusive [min, max] over the slots whose committed
entry differed before the overwrite, with the `(UINT_MAX, 0)` invalid
sentinel (false as a bool) when nothing differed. -/
theorem C2_bind_helpers_diff_and_overwrite :
    (∀ (ResCount : Nat) (CachedHandles : Nat → Option Nat) (BaseBinding : Nat)
        (Committed : Nat → Option Nat),
        (∀ r, r < ResCount → (CachedHandles r).isSome = true) →
        BaseBinding + ResCount ≤ UINT_MAX →
        (∀ r, r < ResCount →
          (BindResources ResCount CachedHandles BaseBinding Committed).1 (BaseBinding + r) =
            CachedHandles r) ∧
        (∀ j, j < BaseBinding ∨ BaseBinding + ResCount ≤ j →
          (BindResources ResCount CachedHandles BaseBinding Committed).1 j = Committed j) ∧
        (∀ d ∈ diffSlotList CachedHandles (fun c e => decide (c ≠ e)) BaseBinding ResCount Committed,
          (BindResources ResCount CachedHandles BaseBinding Committed).2.MinSlot ≤ d ∧
          d ≤ (BindResources ResCount CachedHandles BaseBinding Committed).2.MaxSlot) ∧
        (diffSlotList CachedHandles (fun c e => decide (c ≠ e)) BaseBinding ResCount Committed ≠ [] →
          (BindResources ResCount CachedHandles BaseBinding Committed).2.MinSlot ∈
            diffSlotList CachedHandles (fun c e => decide (c ≠ e)) BaseBinding ResCount Committed ∧
          (BindResources ResCount CachedHandles BaseBinding Committed).2.MaxSlot ∈
            diffSlotList CachedHandles (fun c e => decide (c ≠ e)) BaseBinding ResCount Committed) ∧
        (diffSlotList CachedHandles (fun c e => decide (c ≠ e)) BaseBinding ResCount Committed = [] →
          (BindResources ResCount CachedHandles BaseBinding Committed).2.MinSlot = UINT_MAX ∧
          (BindResources ResCount CachedHandles BaseBinding Committed).2.MaxSlot = 0) ∧
        ((BindResources ResCount CachedHandles BaseBinding Committed).2.toBool =
          !(diffSlotList CachedHandles (fun c e => decide (c ≠ e)) BaseBinding ResCount Committed).isEmpty)) ∧
    (∀ (ResCount : Nat) (Resources : Nat → CachedResource) (Handles : Nat → Option Nat)
        (BaseBinding : Nat) (Committed : Nat → Option Nat × Option Nat),
        (∀ r, r < ResCount → (Handles r).isSome = true) →
        BaseBinding + ResCount ≤ UINT_MAX →
        (∀ r, r < ResCount →
          (BindResourceViews ResCount Resources Handles BaseBinding Committed).1 (BaseBinding + r) =
            viewEntry Resources Handles r) ∧
        (∀ j, j < BaseBinding ∨ BaseBinding + ResCount ≤ j →
          (BindResourceViews ResCount Resources Handles BaseBinding Committed).1 j = Committed j) ∧
        (∀ d ∈ diffSlotList (viewEntry Resources Handles) (fun c e => decide (c.1 ≠ e.1)) BaseBinding ResCount Committed,
          (BindResourceViews ResCount Resources Handles BaseBinding Committed).2.MinSlot ≤ d ∧
          d ≤ (BindResourceViews ResCount Resources Handles BaseBinding Committed).2.MaxSlot) ∧
        (diffSlotList (viewEntry Resources Handles) (fun c e => decide (c.1 ≠ e.1)) BaseBinding ResCount Committed ≠ [] →
          (BindResourceViews ResCount Resources Handles BaseBinding Committed).2.MinSlot ∈
            diffSlotList (viewEntry Resources Handles) (fun c e => decide (c.1 ≠ e.1)) BaseBinding ResCount Committed ∧
          (BindResourceViews ResCount Resources Handles BaseBinding Committed).2.MaxSlot ∈
            diffSlotList (viewEntry Resources Handles) (fun c e => decide (c.1 ≠ e.1)) BaseBinding ResCount Committed) ∧
        (diffSlotList (viewEntry Resources Handles) (fun c e => decide (c.1 ≠ e.1)) BaseBinding ResCount Committed = [] →
          (BindResourceViews ResCount Resources Handles BaseBinding Committed).2.MinSlot = UINT_MAX ∧
          (BindResourceViews ResCount Resources Handles BaseBinding Committed).2.MaxSlot = 0) ∧
        ((BindResourceViews ResCount Resources Handles BaseBinding Committed).2.toBool =
          !(diffSlotList (viewEntry Resources Handles) (fun c e => decide (c.1 ≠ e.1)) BaseBinding ResCount Committed).isEmpty)) ∧
    (∀ (ResCount : Nat) (CBs : Nat → CachedCB) (Handles : Nat → Option Nat)
        (BaseBinding : Nat) (Committed : Nat → Option Nat × Nat × Nat),
        (∀ r, r < ResCount → (Handles r).isSome = true) →
        BaseBinding + ResCount ≤ UINT_MAX →
        (∀ r, r < ResCount →
          (BindCBs ResCount CBs Handles BaseBinding Committed).1 (BaseBinding + r) =
            cbEntry CBs Handles r) ∧
        (∀ j, j < BaseBinding ∨ BaseBinding + ResCount ≤ j →
          (BindCBs ResCount CBs Handles BaseBinding Committed).1 j = Committed j) ∧
        (∀ d ∈ diffSlotList (cbEntry CBs Handles) (fun c e => decide (c ≠ e)) BaseBinding ResCount Committed,
          (BindCBs ResCount CBs Handles BaseBinding Committed).2.MinSlot ≤ d ∧
          d ≤ (BindCBs ResCount CBs Handles BaseBinding Committed).2.MaxSlot) ∧
        (diffSlotList (cbEntry CBs Handles) (fun c e => decide (c ≠ e)) BaseBinding ResCount Committed ≠ [] →
          (BindCBs ResCount CBs Handles BaseBinding Committed).2.MinSlot ∈
            diffSlotList (cbEntry CBs Handles) (fun c e => decide (c ≠ e)) BaseBinding ResCount Committed ∧
          (BindCBs ResCount CBs Handles BaseBinding Committed).2.MaxSlot ∈
            diffSlotList (cbEntry CBs Handles) (fun c e => decide (c ≠ e)) BaseBinding ResCount Committed) ∧
        (diffSlotList (cbEntry CBs Handles) (fun c e => decide (c ≠ e)) BaseBinding ResCount Committed = [] →
          (BindCBs ResCount CBs Handles BaseBinding Committed).2.MinSlot = UINT_MAX ∧
          (BindCBs ResCount CBs Handles BaseBinding Committed).2.MaxSlot = 0) ∧
        ((BindCBs ResCount CBs Handles BaseBinding Committed).2.toBool =
          !(diffSlotList (cbEntry CBs Handles) (fun c e => decide (c ≠ e)) BaseBinding ResCount Committed).isEmpty)) := by
  refine ⟨?_, ?_, ?_⟩
  · intro ResCount CachedHandles BaseBinding Committed _hpop hwrap
    have hmm := diffBind_minmax CachedHandles (fun c e => decide (c ≠ e))
      BaseBinding ResCount Committed hwrap
    refine ⟨?_, ?_, hmm.1, hmm.2.1, hmm.2.2.1, hmm.2.2.2⟩
    · intro r hr
      exact diffBindAux_fst_in CachedHandles (fun c e => decide (c ≠ e))
        BaseBinding ResCount 0 Committed {} r (Nat.zero_le r) (by omega)
    · intro j hj
      exact diffBindAux_fst_out CachedHandles (fun c e => decide (c ≠ e))
        BaseBinding ResCount 0 Committed {} j (by intro r _ hr2; omega)
  · intro ResCount Resources Handles BaseBinding Committed _hpop hwrap
    have hmm := diffBind_minmax (viewEntry Resources Handles) (fun c e => decide (c.1 ≠ e.1))
      BaseBinding ResCount Committed hwrap
    refine ⟨?_, ?_, hmm.1, hmm.2.1, hmm.2.2.1, hmm.2.2.2⟩
    · intro r hr
      exact diffBindAux_fst_in (viewEntry Resources Handles) (fun c e => decide (c.1 ≠ e.1))
        BaseBinding ResCount 0 Committed {} r (Nat.zero_le r) (by omega)
    · intro j hj
      exact diffBindAux_fst_out (viewEntry Resources Handles) (fun c e => decide (c.1 ≠ e.1))
        BaseBinding ResCount 0 Committed {} j (by intro r _ hr2; omega)
  · intro ResCount CBs Handles BaseBinding Committed _hpop hwrap
    have hmm := diffBind_minmax (cbEntry CBs Handles) (fun c e => decide (c ≠ e))
      BaseBinding ResCount Committed hwrap
    refine ⟨?_, ?_, hmm.1, hmm.2.1, hmm.2.2.1, hmm.2.2.2⟩
    · intro r hr
      exact diffBindAux_fst_in (cbEntry CBs Handles) (fun c e => decide (c ≠ e))
        BaseBinding ResCount 0 Committed {} r (Nat.zero_le r) (by omega)
    · intro j hj
      exact diffBindAux_fst_out (cbEntry CBs Handles) (fun c e => decide (c ≠ e))
        BaseBinding ResCount 0 Committed {} j (by intro r _ hr2; omega)

/-- Witness for C2: `BindResources` on a one-slot cache (handle 5, empty
committed array) overwrites slot 0 with the cache handle. -/
theorem C2_bind_helpers_diff_and_overwrite_witness :
    (BindResources 1 (fun _ => some 5) 0 (fun _ => none)).1 0 = some 5 :=
  (C2_bind_helpers_diff_and_overwrite.1 1 (fun _ => some 5) 0 (fun _ => none)
    (fun _ _ => rfl) (by decide)).1 0 (by decide)

/-- C3: running `BindResources` (or `BindResourceViews`) a second time, on
the committed arrays the first run produced, reports no changed slot: the
returned range converts to `false`. -/
theorem C3_bind_idempotent :
    (∀ (ResCount : Nat) (CachedHandles : Nat → Option Nat) (BaseBinding : Nat)
        (Committed : Nat → Option Nat),
        (∀ r, r < ResCount → (CachedHandles r).isSome = true) →
        (BindResources ResCount CachedHandles BaseBinding
          (BindResources ResCount CachedHandles BaseBinding Committed).1).2.toBool = false) ∧
    (∀ (ResCount : Nat) (Resources : Nat → CachedResource) (Handles : Nat → Option Nat)
        (BaseBinding : Nat) (Committed : Nat → Option Nat × Option Nat),
        (∀ r, r < ResCount → (Handles r).isSome = true) →
        (BindResourceViews ResCount Resources Handles BaseBinding
          (BindResourceViews ResCount Resources Handles BaseBinding Committed).1).2.toBool = false) := by
  constructor
  · intro ResCount CachedHandles BaseBinding Committed _hpop
    have hnil : diffSlotList CachedHandles (fun c e => decide (c ≠ e)) BaseBinding ResCount
        ((BindResources ResCount CachedHandles BaseBinding Committed).1) = [] := by
      unfold diffSlotList
      rw [List.map_eq_nil_iff, List.filter_eq_nil_iff]
      intro k hk
      rw [List.mem_range] at hk
      have h : (BindResources ResCount CachedHandles BaseBinding Committed).1
          (BaseBinding + k) = CachedHandles k :=
        diffBindAux_fst_in CachedHandles (fun c e => decide (c ≠ e))
          BaseBinding ResCount 0 Committed {} k (Nat.zero_le k) (by omega)
      rw [h]
      simp
    show (diffBindAux CachedHandles (fun c e => decide (c ≠ e)) BaseBinding ResCount 0
      ((BindResources ResCount CachedHandles BaseBinding Committed).1) {}).2.toBool = false
    rw [diffBind_snd_eq_fold, hnil]
    rfl
  · intro ResCount Resources Handles BaseBinding Committed _hpop
    have hnil : diffSlotList (viewEntry Resources Handles) (fun c e => decide (c.1 ≠ e.1))
        BaseBinding ResCount
        ((BindResourceViews ResCount Resources Handles BaseBinding Committed).1) = [] := by
      unfold diffSlotList
      rw [List.map_eq_nil_iff, List.filter_eq_nil_iff]
      intro k hk
      rw [List.mem_range] at hk
      have h : (BindResourceViews ResCount Resources Handles BaseBinding Committed).1
          (BaseBinding + k) = viewEntry Resources Handles k :=
        diffBindAux_fst_in (viewEntry Resources Handles) (fun c e => decide (c.1 ≠ e.1))
          BaseBinding ResCount 0 Committed {} k (Nat.zero_le k) (by omega)
      rw [h]
      simp
    show (diffBindAux (viewEntry Resources Handles) (fun c e => decide (c.1 ≠ e.1))
      BaseBinding ResCount 0
      ((BindResourceViews ResCount Resources Handles BaseBinding Committed).1) {}).2.toBool = false
    rw [diffBind_snd_eq_fold, hnil]
    rfl

/-- Witness for C3: the second of two back-to-back `BindResources` runs of
a one-slot cache reports nothing changed. -/
theorem C3_bind_idempotent_witness :
    (BindResources 1 (fun _ => some 5) 0
      (BindResources 1 (fun _ => some 5) 0 (fun _ => none)).1).2.toBool = false :=
  C3_bind_idempotent.1 1 (fun _ => some 5) 0 (fun _ => none) (fun _ _ => rfl)

/-- C4: `CachedCB::Set` with a non-null buffer and `BufferRange = 0` stores
the remainder of the buffer after `BaseOffset` as the range; in the spec's
instance (offset 0, range 0, 4096-byte buffer) the stored range is 4096 and
`AllowsDynamicOffset()` is false, both on the descriptor itself and on the
slot `SetCB` stores it into. -/
theorem C4_setcb_zero_range (pB : BufferD3D11Impl) (BufferOffset : Nat)
    (h : BufferOffset ≤ pB.uiSizeInBytes) :
    (CachedCB.set (some pB) BufferOffset 0).RangeSize = pB.uiSizeInBytes - BufferOffset ∧
    BufferOffset + (CachedCB.set (some pB) BufferOffset 0).RangeSize = pB.uiSizeInBytes ∧
    ((CachedCB.set (some exBuffer) 0 0).RangeSize = 4096 ∧
     (CachedCB.set (some exBuffer) 0 0).allowsDynamicOffset = false ∧
     ((initCache fun _ => 1).SetCB exBindPoints (some exBuffer) 0 0).cbs 0 0 =
       { pBuff := some exBuffer, BaseOffset := 0, RangeSize := 4096, DynamicOffset := 0 } ∧
     (((initCache fun _ => 1).SetCB exBindPoints (some exBuffer) 0 0).cbs 0 0).allowsDynamicOffset
       = false) := by
  refine ⟨rfl, ?_, by decide, by decide, by decide, by decide⟩
  show BufferOffset + (pB.uiSizeInBytes - BufferOffset) = pB.uiSizeInBytes
  omega

/-- Witness for C4: the zero-range rule applied to the 4096-byte example
buffer at offset 0. -/
theorem C4_setcb_zero_range_witness :
    (0 : Nat) ≤ exBuffer.uiSizeInBytes ∧
    (CachedCB.set (some exBuffer) 0 0).RangeSize = exBuffer.uiSizeInBytes - 0 :=
  ⟨by decide, (C4_setcb_zero_range exBuffer 0 (by decide)).1⟩

/-! ### Generic lemmas about the per-stage folds -/

/-- A bind-point set iterates over pairwise-distinct stages. -/
lemma activeStages_nodup (bp : D3D11ResourceBindPoints) : bp.activeStages.Nodup :=
  (List.nodup_range _).filter _

/-- Folding `&&` of a per-stage predicate is `all`. -/
lemma foldl_and (p : Nat → Bool) :
    ∀ (L : List Nat) (b : Bool), L.foldl (fun a j => a && p j) b = (b && L.all p) := by
  intro L
  induction L with
  | nil => intro b; simp
  | cons j rest ih =>
    intro b
    rw [List.foldl_cons, ih, List.all_cons, Bool.and_assoc]

/-- Closed form of a fold that updates, for each stage `j` of a
duplicate-free stage list, the slot `(j, bind j)` with a value computed
from the stage and the slot's current content. -/
lemma foldl_upd2 {α : Type} (bind : Nat → Nat) (h : Nat → α → α) :
    ∀ (L : List Nat), L.Nodup → ∀ (g : Nat → Nat → α) (i b : Nat),
      (L.foldl (fun g' j => upd2 g' j (bind j) (h j (g' j (bind j)))) g) i b =
        if i ∈ L ∧ b = bind i then h i (g i b) else g i b := by
  intro L
  induction L with
  | nil => intro _ g i b; simp
  | cons j rest ih =>
    intro hnd g i b
    rw [List.nodup_cons] at hnd
    rw [List.foldl_cons, ih hnd.2]
    by_cases hi : i = j
    · by_cases hb : b = bind i
      · rw [if_neg fun hc => hnd.1 (hi ▸ hc.1)]
        rw [if_pos ⟨by rw [hi]; exact List.mem_cons_self _ _, hb⟩]
        simp [upd2, hi, hb]
      · rw [if_neg fun hc => hb hc.2, if_neg fun hc => hb hc.2]
        simp only [upd2]
        rw [if_neg fun hc => hb (hc.2.trans (by rw [hi]))]
    · have hg : upd2 g j (bind j) (h j (g j (bind j))) i b = g i b := by
        simp only [upd2]
        exact if_neg fun hc => hi hc.1
      rw [hg]
      by_cases h1 : i ∈ rest ∧ b = bind i
      · rw [if_pos h1, if_pos ⟨List.mem_cons_of_mem _ h1.1, h1.2⟩]
      · rw [if_neg h1,
          if_neg fun hc => h1 ⟨(List.mem_cons.mp hc.1).resolve_left hi, hc.2⟩]

/-- Closed form of a fold that leaves the first mask unchanged and
recomputes, for each stage of a duplicate-free stage list, that stage's
entry of the second mask from both masks' current entries. -/
lemma foldl_maskpair (F : Nat → Nat → Nat → Nat) :
    ∀ (L : List Nat), L.Nodup → ∀ (sl m : Nat → Nat),
      (L.foldl (fun (p : (Nat → Nat) × (Nat → Nat)) j =>
          (p.1, upd1 p.2 j (F (p.1 j) (p.2 j) j))) (sl, m)).1 = sl ∧
      ∀ i, (L.foldl (fun (p : (Nat → Nat) × (Nat → Nat)) j =>
          (p.1, upd1 p.2 j (F (p.1 j) (p.2 j) j))) (sl, m)).2 i =
        if i ∈ L then F (sl i) (m i) i else m i := by
  intro L
  induction L with
  | nil => intro _ sl m; exact ⟨rfl, fun i => by simp⟩
  | cons j rest ih =>
    intro hnd sl m
    rw [List.nodup_cons] at hnd
    rw [List.foldl_cons]
    dsimp only
    obtain ⟨ihfst, ihsnd⟩ := ih hnd.2 sl (upd1 m j (F (sl j) (m j) j))
    refine ⟨ihfst, fun i => ?_⟩
    rw [ihsnd i]
    by_cases hi : i = j
    · rw [if_neg (hi ▸ fun hc => hnd.1 hc), if_pos (by rw [hi]; exact List.mem_cons_self _ _)]
      simp [upd1, hi]
    · have hu : upd1 m j (F (sl j) (m j) j) i = m i := by
        simp only [upd1]
        exact if_neg hi
      rw [hu]
      by_cases h1 : i ∈ rest
      · rw [if_pos h1, if_pos (List.mem_cons_of_mem _ h1)]
      · rw [if_neg h1, if_neg fun hc => h1 ((List.mem_cons.mp hc).resolve_left hi)]

/-! ### Closed forms of the state-mutating operations -/

/-- Closed form of `SetD3D11ResourceInternal<CBV>`: the descriptor and
native handle are written at `(i, Bindings i)` for every active stage `i`,
that stage's dynamic-offset mask entry is recomputed, and nothing else
changes. -/
lemma setCBInternal_spec (s : CacheState) (bp : D3D11ResourceBindPoints)
    (newCB : CachedCB) (pd : Option Nat) :
    (∀ i b, (setCBInternal s bp newCB pd).cbs i b =
      if i ∈ bp.activeStages ∧ b = bp.Bindings i then newCB else s.cbs i b) ∧
    (∀ i b, (setCBInternal s bp newCB pd).cbHandles i b =
      if i ∈ bp.activeStages ∧ b = bp.Bindings i then pd else s.cbHandles i b) ∧
    (∀ i, (setCBInternal s bp newCB pd).DynamicCBOffsetsMask i =
      if i ∈ bp.activeStages then
        updateDynamicCBOffsetFlagCBV (s.DynamicCBSlotsMask i) (s.DynamicCBOffsetsMask i)
          newCB (bp.Bindings i)
      else s.DynamicCBOffsetsMask i) ∧
    (setCBInternal s bp newCB pd).DynamicCBSlotsMask = s.DynamicCBSlotsMask ∧
    (setCBInternal s bp newCB pd).srvs = s.srvs ∧
    (setCBInternal s bp newCB pd).srvHandles = s.srvHandles ∧
    (setCBInternal s bp newCB pd).samplers = s.samplers ∧
    (setCBInternal s bp newCB pd).samplerHandles = s.samplerHandles ∧
    (setCBInternal s bp newCB pd).uavs = s.uavs ∧
    (setCBInternal s bp newCB pd).uavHandles = s.uavHandles := by
  have hnd := activeStages_nodup bp
  have hcbs : List.foldl (fun g j => upd2 g j (bp.Bindings j) newCB) s.cbs bp.activeStages =
      (setCBInternal s bp newCB pd).cbs :=
    List.foldl_hom (fun st : CacheState => st.cbs) _ _ _ _ (fun _ _ => rfl)
  have hh : List.foldl (fun g j => upd2 g j (bp.Bindings j) pd) s.cbHandles bp.activeStages =
      (setCBInternal s bp newCB pd).cbHandles :=
    List.foldl_hom (fun st : CacheState => st.cbHandles) _ _ _ _ (fun _ _ => rfl)
  have hmask : List.foldl (fun (p : (Nat → Nat) × (Nat → Nat)) j =>
        (p.1, upd1 p.2 j (updateDynamicCBOffsetFlagCBV (p.1 j) (p.2 j) newCB (bp.Bindings j))))
        (s.DynamicCBSlotsMask, s.DynamicCBOffsetsMask) bp.activeStages =
      ((setCBInternal s bp newCB pd).DynamicCBSlotsMask,
       (setCBInternal s bp newCB pd).DynamicCBOffsetsMask) :=
    List.foldl_hom (fun st : CacheState => (st.DynamicCBSlotsMask, st.DynamicCBOffsetsMask))
      _ _ _ _ (fun _ _ => rfl)
  have hmp := foldl_maskpair
    (fun a b j => updateDynamicCBOffsetFlagCBV a b newCB (bp.Bindings j))
    bp.activeStages hnd s.DynamicCBSlotsMask s.DynamicCBOffsetsMask
  refine ⟨?_, ?_, ?_, ?_, ?_, ?_, ?_, ?_, ?_, ?_⟩
  · intro i b
    rw [← hcbs]
    exact foldl_upd2 bp.Bindings (fun _ _ => newCB) bp.activeStages hnd s.cbs i b
  · intro i b
    rw [← hh]
    exact foldl_upd2 bp.Bindings (fun _ _ => pd) bp.activeStages hnd s.cbHandles i b
  · intro i
    have e1 : (setCBInternal s bp newCB pd).DynamicCBOffsetsMask i =
        (List.foldl (fun (p : (Nat → Nat) × (Nat → Nat)) j =>
          (p.1, upd1 p.2 j (updateDynamicCBOffsetFlagCBV (p.1 j) (p.2 j) newCB (bp.Bindings j))))
          (s.DynamicCBSlotsMask, s.DynamicCBOffsetsMask) bp.activeStages).2 i :=
      congrFun (congrArg Prod.snd hmask.symm) i
    rw [e1]
    exact hmp.2 i
  · have e1 : (setCBInternal s bp newCB pd).DynamicCBSlotsMask =
        (List.foldl (fun (p : (Nat → Nat) × (Nat → Nat)) j =>
          (p.1, upd1 p.2 j (updateDynamicCBOffsetFlagCBV (p.1 j) (p.2 j) newCB (bp.Bindings j))))
          (s.DynamicCBSlotsMask, s.DynamicCBOffsetsMask) bp.activeStages).1 :=
      congrArg Prod.fst hmask.symm
    rw [e1]
    exact hmp.1
  · exact (List.foldl_hom (fun st : CacheState => st.srvs)
      (setCBInternalStep newCB pd bp.Bindings) (fun m _ => m) bp.activeStages s
      (fun _ _ => rfl)).symm.trans (List.foldl_fixed _)
  · exact (List.foldl_hom (fun st : CacheState => st.srvHandles)
      (setCBInternalStep newCB pd bp.Bindings) (fun m _ => m) bp.activeStages s
      (fun _ _ => rfl)).symm.trans (List.foldl_fixed _)
  · exact (List.foldl_hom (fun st : CacheState => st.samplers)
      (setCBInternalStep newCB pd bp.Bindings) (fun m _ => m) bp.activeStages s
      (fun _ _ => rfl)).symm.trans (List.foldl_fixed _)
  · exact (List.foldl_hom (fun st : CacheState => st.samplerHandles)
      (setCBInternalStep newCB pd bp.Bindings) (fun m _ => m) bp.activeStages s
      (fun _ _ => rfl)).symm.trans (List.foldl_fixed _)
  · exact (List.foldl_hom (fun st : CacheState => st.uavs)
      (setCBInternalStep newCB pd bp.Bindings) (fun m _ => m) bp.activeStages s
      (fun _ _ => rfl)).symm.trans (List.foldl_fixed _)
  · exact (List.foldl_hom (fun st : CacheState => st.uavHandles)
      (setCBInternalStep newCB pd bp.Bindings) (fun m _ => m) bp.activeStages s
      (fun _ _ => rfl)).symm.trans (List.foldl_fixed _)

/-- Closed form of `SetD3D11ResourceInternal<SRV>`. -/
lemma setSRVInternal_spec (s : CacheState) (bp : D3D11ResourceBindPoints)
    (newRes : CachedResource) (pd : Option Nat) :
    (∀ i b, (setSRVInternal s bp newRes pd).srvs i b =
      if i ∈ bp.activeStages ∧ b = bp.Bindings i then newRes else s.srvs i b) ∧
    (∀ i b, (setSRVInternal s bp newRes pd).srvHandles i b =
      if i ∈ bp.activeStages ∧ b = bp.Bindings i then pd else s.srvHandles i b) ∧
    (setSRVInternal s bp newRes pd).cbs = s.cbs ∧
    (setSRVInternal s bp newRes pd).cbHandles = s.cbHandles ∧
    (setSRVInternal s bp newRes pd).samplers = s.samplers ∧
    (setSRVInternal s bp newRes pd).samplerHandles = s.samplerHandles ∧
    (setSRVInternal s bp newRes pd).uavs = s.uavs ∧
    (setSRVInternal s bp newRes pd).uavHandles = s.uavHandles ∧
    (setSRVInternal s bp newRes pd).DynamicCBSlotsMask = s.DynamicCBSlotsMask ∧
    (setSRVInternal s bp newRes pd).DynamicCBOffsetsMask = s.DynamicCBOffsetsMask := by
  have hnd := activeStages_nodup bp
  have ha : List.foldl (fun g j => upd2 g j (bp.Bindings j) newRes) s.srvs bp.activeStages =
      (setSRVInternal s bp newRes pd).srvs :=
    List.foldl_hom (fun st : CacheState => st.srvs) _ _ _ _ (fun _ _ => rfl)
  have hh : List.foldl (fun g j => upd2 g j (bp.Bindings j) pd) s.srvHandles bp.activeStages =
      (setSRVInternal s bp newRes pd).srvHandles :=
    List.foldl_hom (fun st : CacheState => st.srvHandles) _ _ _ _ (fun _ _ => rfl)
  refine ⟨?_, ?_, ?_, ?_, ?_, ?_, ?_, ?_, ?_, ?_⟩
  · intro i b
    rw [← ha]
    exact foldl_upd2 bp.Bindings (fun _ _ => newRes) bp.activeStages hnd s.srvs i b
  · intro i b
    rw [← hh]
    exact foldl_upd2 bp.Bindings (fun _ _ => pd) bp.activeStages hnd s.srvHandles i b
  · exact (List.foldl_hom (fun st : CacheState => st.cbs)
      (setSRVInternalStep newRes pd bp.Bindings) (fun m _ => m) bp.activeStages s
      (fun _ _ => rfl)).symm.trans (List.foldl_fixed _)
  · exact (List.foldl_hom (fun st : CacheState => st.cbHandles)
      (setSRVInternalStep newRes pd bp.Bindings) (fun m _ => m) bp.activeStages s
      (fun _ _ => rfl)).symm.trans (List.foldl_fixed _)
  · exact (List.foldl_hom (fun st : CacheState => st.samplers)
      (setSRVInternalStep newRes pd bp.Bindings) (fun m _ => m) bp.activeStages s
      (fun _ _ => rfl)).symm.trans (List.foldl_fixed _)
  · exact (List.foldl_hom (fun st : CacheState => st.samplerHandles)
      (setSRVInternalStep newRes pd bp.Bindings) (fun m _ => m) bp.activeStages s
      (fun _ _ => rfl)).symm.trans (List.foldl_fixed _)
  · exact (List.foldl_hom (fun st : CacheState => st.uavs)
      (setSRVInternalStep newRes pd bp.Bindings) (fun m _ => m) bp.activeStages s
      (fun _ _ => rfl)).symm.trans (List.foldl_fixed _)
  · exact (List.foldl_hom (fun st : CacheState => st.uavHandles)
      (setSRVInternalStep newRes pd bp.Bindings) (fun m _ => m) bp.activeStages s
      (fun _ _ => rfl)).symm.trans (List.foldl_fixed _)
  · exact (List.foldl_hom (fun st : CacheState => st.DynamicCBSlotsMask)
      (setSRVInternalStep newRes pd bp.Bindings) (fun m _ => m) bp.activeStages s
      (fun _ _ => rfl)).symm.trans (List.foldl_fixed _)
  · exact (List.foldl_hom (fun st : CacheState => st.DynamicCBOffsetsMask)
      (setSRVInternalStep newRes pd bp.Bindings) (fun m _ => m) bp.activeStages s
      (fun _ _ => rfl)).symm.trans (List.foldl_fixed _)

/-- Closed form of `SetD3D11ResourceInternal<UAV>`. -/
lemma setUAVInternal_spec (s : CacheState) (bp : D3D11ResourceBindPoints)
    (newRes : CachedResource) (pd : Option Nat) :
    (∀ i b, (setUAVInternal s bp newRes pd).uavs i b =
      if i ∈ bp.activeStages ∧ b = bp.Bindings i then newRes else s.uavs i b) ∧
    (∀ i b, (setUAVInternal s bp newRes pd).uavHandles i b =
      if i ∈ bp.activeStages ∧ b = bp.Bindings i then pd else s.uavHandles i b) ∧
    (setUAVInternal s bp newRes pd).cbs = s.cbs ∧
    (setUAVInternal s bp newRes pd).cbHandles = s.cbHandles ∧
    (setUAVInternal s bp newRes pd).srvs = s.srvs ∧
    (setUAVInternal s bp newRes pd).srvHandles = s.srvHandles ∧
    (setUAVInternal s bp newRes pd).samplers = s.samplers ∧
    (setUAVInternal s bp newRes pd).samplerHandles = s.samplerHandles ∧
    (setUAVInternal s bp newRes pd).DynamicCBSlotsMask = s.DynamicCBSlotsMask ∧
    (setUAVInternal s bp newRes pd).DynamicCBOffsetsMask = s.DynamicCBOffsetsMask := by
  have hnd := activeStages_nodup bp
  have ha : List.foldl (fun g j => upd2 g j (bp.Bindings j) newRes) s.uavs bp.activeStages =
      (setUAVInternal s bp newRes pd).uavs :=
    List.foldl_hom (fun st : CacheState => st.uavs) _ _ _ _ (fun _ _ => rfl)
  have hh : List.foldl (fun g j => upd2 g j (bp.Bindings j) pd) s.uavHandles bp.activeStages =
      (setUAVInternal s bp newRes pd).uavHandles :=
    List.foldl_hom (fun st : CacheState => st.uavHandles) _ _ _ _ (fun _ _ => rfl)
  refine ⟨?_, ?_, ?_, ?_, ?_, ?_, ?_, ?_, ?_, ?_⟩
  · intro i b
    rw [← ha]
    exact foldl_upd2 bp.Bindings (fun _ _ => newRes) bp.activeStages hnd s.uavs i b
  · intro i b
    rw [← hh]
    exact foldl_upd2 bp.Bindings (fun _ _ => pd) bp.activeStages hnd s.uavHandles i b
  · exact (List.foldl_hom (fun st : CacheState => st.cbs)
      (setUAVInternalStep newRes pd bp.Bindings) (fun m _ => m) bp.activeStages s
      (fun _ _ => rfl)).symm.trans (List.foldl_fixed _)
  · exact (List.foldl_hom (fun st : CacheState => st.cbHandles)
      (setUAVInternalStep newRes pd bp.Bindings) (fun m _ => m) bp.activeStages s
      (fun _ _ => rfl)).symm.trans (List.foldl_fixed _)
  · exact (List.foldl_hom (fun st : CacheState => st.srvs)
      (setUAVInternalStep newRes pd bp.Bindings) (fun m _ => m) bp.activeStages s
      (fun _ _ => rfl)).symm.trans (List.foldl_fixed _)
  · exact (List.foldl_hom (fun st : CacheState => st.srvHandles)
      (setUAVInternalStep newRes pd bp.Bindings) (fun m _ => m) bp.activeStages s
      (fun _ _ => rfl)).symm.trans (List.foldl_fixed _)
  · exact (List.foldl_hom (fun st : CacheState => st.samplers)
      (setUAVInternalStep newRes pd bp.Bindings) (fun m _ => m) bp.activeStages s
      (fun _ _ => rfl)).symm.trans (List.foldl_fixed _)
  · exact (List.foldl_hom (fun st : CacheState => st.samplerHandles)
      (setUAVInternalStep newRes pd bp.Bindings) (fun m _ => m) bp.activeStages s
      (fun _ _ => rfl)).symm.trans (List.foldl_fixed _)
  · exact (List.foldl_hom (fun st : CacheState => st.DynamicCBSlotsMask)
      (setUAVInternalStep newRes pd bp.Bindings) (fun m _ => m) bp.activeStages s
      (fun _ _ => rfl)).symm.trans (List.foldl_fixed _)
  · exact (List.foldl_hom (fun st : CacheState => st.DynamicCBOffsetsMask)
      (setUAVInternalStep newRes pd bp.Bindings) (fun m _ => m) bp.activeStages s
      (fun _ _ => rfl)).symm.trans (List.foldl_fixed _)

/-- Closed form of `SetD3D11ResourceInternal<SAMPLER>`. -/
lemma setSamplerInternal_spec (s : CacheState) (bp : D3D11ResourceBindPoints)
    (newSam : CachedSampler) (pd : Option Nat) :
    (∀ i b, (setSamplerInternal s bp newSam pd).samplers i b =
      if i ∈ bp.activeStages ∧ b = bp.Bindings i then newSam else s.samplers i b) ∧
    (∀ i b, (setSamplerInternal s bp newSam pd).samplerHandles i b =
      if i ∈ bp.activeStages ∧ b = bp.Bindings i then pd else s.samplerHandles i b) ∧
    (setSamplerInternal s bp newSam pd).cbs = s.cbs ∧
    (setSamplerInternal s bp newSam pd).cbHandles = s.cbHandles ∧
    (setSamplerInternal s bp newSam pd).srvs = s.srvs ∧
    (setSamplerInternal s bp newSam pd).srvHandles = s.srvHandles ∧
    (setSamplerInternal s bp newSam pd).uavs = s.uavs ∧
    (setSamplerInternal s bp newSam pd).uavHandles = s.uavHandles ∧
    (setSamplerInternal s bp newSam pd).DynamicCBSlotsMask = s.DynamicCBSlotsMask ∧
    (setSamplerInternal s bp newSam pd).DynamicCBOffsetsMask = s.DynamicCBOffsetsMask := by
  have hnd := activeStages_nodup bp
  have ha : List.foldl (fun g j => upd2 g j (bp.Bindings j) newSam) s.samplers bp.activeStages =
      (setSamplerInternal s bp newSam pd).samplers :=
    List.foldl_hom (fun st : CacheState => st.samplers) _ _ _ _ (fun _ _ => rfl)
  have hh : List.foldl (fun g j => upd2 g j (bp.Bindings j) pd) s.samplerHandles bp.activeStages =
      (setSamplerInternal s bp newSam pd).samplerHandles :=
    List.foldl_hom (fun st : CacheState => st.samplerHandles) _ _ _ _ (fun _ _ => rfl)
  refine ⟨?_, ?_, ?_, ?_, ?_, ?_, ?_, ?_, ?_, ?_⟩
  · intro i b
    rw [← ha]
    exact foldl_upd2 bp.Bindings (fun _ _ => newSam) bp.activeStages hnd s.samplers i b
  · intro i b
    rw [← hh]
    exact foldl_upd2 bp.Bindings (fun _ _ => pd) bp.activeStages hnd s.samplerHandles i b
  · exact (List.foldl_hom (fun st : CacheState => st.cbs)
      (setSamplerInternalStep newSam pd bp.Bindings) (fun m _ => m) bp.activeStages s
      (fun _ _ => rfl)).symm.trans (List.foldl_fixed _)
  · exact (List.foldl_hom (fun st : CacheState => st.cbHandles)
      (setSamplerInternalStep newSam pd bp.Bindings) (fun m _ => m) bp.activeStages s
      (fun _ _ => rfl)).symm.trans (List.foldl_fixed _)
  · exact (List.foldl_hom (fun st : CacheState => st.srvs)
      (setSamplerInternalStep newSam pd bp.Bindings) (fun m _ => m) bp.activeStages s
      (fun _ _ => rfl)).symm.trans (List.foldl_fixed _)
  · exact (List.foldl_hom (fun st : CacheState => st.srvHandles)
      (setSamplerInternalStep newSam pd bp.Bindings) (fun m _ => m) bp.activeStages s
      (fun _ _ => rfl)).symm.trans (List.foldl_fixed _)
  · exact (List.foldl_hom (fun st : CacheState => st.uavs)
      (setSamplerInternalStep newSam pd bp.Bindings) (fun m _ => m) bp.activeStages s
      (fun _ _ => rfl)).symm.trans (List.foldl_fixed _)
  · exact (List.foldl_hom (fun st : CacheState => st.uavHandles)
      (setSamplerInternalStep newSam pd bp.Bindings) (fun m _ => m) bp.activeStages s
      (fun _ _ => rfl)).symm.trans (List.foldl_fixed _)
  · exact (List.foldl_hom (fun st : CacheState => st.DynamicCBSlotsMask)
      (setSamplerInternalStep newSam pd bp.Bindings) (fun m _ => m) bp.activeStages s
      (fun _ _ => rfl)).symm.trans (List.foldl_fixed _)
  · exact (List.foldl_hom (fun st : CacheState => st.DynamicCBOffsetsMask)
      (setSamplerInternalStep newSam pd bp.Bindings) (fun m _ => m) bp.activeStages s
      (fun _ _ => rfl)).symm.trans (List.foldl_fixed _)

/-- Closed form of `SetDynamicCBOffset`: only the `DynamicOffset` field of
the constant-buffer descriptors at the active stages' slots changes. -/
lemma setDynamicCBOffset_spec (s : CacheState) (bp : D3D11ResourceBindPoints)
    (v : Nat) :
    (∀ i b, (s.SetDynamicCBOffset bp v).cbs i b =
      if i ∈ bp.activeStages ∧ b = bp.Bindings i then
        { s.cbs i b with DynamicOffset := v }
      else s.cbs i b) ∧
    (s.SetDynamicCBOffset bp v).cbHandles = s.cbHandles ∧
    (s.SetDynamicCBOffset bp v).srvs = s.srvs ∧
    (s.SetDynamicCBOffset bp v).srvHandles = s.srvHandles ∧
    (s.SetDynamicCBOffset bp v).samplers = s.samplers ∧
    (s.SetDynamicCBOffset bp v).samplerHandles = s.samplerHandles ∧
    (s.SetDynamicCBOffset bp v).uavs = s.uavs ∧
    (s.SetDynamicCBOffset bp v).uavHandles = s.uavHandles ∧
    (s.SetDynamicCBOffset bp v).DynamicCBSlotsMask = s.DynamicCBSlotsMask ∧
    (s.SetDynamicCBOffset bp v).DynamicCBOffsetsMask = s.DynamicCBOffsetsMask := by
  have hnd := activeStages_nodup bp
  have ha : List.foldl
      (fun g j => upd2 g j (bp.Bindings j) { g j (bp.Bindings j) with DynamicOffset := v })
      s.cbs bp.activeStages = (s.SetDynamicCBOffset bp v).cbs :=
    List.foldl_hom (fun st : CacheState => st.cbs) _ _ _ _ (fun _ _ => rfl)
  refine ⟨?_, ?_, ?_, ?_, ?_, ?_, ?_, ?_, ?_, ?_⟩
  · intro i b
    rw [← ha]
    exact foldl_upd2 bp.Bindings (fun _ cb => { cb with DynamicOffset := v })
      bp.activeStages hnd s.cbs i b
  · exact (List.foldl_hom (fun st : CacheState => st.cbHandles)
      (setDynamicCBOffsetStep v bp.Bindings) (fun m _ => m) bp.activeStages s
      (fun _ _ => rfl)).symm.trans (List.foldl_fixed _)
  · exact (List.foldl_hom (fun st : CacheState => st.srvs)
      (setDynamicCBOffsetStep v bp.Bindings) (fun m _ => m) bp.activeStages s
      (fun _ _ => rfl)).symm.trans (List.foldl_fixed _)
  · exact (List.foldl_hom (fun st : CacheState => st.srvHandles)
      (setDynamicCBOffsetStep v bp.Bindings) (fun m _ => m) bp.activeStages s
      (fun _ _ => rfl)).symm.trans (List.foldl_fixed _)
  · exact (List.foldl_hom (fun st : CacheState => st.samplers)
      (setDynamicCBOffsetStep v bp.Bindings) (fun m _ => m) bp.activeStages s
      (fun _ _ => rfl)).symm.trans (List.foldl_fixed _)
  · exact (List.foldl_hom (fun st : CacheState => st.samplerHandles)
      (setDynamicCBOffsetStep v bp.Bindings) (fun m _ => m) bp.activeStages s
      (fun _ _ => rfl)).symm.trans (List.foldl_fixed _)
  · exact (List.foldl_hom (fun st : CacheState => st.uavs)
      (setDynamicCBOffsetStep v bp.Bindings) (fun m _ => m) bp.activeStages s
      (fun _ _ => rfl)).symm.trans (List.foldl_fixed _)
  · exact (List.foldl_hom (fun st : CacheState => st.uavHandles)
      (setDynamicCBOffsetStep v bp.Bindings) (fun m _ => m) bp.activeStages s
      (fun _ _ => rfl)).symm.trans (List.foldl_fixed _)
  · exact (List.foldl_hom (fun st : CacheState => st.DynamicCBSlotsMask)
      (setDynamicCBOffsetStep v bp.Bindings) (fun m _ => m) bp.activeStages s
      (fun _ _ => rfl)).symm.trans (List.foldl_fixed _)
  · exact (List.foldl_hom (fun st : CacheState => st.DynamicCBOffsetsMask)
      (setDynamicCBOffsetStep v bp.Bindings) (fun m _ => m) bp.activeStages s
      (fun _ _ => rfl)).symm.trans (List.foldl_fixed _)

/-- Closed form of `CopyResource<CBV>`: descriptor and native handle are
copied from the source at the bind point's slot for every active stage,
that stage's dynamic-offset mask entry is recomputed from the copied
descriptor, the `IsBound` result is the conjunction of source-slot
non-nullness over the active stages, and nothing else changes. -/
lemma copyResourceCB_spec (s src : CacheState) (bp : D3D11ResourceBindPoints) :
    (∀ i b, (s.CopyResourceCB src bp).1.cbs i b =
      if i ∈ bp.activeStages ∧ b = bp.Bindings i then src.cbs i (bp.Bindings i)
      else s.cbs i b) ∧
    (∀ i b, (s.CopyResourceCB src bp).1.cbHandles i b =
      if i ∈ bp.activeStages ∧ b = bp.Bindings i then src.cbHandles i (bp.Bindings i)
      else s.cbHandles i b) ∧
    (∀ i, (s.CopyResourceCB src bp).1.DynamicCBOffsetsMask i =
      if i ∈ bp.activeStages then
        updateDynamicCBOffsetFlagCBV (s.DynamicCBSlotsMask i) (s.DynamicCBOffsetsMask i)
          (src.cbs i (bp.Bindings i)) (bp.Bindings i)
      else s.DynamicCBOffsetsMask i) ∧
    (s.CopyResourceCB src bp).1.DynamicCBSlotsMask = s.DynamicCBSlotsMask ∧
    (s.CopyResourceCB src bp).2 =
      bp.activeStages.all (fun i => (src.cbs i (bp.Bindings i)).pBuff.isSome) ∧
    (s.CopyResourceCB src bp).1.srvs = s.srvs ∧
    (s.CopyResourceCB src bp).1.srvHandles = s.srvHandles ∧
    (s.CopyResourceCB src bp).1.samplers = s.samplers ∧
    (s.CopyResourceCB src bp).1.samplerHandles = s.samplerHandles ∧
    (s.CopyResourceCB src bp).1.uavs = s.uavs ∧
    (s.CopyResourceCB src bp).1.uavHandles = s.uavHandles := by
  have hnd := activeStages_nodup bp
  have hcbs : List.foldl (fun g j => upd2 g j (bp.Bindings j) (src.cbs j (bp.Bindings j)))
      s.cbs bp.activeStages = (s.CopyResourceCB src bp).1.cbs :=
    List.foldl_hom (fun acc : CacheState × Bool => acc.1.cbs) (copyCBStep src bp.Bindings) _ bp.activeStages (s, true) (fun _ _ => rfl)
  have hh : List.foldl (fun g j => upd2 g j (bp.Bindings j) (src.cbHandles j (bp.Bindings j)))
      s.cbHandles bp.activeStages = (s.CopyResourceCB src bp).1.cbHandles :=
    List.foldl_hom (fun acc : CacheState × Bool => acc.1.cbHandles) (copyCBStep src bp.Bindings) _ bp.activeStages (s, true) (fun _ _ => rfl)
  have hmask : List.foldl (fun (p : (Nat → Nat) × (Nat → Nat)) j =>
        (p.1, upd1 p.2 j (updateDynamicCBOffsetFlagCBV (p.1 j) (p.2 j)
          (src.cbs j (bp.Bindings j)) (bp.Bindings j))))
        (s.DynamicCBSlotsMask, s.DynamicCBOffsetsMask) bp.activeStages =
      ((s.CopyResourceCB src bp).1.DynamicCBSlotsMask,
       (s.CopyResourceCB src bp).1.DynamicCBOffsetsMask) :=
    List.foldl_hom
      (fun acc : CacheState × Bool => (acc.1.DynamicCBSlotsMask, acc.1.DynamicCBOffsetsMask))
      (copyCBStep src bp.Bindings) _ bp.activeStages (s, true) (fun _ _ => rfl)
  have hmp := foldl_maskpair
    (fun a b j => updateDynamicCBOffsetFlagCBV a b (src.cbs j (bp.Bindings j)) (bp.Bindings j))
    bp.activeStages hnd s.DynamicCBSlotsMask s.DynamicCBOffsetsMask
  have hbool : List.foldl (fun a j => a && (src.cbs j (bp.Bindings j)).pBuff.isSome)
      true bp.activeStages = (s.CopyResourceCB src bp).2 :=
    List.foldl_hom (fun acc : CacheState × Bool => acc.2) (copyCBStep src bp.Bindings) _ bp.activeStages (s, true) (fun _ _ => rfl)
  refine ⟨?_, ?_, ?_, ?_, ?_, ?_, ?_, ?_, ?_, ?_, ?_⟩
  · intro i b
    rw [← hcbs]
    exact foldl_upd2 bp.Bindings (fun j _ => src.cbs j (bp.Bindings j))
      bp.activeStages hnd s.cbs i b
  · intro i b
    rw [← hh]
    exact foldl_upd2 bp.Bindings (fun j _ => src.cbHandles j (bp.Bindings j))
      bp.activeStages hnd s.cbHandles i b
  · intro i
    have e1 : (s.CopyResourceCB src bp).1.DynamicCBOffsetsMask i =
        (List.foldl (fun (p : (Nat → Nat) × (Nat → Nat)) j =>
          (p.1, upd1 p.2 j (updateDynamicCBOffsetFlagCBV (p.1 j) (p.2 j)
            (src.cbs j (bp.Bindings j)) (bp.Bindings j))))
          (s.DynamicCBSlotsMask, s.DynamicCBOffsetsMask) bp.activeStages).2 i :=
      congrFun (congrArg Prod.snd hmask.symm) i
    rw [e1]
    exact hmp.2 i
  · have e1 : (s.CopyResourceCB src bp).1.DynamicCBSlotsMask =
        (List.foldl (fun (p : (Nat → Nat) × (Nat → Nat)) j =>
          (p.1, upd1 p.2 j (updateDynamicCBOffsetFlagCBV (p.1 j) (p.2 j)
            (src.cbs j (bp.Bindings j)) (bp.Bindings j))))
          (s.DynamicCBSlotsMask, s.DynamicCBOffsetsMask) bp.activeStages).1 :=
      congrArg Prod.fst hmask.symm
    rw [e1]
    exact hmp.1
  · rw [← hbool, foldl_and]
    exact Bool.true_and _
  · exact (List.foldl_hom (fun acc : CacheState × Bool => acc.1.srvs)
      (copyCBStep src bp.Bindings) (fun m _ => m) bp.activeStages (s, true)
      (fun _ _ => rfl)).symm.trans (List.foldl_fixed _)
  · exact (List.foldl_hom (fun acc : CacheState × Bool => acc.1.srvHandles)
      (copyCBStep src bp.Bindings) (fun m _ => m) bp.activeStages (s, true)
      (fun _ _ => rfl)).symm.trans (List.foldl_fixed _)
  · exact (List.foldl_hom (fun acc : CacheState × Bool => acc.1.samplers)
      (copyCBStep src bp.Bindings) (fun m _ => m) bp.activeStages (s, true)
      (fun _ _ => rfl)).symm.trans (List.foldl_fixed _)
  · exact (List.foldl_hom (fun acc : CacheState × Bool => acc.1.samplerHandles)
      (copyCBStep src bp.Bindings) (fun m _ => m) bp.activeStages (s, true)
      (fun _ _ => rfl)).symm.trans (List.foldl_fixed _)
  · exact (List.foldl_hom (fun acc : CacheState × Bool => acc.1.uavs)
      (copyCBStep src bp.Bindings) (fun m _ => m) bp.activeStages (s, true)
      (fun _ _ => rfl)).symm.trans (List.foldl_fixed _)
  · exact (List.foldl_hom (fun acc : CacheState × Bool => acc.1.uavHandles)
      (copyCBStep src bp.Bindings) (fun m _ => m) bp.activeStages (s, true)
      (fun _ _ => rfl)).symm.trans (List.foldl_fixed _)

/-- Closed form of `CopyResource<SRV>`. -/
lemma copyResourceSRV_spec (s src : CacheState) (bp : D3D11ResourceBindPoints) :
    (∀ i b, (s.CopyResourceSRV src bp).1.srvs i b =
      if i ∈ bp.activeStages ∧ b = bp.Bindings i then src.srvs i (bp.Bindings i)
      else s.srvs i b) ∧
    (∀ i b, (s.CopyResourceSRV src bp).1.srvHandles i b =
      if i ∈ bp.activeStages ∧ b = bp.Bindings i then src.srvHandles i (bp.Bindings i)
      else s.srvHandles i b) ∧
    (s.CopyResourceSRV src bp).2 =
      bp.activeStages.all (fun i => (src.srvs i (bp.Bindings i)).pView.isSome) ∧
    (s.CopyResourceSRV src bp).1.cbs = s.cbs ∧
    (s.CopyResourceSRV src bp).1.cbHandles = s.cbHandles ∧
    (s.CopyResourceSRV src bp).1.samplers = s.samplers ∧
    (s.CopyResourceSRV src bp).1.samplerHandles = s.samplerHandles ∧
    (s.CopyResourceSRV src bp).1.uavs = s.uavs ∧
    (s.CopyResourceSRV src bp).1.uavHandles = s.uavHandles ∧
    (s.CopyResourceSRV src bp).1.DynamicCBSlotsMask = s.DynamicCBSlotsMask ∧
    (s.CopyResourceSRV src bp).1.DynamicCBOffsetsMask = s.DynamicCBOffsetsMask := by
  have hnd := activeStages_nodup bp
  have ha : List.foldl (fun g j => upd2 g j (bp.Bindings j) (src.srvs j (bp.Bindings j)))
      s.srvs bp.activeStages = (s.CopyResourceSRV src bp).1.srvs :=
    List.foldl_hom (fun acc : CacheState × Bool => acc.1.srvs) (copySRVStep src bp.Bindings) _ bp.activeStages (s, true) (fun _ _ => rfl)
  have hh : List.foldl (fun g j => upd2 g j (bp.Bindings j) (src.srvHandles j (bp.Bindings j)))
      s.srvHandles bp.activeStages = (s.CopyResourceSRV src bp).1.srvHandles :=
    List.foldl_hom (fun acc : CacheState × Bool => acc.1.srvHandles) (copySRVStep src bp.Bindings) _ bp.activeStages (s, true) (fun _ _ => rfl)
  have hbool : List.foldl (fun a j => a && (src.srvs j (bp.Bindings j)).pView.isSome)
      true bp.activeStages = (s.CopyResourceSRV src bp).2 :=
    List.foldl_hom (fun acc : CacheState × Bool => acc.2) (copySRVStep src bp.Bindings) _ bp.activeStages (s, true) (fun _ _ => rfl)
  refine ⟨?_, ?_, ?_, ?_, ?_, ?_, ?_, ?_, ?_, ?_, ?_⟩
  · intro i b
    rw [← ha]
    exact foldl_upd2 bp.Bindings (fun j _ => src.srvs j (bp.Bindings j))
      bp.activeStages hnd s.srvs i b
  · intro i b
    rw [← hh]
    exact foldl_upd2 bp.Bindings (fun j _ => src.srvHandles j (bp.Bindings j))
      bp.activeStages hnd s.srvHandles i b
  · rw [← hbool, foldl_and]
    exact Bool.true_and _
  · exact (List.foldl_hom (fun acc : CacheState × Bool => acc.1.cbs)
      (copySRVStep src bp.Bindings) (fun m _ => m) bp.activeStages (s, true)
      (fun _ _ => rfl)).symm.trans (List.foldl_fixed _)
  · exact (List.foldl_hom (fun acc : CacheState × Bool => acc.1.cbHandles)
      (copySRVStep src bp.Bindings) (fun m _ => m) bp.activeStages (s, true)
      (fun _ _ => rfl)).symm.trans (List.foldl_fixed _)
  · exact (List.foldl_hom (fun acc : CacheState × Bool => acc.1.samplers)
      (copySRVStep src bp.Bindings) (fun m _ => m) bp.activeStages (s, true)
      (fun _ _ => rfl)).symm.trans (List.foldl_fixed _)
  · exact (List.foldl_hom (fun acc : CacheState × Bool => acc.1.samplerHandles)
      (copySRVStep src bp.Bindings) (fun m _ => m) bp.activeStages (s, true)
      (fun _ _ => rfl)).symm.trans (List.foldl_fixed _)
  · exact (List.foldl_hom (fun acc : CacheState × Bool => acc.1.uavs)
      (copySRVStep src bp.Bindings) (fun m _ => m) bp.activeStages (s, true)
      (fun _ _ => rfl)).symm.trans (List.foldl_fixed _)
  · exact (List.foldl_hom (fun acc : CacheState × Bool => acc.1.uavHandles)
      (copySRVStep src bp.Bindings) (fun m _ => m) bp.activeStages (s, true)
      (fun _ _ => rfl)).symm.trans (List.foldl_fixed _)
  · exact (List.foldl_hom (fun acc : CacheState × Bool => acc.1.DynamicCBSlotsMask)
      (copySRVStep src bp.Bindings) (fun m _ => m) bp.activeStages (s, true)
      (fun _ _ => rfl)).symm.trans (List.foldl_fixed _)
  · exact (List.foldl_hom (fun acc : CacheState × Bool => acc.1.DynamicCBOffsetsMask)
      (copySRVStep src bp.Bindings) (fun m _ => m) bp.activeStages (s, true)
      (fun _ _ => rfl)).symm.trans (List.foldl_fixed _)

/-- Closed form of `CopyResource<UAV>`. -/
lemma copyResourceUAV_spec (s src : CacheState) (bp : D3D11ResourceBindPoints) :
    (∀ i b, (s.CopyResourceUAV src bp).1.uavs i b =
      if i ∈ bp.activeStages ∧ b = bp.Bindings i then src.uavs i (bp.Bindings i)
      else s.uavs i b) ∧
    (∀ i b, (s.CopyResourceUAV src bp).1.uavHandles i b =
      if i ∈ bp.activeStages ∧ b = bp.Bindings i then src.uavHandles i (bp.Bindings i)
      else s.uavHandles i b) ∧
    (s.CopyResourceUAV src bp).2 =
      bp.activeStages.all (fun i => (src.uavs i (bp.Bindings i)).pView.isSome) ∧
    (s.CopyResourceUAV src bp).1.cbs = s.cbs ∧
    (s.CopyResourceUAV src bp).1.cbHandles = s.cbHandles ∧
    (s.CopyResourceUAV src bp).1.srvs = s.srvs ∧
    (s.CopyResourceUAV src bp).1.srvHandles = s.srvHandles ∧
    (s.CopyResourceUAV src bp).1.samplers = s.samplers ∧
    (s.CopyResourceUAV src bp).1.samplerHandles = s.samplerHandles ∧
    (s.CopyResourceUAV src bp).1.DynamicCBSlotsMask = s.DynamicCBSlotsMask ∧
    (s.CopyResourceUAV src bp).1.DynamicCBOffsetsMask = s.DynamicCBOffsetsMask := by
  have hnd := activeStages_nodup bp
  have ha : List.foldl (fun g j => upd2 g j (bp.Bindings j) (src.uavs j (bp.Bindings j)))
      s.uavs bp.activeStages = (s.CopyResourceUAV src bp).1.uavs :=
    List.foldl_hom (fun acc : CacheState × Bool => acc.1.uavs) (copyUAVStep src bp.Bindings) _ bp.activeStages (s, true) (fun _ _ => rfl)
  have hh : List.foldl (fun g j => upd2 g j (bp.Bindings j) (src.uavHandles j (bp.Bindings j)))
      s.uavHandles bp.activeStages = (s.CopyResourceUAV src bp).1.uavHandles :=
    List.foldl_hom (fun acc : CacheState × Bool => acc.1.uavHandles) (copyUAVStep src bp.Bindings) _ bp.activeStages (s, true) (fun _ _ => rfl)
  have hbool : List.foldl (fun a j => a && (src.uavs j (bp.Bindings j)).pView.isSome)
      true bp.activeStages = (s.CopyResourceUAV src bp).2 :=
    List.foldl_hom (fun acc : CacheState × Bool => acc.2) (copyUAVStep src bp.Bindings) _ bp.activeStages (s, true) (fun _ _ => rfl)
  refine ⟨?_, ?_, ?_, ?_, ?_, ?_, ?_, ?_, ?_, ?_, ?_⟩
  · intro i b
    rw [← ha]
    exact foldl_upd2 bp.Bindings (fun j _ => src.uavs j (bp.Bindings j))
      bp.activeStages hnd s.uavs i b
  · intro i b
    rw [← hh]
    exact foldl_upd2 bp.Bindings (fun j _ => src.uavHandles j (bp.Bindings j))
      bp.activeStages hnd s.uavHandles i b
  · rw [← hbool, foldl_and]
    exact Bool.true_and _
  · exact (List.foldl_hom (fun acc : CacheState × Bool => acc.1.cbs)
      (copyUAVStep src bp.Bindings) (fun m _ => m) bp.activeStages (s, true)
      (fun _ _ => rfl)).symm.trans (List.foldl_fixed _)
  · exact (List.foldl_hom (fun acc : CacheState × Bool => acc.1.cbHandles)
      (copyUAVStep src bp.Bindings) (fun m _ => m) bp.activeStages (s, true)
      (fun _ _ => rfl)).symm.trans (List.foldl_fixed _)
  · exact (List.foldl_hom (fun acc : CacheState × Bool => acc.1.srvs)
      (copyUAVStep src bp.Bindings) (fun m _ => m) bp.activeStages (s, true)
      (fun _ _ => rfl)).symm.trans (List.foldl_fixed _)
  · exact (List.foldl_hom (fun acc : CacheState × Bool => acc.1.srvHandles)
      (copyUAVStep src bp.Bindings) (fun m _ => m) bp.activeStages (s, true)
      (fun _ _ => rfl)).symm.trans (List.foldl_fixed _)
  · exact (List.foldl_hom (fun acc : CacheState × Bool => acc.1.samplers)
      (copyUAVStep src bp.Bindings) (fun m _ => m) bp.activeStages (s, true)
      (fun _ _ => rfl)).symm.trans (List.foldl_fixed _)
  · exact (List.foldl_hom (fun acc : CacheState × Bool => acc.1.samplerHandles)
      (copyUAVStep src bp.Bindings) (fun m _ => m) bp.activeStages (s, true)
      (fun _ _ => rfl)).symm.trans (List.foldl_fixed _)
  · exact (List.foldl_hom (fun acc : CacheState × Bool => acc.1.DynamicCBSlotsMask)
      (copyUAVStep src bp.Bindings) (fun m _ => m) bp.activeStages (s, true)
      (fun _ _ => rfl)).symm.trans (List.foldl_fixed _)
  · exact (List.foldl_hom (fun acc : CacheState × Bool => acc.1.DynamicCBOffsetsMask)
      (copyUAVStep src bp.Bindings) (fun m _ => m) bp.activeStages (s, true)
      (fun _ _ => rfl)).symm.trans (List.foldl_fixed _)

/-- Closed form of `CopyResource<SAMPLER>`. -/
lemma copyResourceSampler_spec (s src : CacheState) (bp : D3D11ResourceBindPoints) :
    (∀ i b, (s.CopyResourceSampler src bp).1.samplers i b =
      if i ∈ bp.activeStages ∧ b = bp.Bindings i then src.samplers i (bp.Bindings i)
      else s.samplers i b) ∧
    (∀ i b, (s.CopyResourceSampler src bp).1.samplerHandles i b =
      if i ∈ bp.activeStages ∧ b = bp.Bindings i then src.samplerHandles i (bp.Bindings i)
      else s.samplerHandles i b) ∧
    (s.CopyResourceSampler src bp).2 =
      bp.activeStages.all (fun i => (src.samplers i (bp.Bindings i)).pSampler.isSome) ∧
    (s.CopyResourceSampler src bp).1.cbs = s.cbs ∧
    (s.CopyResourceSampler src bp).1.cbHandles = s.cbHandles ∧
    (s.CopyResourceSampler src bp).1.srvs = s.srvs ∧
    (s.CopyResourceSampler src bp).1.srvHandles = s.srvHandles ∧
    (s.CopyResourceSampler src bp).1.uavs = s.uavs ∧
    (s.CopyResourceSampler src bp).1.uavHandles = s.uavHandles ∧
    (s.CopyResourceSampler src bp).1.DynamicCBSlotsMask = s.DynamicCBSlotsMask ∧
    (s.CopyResourceSampler src bp).1.DynamicCBOffsetsMask = s.DynamicCBOffsetsMask := by
  have hnd := activeStages_nodup bp
  have ha : List.foldl (fun g j => upd2 g j (bp.Bindings j) (src.samplers j (bp.Bindings j)))
      s.samplers bp.activeStages = (s.CopyResourceSampler src bp).1.samplers :=
    List.foldl_hom (fun acc : CacheState × Bool => acc.1.samplers) (copySamplerStep src bp.Bindings) _ bp.activeStages (s, true) (fun _ _ => rfl)
  have hh : List.foldl
      (fun g j => upd2 g j (bp.Bindings j) (src.samplerHandles j (bp.Bindings j)))
      s.samplerHandles bp.activeStages = (s.CopyResourceSampler src bp).1.samplerHandles :=
    List.foldl_hom (fun acc : CacheState × Bool => acc.1.samplerHandles) (copySamplerStep src bp.Bindings) _ bp.activeStages (s, true) (fun _ _ => rfl)
  have hbool : List.foldl (fun a j => a && (src.samplers j (bp.Bindings j)).pSampler.isSome)
      true bp.activeStages = (s.CopyResourceSampler src bp).2 :=
    List.foldl_hom (fun acc : CacheState × Bool => acc.2) (copySamplerStep src bp.Bindings) _ bp.activeStages (s, true) (fun _ _ => rfl)
  refine ⟨?_, ?_, ?_, ?_, ?_, ?_, ?_, ?_, ?_, ?_, ?_⟩
  · intro i b
    rw [← ha]
    exact foldl_upd2 bp.Bindings (fun j _ => src.samplers j (bp.Bindings j))
      bp.activeStages hnd s.samplers i b
  · intro i b
    rw [← hh]
    exact foldl_upd2 bp.Bindings (fun j _ => src.samplerHandles j (bp.Bindings j))
      bp.activeStages hnd s.samplerHandles i b
  · rw [← hbool, foldl_and]
    exact Bool.true_and _
  · exact (List.foldl_hom (fun acc : CacheState × Bool => acc.1.cbs)
      (copySamplerStep src bp.Bindings) (fun m _ => m) bp.activeStages (s, true)
      (fun _ _ => rfl)).symm.trans (List.foldl_fixed _)
  · exact (List.foldl_hom (fun acc : CacheState × Bool => acc.1.cbHandles)
      (copySamplerStep src bp.Bindings) (fun m _ => m) bp.activeStages (s, true)
      (fun _ _ => rfl)).symm.trans (List.foldl_fixed _)
  · exact (List.foldl_hom (fun acc : CacheState × Bool => acc.1.srvs)
      (copySamplerStep src bp.Bindings) (fun m _ => m) bp.activeStages (s, true)
      (fun _ _ => rfl)).symm.trans (List.foldl_fixed _)
  · exact (List.foldl_hom (fun acc : CacheState × Bool => acc.1.srvHandles)
      (copySamplerStep src bp.Bindings) (fun m _ => m) bp.activeStages (s, true)
      (fun _ _ => rfl)).symm.trans (List.foldl_fixed _)
  · exact (List.foldl_hom (fun acc : CacheState × Bool => acc.1.uavs)
      (copySamplerStep src bp.Bindings) (fun m _ => m) bp.activeStages (s, true)
      (fun _ _ => rfl)).symm.trans (List.foldl_fixed _)
  · exact (List.foldl_hom (fun acc : CacheState × Bool => acc.1.uavHandles)
      (copySamplerStep src bp.Bindings) (fun m _ => m) bp.activeStages (s, true)
      (fun _ _ => rfl)).symm.trans (List.foldl_fixed _)
  · exact (List.foldl_hom (fun acc : CacheState × Bool => acc.1.DynamicCBSlotsMask)
      (copySamplerStep src bp.Bindings) (fun m _ => m) bp.activeStages (s, true)
      (fun _ _ => rfl)).symm.trans (List.foldl_fixed _)
  · exact (List.foldl_hom (fun acc : CacheState × Bool => acc.1.DynamicCBOffsetsMask)
      (copySamplerStep src bp.Bindings) (fun m _ => m) bp.activeStages (s, true)
      (fun _ _ => rfl)).symm.trans (List.foldl_fixed _)

/-! ### Bit-level lemmas about the dynamic-offset flag update -/

/-- `Uint32{1} << Binding` is `2 ^ Binding`. -/
lemma one_shiftLeft_eq (b : Nat) : 1 <<< b = 2 ^ b := by
  rw [Nat.shiftLeft_eq, one_mul]

/-- The `SlotsMask & BufferBit` guard tests exactly the `Binding` bit. -/
lemma land_two_pow_ne_zero_iff (m b : Nat) : m &&& 2 ^ b ≠ 0 ↔ m.testBit b = true := by
  rw [Nat.and_two_pow]
  cases h : m.testBit b
  · simp
  · simp

/-- A bit set in a value below `2 ^ 16` lies below position 16. -/
lemma testBit_lt_16 {m b : Nat} (hm : m < 2 ^ 16) (h : m.testBit b = true) : b < 16 := by
  by_contra hge
  have h1 := Nat.testBit_implies_ge h
  have h2 : (2 : Nat) ^ 16 ≤ 2 ^ b := Nat.pow_le_pow_right (by norm_num) (by omega)
  omega

/-- A bit at or above position 16 is clear in a value below `2 ^ 16`. -/
lemma testBit_ge_16 {m b : Nat} (hm : m < 2 ^ 16) (hb : 16 ≤ b) : m.testBit b = false := by
  cases h : m.testBit b
  · rfl
  · exact absurd (testBit_lt_16 hm h) (by omega)

/-- The flag update keeps the offsets mask a 16-bit value. -/
lemma updFlag_lt (SlotsMask OffsetsMask : Nat) (CB : CachedCB) (Binding : Nat)
    (hm : OffsetsMask < 2 ^ 16) :
    updateDynamicCBOffsetFlagCBV SlotsMask OffsetsMask CB Binding < 2 ^ 16 := by
  unfold updateDynamicCBOffsetFlagCBV
  split
  · split
    · exact Nat.mod_lt _ (by norm_num)
    · exact Nat.mod_lt _ (by norm_num)
  · exact hm

/-- The flag update changes no bit other than `Binding`. -/
lemma updFlag_testBit_other (SlotsMask OffsetsMask : Nat) (CB : CachedCB)
    (Binding b : Nat) (hm : OffsetsMask < 2 ^ 16) (hne : b ≠ Binding) :
    (updateDynamicCBOffsetFlagCBV SlotsMask OffsetsMask CB Binding).testBit b =
      OffsetsMask.testBit b := by
  unfold updateDynamicCBOffsetFlagCBV
  rw [one_shiftLeft_eq]
  have hne' : (Binding = b) = False := eq_false fun h => hne h.symm
  split
  · by_cases hb : b < 16
    · have hb32 : b < 32 := by omega
      split
      · rw [Nat.testBit_mod_two_pow, Nat.testBit_lor, Nat.testBit_two_pow]
        simp [hb, hne']
      · rw [Nat.testBit_mod_two_pow, Nat.testBit_land, Nat.testBit_xor,
          Nat.testBit_two_pow, Nat.testBit_two_pow_sub_one]
        simp [hb, hne', hb32]
    · have hmb : OffsetsMask.testBit b = false := testBit_ge_16 hm (by omega)
      split
      · rw [Nat.testBit_mod_two_pow]
        simp [hb, hmb]
      · rw [Nat.testBit_mod_two_pow]
        simp [hb, hmb]
  · rfl

/-- The `Binding` bit after the flag update: recomputed to
`AllowsDynamicOffset` when the slot is dynamic-eligible, untouched
otherwise. -/
lemma updFlag_testBit_self (SlotsMask OffsetsMask : Nat) (CB : CachedCB) (Binding : Nat)
    (hs : SlotsMask < 2 ^ 16) (hm : OffsetsMask < 2 ^ 16) :
    (updateDynamicCBOffsetFlagCBV SlotsMask OffsetsMask CB Binding).testBit Binding =
      if SlotsMask.testBit Binding = true then CB.allowsDynamicOffset
      else OffsetsMask.testBit Binding := by
  unfold updateDynamicCBOffsetFlagCBV
  rw [one_shiftLeft_eq]
  by_cases hg : SlotsMask &&& 2 ^ Binding ≠ 0
  · have hbit := (land_two_pow_ne_zero_iff SlotsMask Binding).mp hg
    have hb16 : Binding < 16 := testBit_lt_16 hs hbit
    rw [if_pos hg, if_pos hbit]
    have hb32 : Binding < 32 := by omega
    split
    · rename_i ha
      rw [Nat.testBit_mod_two_pow, Nat.testBit_lor, Nat.testBit_two_pow]
      simp [hb16, ha]
    · rename_i ha
      rw [Nat.testBit_mod_two_pow, Nat.testBit_land, Nat.testBit_xor,
        Nat.testBit_two_pow, Nat.testBit_two_pow_sub_one]
      cases hcb : CB.allowsDynamicOffset
      · simp [hb16, hb32]
      · exact absurd hcb ha
  · have hbit : SlotsMask.testBit Binding = false := by
      cases h : SlotsMask.testBit Binding
      · rfl
      · exact absurd ((land_two_pow_ne_zero_iff SlotsMask Binding).mpr h) hg
    rw [if_neg hg, if_neg (by rw [hbit]; exact Bool.false_ne_true)]

/-! ### The dynamic-mask invariants (claims C5 and C10) -/

/-- The mask invariant: both masks are 16-bit values and the offsets mask
is a bitwise subset of the dynamic-eligible-slots mask. -/
def MaskInv (s : CacheState) : Prop :=
  (∀ i, s.DynamicCBSlotsMask i < 2 ^ 16) ∧
  (∀ i, s.DynamicCBOffsetsMask i < 2 ^ 16) ∧
  (∀ i b, (s.DynamicCBOffsetsMask i).testBit b = true →
    (s.DynamicCBSlotsMask i).testBit b = true)

/-- Each set dynamic-offset bit points at a slot whose cached constant
buffer allows a dynamic offset and whose parallel native handle is
non-null. -/
def DynBoundInv (s : CacheState) : Prop :=
  ∀ i b, (s.DynamicCBOffsetsMask i).testBit b = true →
    (s.cbs i b).allowsDynamicOffset = true ∧ (s.cbHandles i b).isSome = true

/-- A source cache never pairs a dynamic-eligible descriptor with a null
native handle (every cache built by the public setters satisfies this). -/
def CBHandleConsistent (src : CacheState) : Prop :=
  ∀ i b, (src.cbs i b).allowsDynamicOffset = true → (src.cbHandles i b).isSome = true

/-- Side condition on an operation: a `CopyResource<CBV>` source must be
handle-consistent; every other operation is unconstrained. -/
def CopySrcOK : CacheOp → Prop
  | .copyCB src _ => CBHandleConsistent src
  | _ => True

/-- `AllowsDynamicOffset` does not read `DynamicOffset`. -/
lemma allows_update_dynamicOffset (cb : CachedCB) (v : Nat) :
    ({ cb with DynamicOffset := v } : CachedCB).allowsDynamicOffset =
      cb.allowsDynamicOffset := by
  cases cb with
  | mk p bo rs d => cases p <;> rfl

/-- `AllowsDynamicOffset` implies the buffer is bound. -/
lemma allows_imp_pBuff_isSome (cb : CachedCB) (h : cb.allowsDynamicOffset = true) :
    cb.pBuff.isSome = true := by
  cases hb : cb.pBuff
  · rw [CachedCB.allowsDynamicOffset, hb] at h
    exact absurd h (by simp)
  · rfl

/-- `MaskInv` holds right after `Initialize` (offsets mask all zero). -/
lemma maskInv_initCache (SlotsMask : Nat → Nat) (h16 : ∀ i, SlotsMask i < 2 ^ 16) :
    MaskInv (initCache SlotsMask) := by
  refine ⟨h16, fun i => by norm_num [initCache], fun i b hbit => ?_⟩
  rw [show (initCache SlotsMask).DynamicCBOffsetsMask i = 0 from rfl,
    Nat.zero_testBit] at hbit
  cases hbit

/-- `DynBoundInv` holds right after `Initialize`. -/
lemma dynBound_initCache (SlotsMask : Nat → Nat) : DynBoundInv (initCache SlotsMask) := by
  intro i b hbit
  rw [show (initCache SlotsMask).DynamicCBOffsetsMask i = 0 from rfl,
    Nat.zero_testBit] at hbit
  cases hbit

/-- `MaskInv` is preserved by any state whose slots mask is unchanged and
whose offsets mask entries are recomputed through the flag update at the
active stages. -/
lemma maskInv_of_updFlag {s t : CacheState} (h : MaskInv s)
    (bp : D3D11ResourceBindPoints) (CBval : Nat → CachedCB)
    (hslots : t.DynamicCBSlotsMask = s.DynamicCBSlotsMask)
    (hoffs : ∀ i, t.DynamicCBOffsetsMask i =
      if i ∈ bp.activeStages then
        updateDynamicCBOffsetFlagCBV (s.DynamicCBSlotsMask i) (s.DynamicCBOffsetsMask i)
          (CBval i) (bp.Bindings i)
      else s.DynamicCBOffsetsMask i) :
    MaskInv t := by
  obtain ⟨hs, ho, hsub⟩ := h
  refine ⟨fun i => by rw [hslots]; exact hs i, fun i => ?_, fun i b hbit => ?_⟩
  · rw [hoffs i]
    split
    · exact updFlag_lt _ _ _ _ (ho i)
    · exact ho i
  · rw [hslots]
    rw [hoffs i] at hbit
    split at hbit
    · by_cases hbe : b = bp.Bindings i
      · subst hbe
        rw [updFlag_testBit_self _ _ _ _ (hs i) (ho i)] at hbit
        split at hbit
        · assumption
        · exact hsub i _ hbit
      · rw [updFlag_testBit_other _ _ _ _ _ (ho i) hbe] at hbit
        exact hsub i b hbit
    · exact hsub i b hbit

/-- `MaskInv` transfers across an operation that leaves both masks
untouched. -/
lemma maskInv_of_masks_eq {s t : CacheState} (h : MaskInv s)
    (h1 : t.DynamicCBSlotsMask = s.DynamicCBSlotsMask)
    (h2 : t.DynamicCBOffsetsMask = s.DynamicCBOffsetsMask) : MaskInv t := by
  refine ⟨fun i => by rw [h1]; exact h.1 i, fun i => by rw [h2]; exact h.2.1 i,
    fun i b hbit => ?_⟩
  rw [h1]
  rw [h2] at hbit
  exact h.2.2 i b hbit

/-- `MaskInv` is preserved by every cache operation. -/
lemma maskInv_applyOp (s : CacheState) (op : CacheOp) (h : MaskInv s) :
    MaskInv (applyOp s op) := by
  cases op with
  | setCB bp pBuff off rng =>
    obtain ⟨_, _, hmask, hslots, _⟩ :=
      setCBInternal_spec s bp (CachedCB.set pBuff off rng) (pBuff.map (·.pd3d11Buffer))
    exact maskInv_of_updFlag h bp (fun _ => CachedCB.set pBuff off rng) hslots hmask
  | setTexSRV bp v =>
    obtain ⟨_, _, _, _, _, _, _, _, h9, h10⟩ :=
      setSRVInternal_spec s bp (CachedResource.setTex v) (v.map (·.pd3d11View))
    exact maskInv_of_masks_eq h h9 h10
  | setBufSRV bp v =>
    obtain ⟨_, _, _, _, _, _, _, _, h9, h10⟩ :=
      setSRVInternal_spec s bp (CachedResource.setBuf v) (v.map (·.pd3d11View))
    exact maskInv_of_masks_eq h h9 h10
  | setTexUAV bp v =>
    obtain ⟨_, _, _, _, _, _, _, _, h9, h10⟩ :=
      setUAVInternal_spec s bp (CachedResource.setTex v) (v.map (·.pd3d11View))
    exact maskInv_of_masks_eq h h9 h10
  | setBufUAV bp v =>
    obtain ⟨_, _, _, _, _, _, _, _, h9, h10⟩ :=
      setUAVInternal_spec s bp (CachedResource.setBuf v) (v.map (·.pd3d11View))
    exact maskInv_of_masks_eq h h9 h10
  | setSampler bp sam =>
    obtain ⟨_, _, _, _, _, _, _, _, h9, h10⟩ :=
      setSamplerInternal_spec s bp (CachedSampler.set sam) (sam.map (·.pd3d11Sampler))
    exact maskInv_of_masks_eq h h9 h10
  | setDynamicCBOffset bp off =>
    obtain ⟨_, _, _, _, _, _, _, _, h9, h10⟩ := setDynamicCBOffset_spec s bp off
    exact maskInv_of_masks_eq h h9 h10
  | copyCB src bp =>
    obtain ⟨_, _, hmask, hslots, _⟩ := copyResourceCB_spec s src bp
    exact maskInv_of_updFlag h bp (fun i => src.cbs i (bp.Bindings i)) hslots hmask
  | copySRV src bp =>
    obtain ⟨_, _, _, _, _, _, _, _, _, h10, h11⟩ := copyResourceSRV_spec s src bp
    exact maskInv_of_masks_eq h h10 h11
  | copyUAV src bp =>
    obtain ⟨_, _, _, _, _, _, _, _, _, h10, h11⟩ := copyResourceUAV_spec s src bp
    exact maskInv_of_masks_eq h h10 h11
  | copySampler src bp =>
    obtain ⟨_, _, _, _, _, _, _, _, _, h10, h11⟩ := copyResourceSampler_spec s src bp
    exact maskInv_of_masks_eq h h10 h11

/-- `MaskInv` is preserved by every operation sequence. -/
lemma maskInv_applyOps :
    ∀ (ops : List CacheOp) (s : CacheState), MaskInv s → MaskInv (applyOps s ops) := by
  intro ops
  induction ops with
  | nil => intro s h; exact h
  | cons op ops ih =>
    intro s h
    exact ih (applyOp s op) (maskInv_applyOp s op h)

/-- `DynBoundInv` transfers across an operation that leaves the CB arrays
and the offsets mask untouched. -/
lemma dynBound_of_eq {s t : CacheState} (hd : DynBoundInv s)
    (h1 : t.cbs = s.cbs) (h2 : t.cbHandles = s.cbHandles)
    (h3 : t.DynamicCBOffsetsMask = s.DynamicCBOffsetsMask) : DynBoundInv t := by
  intro i b hbit
  rw [h1, h2]
  rw [h3] at hbit
  exact hd i b hbit

/-- `DynBoundInv` is preserved by any operation that writes descriptor
`CBval i` with handle `Hval i` at the active stages' slots and recomputes
the dynamic-offset bit, provided a dynamic-eligible written descriptor
always comes with a non-null handle. -/
lemma dynBound_of_updFlag {s t : CacheState} (hm : MaskInv s) (hd : DynBoundInv s)
    (bp : D3D11ResourceBindPoints) (CBval : Nat → CachedCB) (Hval : Nat → Option Nat)
    (hOK : ∀ i, (CBval i).allowsDynamicOffset = true → (Hval i).isSome = true)
    (hcbs : ∀ i b, t.cbs i b =
      if i ∈ bp.activeStages ∧ b = bp.Bindings i then CBval i else s.cbs i b)
    (hh : ∀ i b, t.cbHandles i b =
      if i ∈ bp.activeStages ∧ b = bp.Bindings i then Hval i else s.cbHandles i b)
    (hoffs : ∀ i, t.DynamicCBOffsetsMask i =
      if i ∈ bp.activeStages then
        updateDynamicCBOffsetFlagCBV (s.DynamicCBSlotsMask i) (s.DynamicCBOffsetsMask i)
          (CBval i) (bp.Bindings i)
      else s.DynamicCBOffsetsMask i) :
    DynBoundInv t := by
  intro i b hbit
  rw [hoffs i] at hbit
  by_cases hi : i ∈ bp.activeStages
  · rw [if_pos hi] at hbit
    by_cases hbe : b = bp.Bindings i
    · subst hbe
      rw [updFlag_testBit_self _ _ _ _ (hm.1 i) (hm.2.1 i)] at hbit
      split at hbit
      · rw [hcbs i _, hh i _, if_pos ⟨hi, rfl⟩, if_pos ⟨hi, rfl⟩]
        exact ⟨hbit, hOK i hbit⟩
      · rename_i hslotbit
        exact absurd (hm.2.2 i _ hbit) hslotbit
    · rw [updFlag_testBit_other _ _ _ _ _ (hm.2.1 i) hbe] at hbit
      rw [hcbs i b, hh i b, if_neg fun hc => hbe hc.2, if_neg fun hc => hbe hc.2]
      exact hd i b hbit
  · rw [if_neg hi] at hbit
    rw [hcbs i b, hh i b, if_neg fun hc => hi hc.1, if_neg fun hc => hi hc.1]
    exact hd i b hbit

/-- `DynBoundInv` is preserved by `SetDynamicCBOffset` because
`AllowsDynamicOffset` ignores `DynamicOffset`. -/
lemma dynBound_setDynamicCBOffset (s : CacheState) (bp : D3D11ResourceBindPoints)
    (v : Nat) (hd : DynBoundInv s) : DynBoundInv (s.SetDynamicCBOffset bp v) := by
  obtain ⟨hcbs, hh, _, _, _, _, _, _, _, hoffs⟩ := setDynamicCBOffset_spec s bp v
  intro i b hbit
  rw [hoffs] at hbit
  have h := hd i b hbit
  rw [hcbs i b, hh]
  split
  · exact ⟨(allows_update_dynamicOffset _ _).trans h.1, h.2⟩
  · exact h

/-- `DynBoundInv` is preserved by every operation whose copy source (if
any) is handle-consistent. -/
lemma dynBound_applyOp (s : CacheState) (op : CacheOp) (hm : MaskInv s)
    (hok : CopySrcOK op) (hd : DynBoundInv s) : DynBoundInv (applyOp s op) := by
  cases op with
  | setCB bp pBuff off rng =>
    obtain ⟨hcbs, hh, hmask, _, _⟩ :=
      setCBInternal_spec s bp (CachedCB.set pBuff off rng) (pBuff.map (·.pd3d11Buffer))
    refine dynBound_of_updFlag hm hd bp (fun _ => CachedCB.set pBuff off rng)
      (fun _ => pBuff.map (fun buf : BufferD3D11Impl => buf.pd3d11Buffer))
      (fun i ha => ?_) hcbs hh hmask
    have hb := allows_imp_pBuff_isSome _ ha
    rw [Option.isSome_map']
    exact hb
  | setTexSRV bp v =>
    obtain ⟨_, _, h3, h4, _, _, _, _, _, h10⟩ :=
      setSRVInternal_spec s bp (CachedResource.setTex v) (v.map (·.pd3d11View))
    exact dynBound_of_eq hd h3 h4 h10
  | setBufSRV bp v =>
    obtain ⟨_, _, h3, h4, _, _, _, _, _, h10⟩ :=
      setSRVInternal_spec s bp (CachedResource.setBuf v) (v.map (·.pd3d11View))
    exact dynBound_of_eq hd h3 h4 h10
  | setTexUAV bp v =>
    obtain ⟨_, _, h3, h4, _, _, _, _, _, h10⟩ :=
      setUAVInternal_spec s bp (CachedResource.setTex v) (v.map (·.pd3d11View))
    exact dynBound_of_eq hd h3 h4 h10
  | setBufUAV bp v =>
    obtain ⟨_, _, h3, h4, _, _, _, _, _, h10⟩ :=
      setUAVInternal_spec s bp (CachedResource.setBuf v) (v.map (·.pd3d11View))
    exact dynBound_of_eq hd h3 h4 h10
  | setSampler bp sam =>
    obtain ⟨_, _, h3, h4, _, _, _, _, _, h10⟩ :=
      setSamplerInternal_spec s bp (CachedSampler.set sam) (sam.map (·.pd3d11Sampler))
    exact dynBound_of_eq hd h3 h4 h10
  | setDynamicCBOffset bp off => exact dynBound_setDynamicCBOffset s bp off hd
  | copyCB src bp =>
    obtain ⟨hcbs, hh, hmask, _, _⟩ := copyResourceCB_spec s src bp
    exact dynBound_of_updFlag hm hd bp (fun i => src.cbs i (bp.Bindings i))
      (fun i => src.cbHandles i (bp.Bindings i)) (fun i ha => hok i _ ha) hcbs hh hmask
  | copySRV src bp =>
    obtain ⟨_, _, _, h4, h5, _, _, _, _, _, h11⟩ := copyResourceSRV_spec s src bp
    exact dynBound_of_eq hd h4 h5 h11
  | copyUAV src bp =>
    obtain ⟨_, _, _, h4, h5, _, _, _, _, _, h11⟩ := copyResourceUAV_spec s src bp
    exact dynBound_of_eq hd h4 h5 h11
  | copySampler src bp =>
    obtain ⟨_, _, _, h4, h5, _, _, _, _, _, h11⟩ := copyResourceSampler_spec s src bp
    exact dynBound_of_eq hd h4 h5 h11

/-- `MaskInv ∧ DynBoundInv` is preserved by every conforming operation
sequence. -/
lemma dynBound_applyOps :
    ∀ (ops : List CacheOp) (s : CacheState), (∀ op ∈ ops, CopySrcOK op) →
      MaskInv s → DynBoundInv s → DynBoundInv (applyOps s ops) := by
  intro ops
  induction ops with
  | nil => intro s _ _ hd; exact hd
  | cons op ops ih =>
    intro s hok hm hd
    exact ih (applyOp s op) (fun o ho => hok o (List.mem_cons_of_mem _ ho))
      (maskInv_applyOp s op hm)
      (dynBound_applyOp s op hm (hok op (List.mem_cons_self _ _)) hd)

/-! ### Claims C5 and C10 -/

/-- C5: in every state reachable from `Initialize` by Slot Setters,
`SetDynamicCBOffset` and `CopyResource` calls, every set bit of
`DynamicCBOffsetsMask` is also set in `DynamicCBSlotsMask`. -/
theorem C5_offsets_mask_subset_of_slots_mask (SlotsMask : Nat → Nat)
    (h16 : ∀ i, SlotsMask i < 2 ^ 16) (ops : List CacheOp) (i b : Nat)
    (hbit : ((applyOps (initCache SlotsMask) ops).DynamicCBOffsetsMask i).testBit b = true) :
    ((applyOps (initCache SlotsMask) ops).DynamicCBSlotsMask i).testBit b = true :=
  (maskInv_applyOps ops _ (maskInv_initCache SlotsMask h16)).2.2 i b hbit

/-- Witness for C5: after binding the example dynamic constant buffer, the
offsets-mask bit implies the slots-mask bit at stage 0, slot 0. -/
theorem C5_offsets_mask_subset_of_slots_mask_witness :
    ((applyOps (initCache fun _ => 1)
      [CacheOp.setCB exBindPoints (some exBuffer) 256 1024]).DynamicCBSlotsMask 0).testBit 0 =
      true :=
  C5_offsets_mask_subset_of_slots_mask (fun _ => 1) (fun _ => by norm_num)
    [CacheOp.setCB exBindPoints (some exBuffer) 256 1024] 0 0 (by decide)

/-- C10: in every reachable state (copy sources handle-consistent), a set
`DynamicCBOffsetsMask` bit points at a slot whose constant buffer is bound
with `AllowsDynamicOffset()` true and whose native handle is non-null;
hence `BindDynamicCBs`, which visits exactly the set bits, never reads a
null handle, and `SetDynamicCBOffset` preserves this because
`AllowsDynamicOffset` does not depend on `DynamicOffset`. -/
theorem C10_dynamic_offset_bits_sound (SlotsMask : Nat → Nat)
    (h16 : ∀ i, SlotsMask i < 2 ^ 16) (ops : List CacheOp)
    (hsrc : ∀ op ∈ ops, CopySrcOK op) :
    (∀ i b, ((applyOps (initCache SlotsMask) ops).DynamicCBOffsetsMask i).testBit b = true →
      ((applyOps (initCache SlotsMask) ops).cbs i b).allowsDynamicOffset = true ∧
      ((applyOps (initCache SlotsMask) ops).cbHandles i b).isSome = true) ∧
    (∀ i, ∀ b ∈ dynamicCBBindings (applyOps (initCache SlotsMask) ops) i,
      ((applyOps (initCache SlotsMask) ops).cbHandles i b).isSome = true) ∧
    (∀ (cb : CachedCB) (v : Nat),
      ({ cb with DynamicOffset := v } : CachedCB).allowsDynamicOffset =
        cb.allowsDynamicOffset) := by
  have hd := dynBound_applyOps ops _ hsrc (maskInv_initCache SlotsMask h16)
    (dynBound_initCache SlotsMask)
  refine ⟨fun i b hbit => hd i b hbit, fun i b hb => ?_, allows_update_dynamicOffset⟩
  have := (mem_dynamicCBBindings _ i b).mp hb
  exact (hd i b this.2).2

/-- Witness for C10: for the example dynamic constant buffer, the set
offsets-mask bit at stage 0, slot 0 comes with a dynamic-eligible
descriptor and a non-null native handle. -/
theorem C10_dynamic_offset_bits_sound_witness :
    ((applyOps (initCache fun _ => 1)
        [CacheOp.setCB exBindPoints (some exBuffer) 256 1024]).cbs 0 0).allowsDynamicOffset =
      true ∧
    ((applyOps (initCache fun _ => 1)
        [CacheOp.setCB exBindPoints (some exBuffer) 256 1024]).cbHandles 0 0).isSome = true :=
  (C10_dynamic_offset_bits_sound (fun _ => 1) (fun _ => by norm_num)
    [CacheOp.setCB exBindPoints (some exBuffer) 256 1024]
    (fun op hop => by rcases List.mem_singleton.mp hop with rfl; trivial)).1 0 0 (by decide)

/-! ### Claim C6 -/

/-- C6: under the precondition that every active stage's slot is
dynamic-eligible, `SetDynamicCBOffset` writes only the `DynamicOffset`
field of the constant-buffer descriptor at the active stages' slots: the
bound buffer, `BaseOffset` and `RangeSize` there are unchanged, every other
slot of every kind is unchanged, the native-handle arrays are unchanged,
and both dynamic masks are unchanged. -/
theorem C6_set_dynamic_cb_offset_only_offset (s : CacheState)
    (bp : D3D11ResourceBindPoints) (v : Nat)
    (hpre : ∀ i ∈ bp.activeStages, (s.DynamicCBSlotsMask i).testBit (bp.Bindings i) = true) :
    (∀ i ∈ bp.activeStages,
      ((s.SetDynamicCBOffset bp v).cbs i (bp.Bindings i)).pBuff =
        (s.cbs i (bp.Bindings i)).pBuff ∧
      ((s.SetDynamicCBOffset bp v).cbs i (bp.Bindings i)).BaseOffset =
        (s.cbs i (bp.Bindings i)).BaseOffset ∧
      ((s.SetDynamicCBOffset bp v).cbs i (bp.Bindings i)).RangeSize =
        (s.cbs i (bp.Bindings i)).RangeSize ∧
      ((s.SetDynamicCBOffset bp v).cbs i (bp.Bindings i)).DynamicOffset = v) ∧
    (∀ i b, ¬(i ∈ bp.activeStages ∧ b = bp.Bindings i) →
      (s.SetDynamicCBOffset bp v).cbs i b = s.cbs i b) ∧
    (s.SetDynamicCBOffset bp v).cbHandles = s.cbHandles ∧
    (s.SetDynamicCBOffset bp v).srvs = s.srvs ∧
    (s.SetDynamicCBOffset bp v).srvHandles = s.srvHandles ∧
    (s.SetDynamicCBOffset bp v).samplers = s.samplers ∧
    (s.SetDynamicCBOffset bp v).samplerHandles = s.samplerHandles ∧
    (s.SetDynamicCBOffset bp v).uavs = s.uavs ∧
    (s.SetDynamicCBOffset bp v).uavHandles = s.uavHandles ∧
    (s.SetDynamicCBOffset bp v).DynamicCBSlotsMask = s.DynamicCBSlotsMask ∧
    (s.SetDynamicCBOffset bp v).DynamicCBOffsetsMask = s.DynamicCBOffsetsMask := by
  obtain ⟨hcbs, h2, h3, h4, h5, h6, h7, h8, h9, h10⟩ := setDynamicCBOffset_spec s bp v
  refine ⟨?_, ?_, h2, h3, h4, h5, h6, h7, h8, h9, h10⟩
  · intro i hi
    rw [hcbs i (bp.Bindings i), if_pos ⟨hi, rfl⟩]
    exact ⟨rfl, rfl, rfl, rfl⟩
  · intro i b hne
    rw [hcbs i b, if_neg hne]

/-- Witness for C6: setting `DynamicOffset = 512` on the example cache
updates exactly that field at stage 0, slot 0. -/
theorem C6_set_dynamic_cb_offset_only_offset_witness :
    ((exCacheAfterSetCB.SetDynamicCBOffset exBindPoints 512).cbs 0 0).DynamicOffset = 512 :=
  ((C6_set_dynamic_cb_offset_only_offset exCacheAfterSetCB exBindPoints 512
    (by decide)).1 0 (by decide)).2.2.2

/-! ### Claim C8 -/

/-- Every slot of every kind pairs a bound descriptor with a non-null
native handle (both present or both absent). -/
def HandleDescAgree (s : CacheState) : Prop :=
  ∀ i b, (s.cbs i b).pBuff.isSome = (s.cbHandles i b).isSome ∧
    (s.srvs i b).pView.isSome = (s.srvHandles i b).isSome ∧
    (s.samplers i b).pSampler.isSome = (s.samplerHandles i b).isSome ∧
    (s.uavs i b).pView.isSome = (s.uavHandles i b).isSome

/-- The zero-filled cache agrees trivially. -/
lemma agree_initCache (SlotsMask : Nat → Nat) : HandleDescAgree (initCache SlotsMask) :=
  fun _ _ => ⟨rfl, rfl, rfl, rfl⟩

/-- Every Slot Setter writes descriptor and handle atomically: agreement is
preserved. -/
lemma agree_applyOp (s : CacheState) (op : CacheOp) (hset : IsSlotSetter op)
    (h : HandleDescAgree s) : HandleDescAgree (applyOp s op) := by
  cases op with
  | setCB bp pBuff off rng =>
    obtain ⟨hcbs, hh, _, _, h5, h6, h7, h8, h9, h10⟩ :=
      setCBInternal_spec s bp (CachedCB.set pBuff off rng) (pBuff.map (·.pd3d11Buffer))
    show HandleDescAgree
      (setCBInternal s bp (CachedCB.set pBuff off rng) (pBuff.map (·.pd3d11Buffer)))
    intro i b
    refine ⟨?_, by rw [h5, h6]; exact (h i b).2.1, by rw [h7, h8]; exact (h i b).2.2.1,
      by rw [h9, h10]; exact (h i b).2.2.2⟩
    rw [hcbs i b, hh i b]
    split
    · rw [Option.isSome_map']
      rfl
    · exact (h i b).1
  | setTexSRV bp v =>
    obtain ⟨ha, hh, h3, h4, h5, h6, h7, h8, _, _⟩ :=
      setSRVInternal_spec s bp (CachedResource.setTex v) (v.map (·.pd3d11View))
    show HandleDescAgree
      (setSRVInternal s bp (CachedResource.setTex v) (v.map (·.pd3d11View)))
    intro i b
    refine ⟨by rw [h3, h4]; exact (h i b).1, ?_, by rw [h5, h6]; exact (h i b).2.2.1,
      by rw [h7, h8]; exact (h i b).2.2.2⟩
    rw [ha i b, hh i b]
    split
    · rw [Option.isSome_map']
      show (v.map (·.viewId)).isSome = _
      rw [Option.isSome_map']
    · exact (h i b).2.1
  | setBufSRV bp v =>
    obtain ⟨ha, hh, h3, h4, h5, h6, h7, h8, _, _⟩ :=
      setSRVInternal_spec s bp (CachedResource.setBuf v) (v.map (·.pd3d11View))
    show HandleDescAgree
      (setSRVInternal s bp (CachedResource.setBuf v) (v.map (·.pd3d11View)))
    intro i b
    refine ⟨by rw [h3, h4]; exact (h i b).1, ?_, by rw [h5, h6]; exact (h i b).2.2.1,
      by rw [h7, h8]; exact (h i b).2.2.2⟩
    rw [ha i b, hh i b]
    split
    · rw [Option.isSome_map']
      show (v.map (·.viewId)).isSome = _
      rw [Option.isSome_map']
    · exact (h i b).2.1
  | setTexUAV bp v =>
    obtain ⟨ha, hh, h3, h4, h5, h6, h7, h8, _, _⟩ :=
      setUAVInternal_spec s bp (CachedResource.setTex v) (v.map (·.pd3d11View))
    show HandleDescAgree
      (setUAVInternal s bp (CachedResource.setTex v) (v.map (·.pd3d11View)))
    intro i b
    refine ⟨by rw [h3, h4]; exact (h i b).1, by rw [h5, h6]; exact (h i b).2.1,
      by rw [h7, h8]; exact (h i b).2.2.1, ?_⟩
    rw [ha i b, hh i b]
    split
    · rw [Option.isSome_map']
      show (v.map (·.viewId)).isSome = _
      rw [Option.isSome_map']
    · exact (h i b).2.2.2
  | setBufUAV bp v =>
    obtain ⟨ha, hh, h3, h4, h5, h6, h7, h8, _, _⟩ :=
      setUAVInternal_spec s bp (CachedResource.setBuf v) (v.map (·.pd3d11View))
    show HandleDescAgree
      (setUAVInternal s bp (CachedResource.setBuf v) (v.map (·.pd3d11View)))
    intro i b
    refine ⟨by rw [h3, h4]; exact (h i b).1, by rw [h5, h6]; exact (h i b).2.1,
      by rw [h7, h8]; exact (h i b).2.2.1, ?_⟩
    rw [ha i b, hh i b]
    split
    · rw [Option.isSome_map']
      show (v.map (·.viewId)).isSome = _
      rw [Option.isSome_map']
    · exact (h i b).2.2.2
  | setSampler bp sam =>
    obtain ⟨ha, hh, h3, h4, h5, h6, h7, h8, _, _⟩ :=
      setSamplerInternal_spec s bp (CachedSampler.set sam) (sam.map (·.pd3d11Sampler))
    show HandleDescAgree
      (setSamplerInternal s bp (CachedSampler.set sam) (sam.map (·.pd3d11Sampler)))
    intro i b
    refine ⟨by rw [h3, h4]; exact (h i b).1, by rw [h5, h6]; exact (h i b).2.1, ?_,
      by rw [h7, h8]; exact (h i b).2.2.2⟩
    rw [ha i b, hh i b]
    split
    · rw [Option.isSome_map']
      rfl
    · exact (h i b).2.2.1
  | setDynamicCBOffset bp off => exact hset.elim
  | copyCB src bp => exact hset.elim
  | copySRV src bp => exact hset.elim
  | copyUAV src bp => exact hset.elim
  | copySampler src bp => exact hset.elim

/-- Agreement is preserved by every Slot-Setter sequence. -/
lemma agree_applyOps :
    ∀ (ops : List CacheOp) (s : CacheState), (∀ op ∈ ops, IsSlotSetter op) →
      HandleDescAgree s → HandleDescAgree (applyOps s ops) := by
  intro ops
  induction ops with
  | nil => intro s _ h; exact h
  | cons op ops ih =>
    intro s hset h
    exact ih (applyOp s op) (fun o ho => hset o (List.mem_cons_of_mem _ ho))
      (agree_applyOp s op (hset op (List.mem_cons_self _ _)) h)

/-- C8: after any sequence of Slot Setter calls, every slot of every kind
holds a native handle exactly when it holds a bound descriptor. -/
theorem C8_handle_iff_descriptor (SlotsMask : Nat → Nat) (ops : List CacheOp)
    (hset : ∀ op ∈ ops, IsSlotSetter op) (i b : Nat) :
    ((applyOps (initCache SlotsMask) ops).cbs i b).pBuff.isSome =
      ((applyOps (initCache SlotsMask) ops).cbHandles i b).isSome ∧
    ((applyOps (initCache SlotsMask) ops).srvs i b).pView.isSome =
      ((applyOps (initCache SlotsMask) ops).srvHandles i b).isSome ∧
    ((applyOps (initCache SlotsMask) ops).samplers i b).pSampler.isSome =
      ((applyOps (initCache SlotsMask) ops).samplerHandles i b).isSome ∧
    ((applyOps (initCache SlotsMask) ops).uavs i b).pView.isSome =
      ((applyOps (initCache SlotsMask) ops).uavHandles i b).isSome :=
  agree_applyOps ops _ hset (agree_initCache SlotsMask) i b

/-- Witness for C8: the agreement at stage 0, slot 0 after binding the
example constant buffer. -/
theorem C8_handle_iff_descriptor_witness :
    ((applyOps (initCache fun _ => 1)
        [CacheOp.setCB exBindPoints (some exBuffer) 256 1024]).cbs 0 0).pBuff.isSome =
      ((applyOps (initCache fun _ => 1)
        [CacheOp.setCB exBindPoints (some exBuffer) 256 1024]).cbHandles 0 0).isSome :=
  (C8_handle_iff_descriptor (fun _ => 1)
    [CacheOp.setCB exBindPoints (some exBuffer) 256 1024]
    (fun op hop => by rcases List.mem_singleton.mp hop with rfl; trivial) 0 0).1

/-! ### Claim C9 -/

/-- C9: `CopyResource` copies descriptor and native handle at the bind
point's slot from the source for every active stage (including the unbound
state), leaves the same kind's other slots unchanged, recomputes the
dynamic-offset bit (constant-buffer kind), and returns true exactly when
the source slot is non-null at every active stage — for all four resource
kinds. -/
theorem C9_copy_resource_semantics (s src : CacheState) (bp : D3D11ResourceBindPoints)
    (hs16 : ∀ i, s.DynamicCBSlotsMask i < 2 ^ 16)
    (ho16 : ∀ i, s.DynamicCBOffsetsMask i < 2 ^ 16) :
    (∀ i ∈ bp.activeStages,
      (s.CopyResourceCB src bp).1.cbs i (bp.Bindings i) = src.cbs i (bp.Bindings i) ∧
      (s.CopyResourceCB src bp).1.cbHandles i (bp.Bindings i) =
        src.cbHandles i (bp.Bindings i)) ∧
    (∀ i b, ¬(i ∈ bp.activeStages ∧ b = bp.Bindings i) →
      (s.CopyResourceCB src bp).1.cbs i b = s.cbs i b ∧
      (s.CopyResourceCB src bp).1.cbHandles i b = s.cbHandles i b) ∧
    ((s.CopyResourceCB src bp).2 = true ↔
      ∀ i ∈ bp.activeStages, (src.cbs i (bp.Bindings i)).pBuff.isSome = true) ∧
    (∀ i ∈ bp.activeStages,
      ((s.CopyResourceCB src bp).1.DynamicCBOffsetsMask i).testBit (bp.Bindings i) =
        if (s.DynamicCBSlotsMask i).testBit (bp.Bindings i) = true
        then (src.cbs i (bp.Bindings i)).allowsDynamicOffset
        else (s.DynamicCBOffsetsMask i).testBit (bp.Bindings i)) ∧
    (s.CopyResourceCB src bp).1.DynamicCBSlotsMask = s.DynamicCBSlotsMask ∧
    (∀ i ∈ bp.activeStages,
      (s.CopyResourceSRV src bp).1.srvs i (bp.Bindings i) = src.srvs i (bp.Bindings i) ∧
      (s.CopyResourceSRV src bp).1.srvHandles i (bp.Bindings i) =
        src.srvHandles i (bp.Bindings i)) ∧
    (∀ i b, ¬(i ∈ bp.activeStages ∧ b = bp.Bindings i) →
      (s.CopyResourceSRV src bp).1.srvs i b = s.srvs i b ∧
      (s.CopyResourceSRV src bp).1.srvHandles i b = s.srvHandles i b) ∧
    ((s.CopyResourceSRV src bp).2 = true ↔
      ∀ i ∈ bp.activeStages, (src.srvs i (bp.Bindings i)).pView.isSome = true) ∧
    (∀ i ∈ bp.activeStages,
      (s.CopyResourceUAV src bp).1.uavs i (bp.Bindings i) = src.uavs i (bp.Bindings i) ∧
      (s.CopyResourceUAV src bp).1.uavHandles i (bp.Bindings i) =
        src.uavHandles i (bp.Bindings i)) ∧
    ((s.CopyResourceUAV src bp).2 = true ↔
      ∀ i ∈ bp.activeStages, (src.uavs i (bp.Bindings i)).pView.isSome = true) ∧
    (∀ i ∈ bp.activeStages,
      (s.CopyResourceSampler src bp).1.samplers i (bp.Bindings i) =
        src.samplers i (bp.Bindings i) ∧
      (s.CopyResourceSampler src bp).1.samplerHandles i (bp.Bindings i) =
        src.samplerHandles i (bp.Bindings i)) ∧
    ((s.CopyResourceSampler src bp).2 = true ↔
      ∀ i ∈ bp.activeStages, (src.samplers i (bp.Bindings i)).pSampler.isSome = true) := by
  obtain ⟨hcbs, hch, hmask, hslots, hbool, _⟩ := copyResourceCB_spec s src bp
  obtain ⟨hsrvs, hsh, hsbool, _⟩ := copyResourceSRV_spec s src bp
  obtain ⟨huavs, huh, hubool, _⟩ := copyResourceUAV_spec s src bp
  obtain ⟨hsams, hsamh, hsambool, _⟩ := copyResourceSampler_spec s src bp
  refine ⟨?_, ?_, ?_, ?_, hslots, ?_, ?_, ?_, ?_, ?_, ?_, ?_⟩
  · intro i hi
    rw [hcbs i (bp.Bindings i), hch i (bp.Bindings i), if_pos ⟨hi, rfl⟩, if_pos ⟨hi, rfl⟩]
    exact ⟨rfl, rfl⟩
  · intro i b hne
    rw [hcbs i b, hch i b, if_neg hne, if_neg hne]
    exact ⟨rfl, rfl⟩
  · rw [hbool]
    exact List.all_eq_true
  · intro i hi
    rw [hmask i, if_pos hi, updFlag_testBit_self _ _ _ _ (hs16 i) (ho16 i)]
  · intro i hi
    rw [hsrvs i (bp.Bindings i), hsh i (bp.Bindings i), if_pos ⟨hi, rfl⟩, if_pos ⟨hi, rfl⟩]
    exact ⟨rfl, rfl⟩
  · intro i b hne
    rw [hsrvs i b, hsh i b, if_neg hne, if_neg hne]
    exact ⟨rfl, rfl⟩
  · rw [hsbool]
    exact List.all_eq_true
  · intro i hi
    rw [huavs i (bp.Bindings i), huh i (bp.Bindings i), if_pos ⟨hi, rfl⟩, if_pos ⟨hi, rfl⟩]
    exact ⟨rfl, rfl⟩
  · rw [hubool]
    exact List.all_eq_true
  · intro i hi
    rw [hsams i (bp.Bindings i), hsamh i (bp.Bindings i), if_pos ⟨hi, rfl⟩, if_pos ⟨hi, rfl⟩]
    exact ⟨rfl, rfl⟩
  · rw [hsambool]
    exact List.all_eq_true

/-- Witness for C9: copying the fully-bound example constant buffer into a
freshly initialized cache returns `true` and reproduces the source slot. -/
theorem C9_copy_resource_semantics_witness :
    ((initCache fun _ => 1).CopyResourceCB exCacheAfterSetCB exBindPoints).1.cbs 0 0 =
      exCacheAfterSetCB.cbs 0 0 :=
  (((C9_copy_resource_semantics (initCache fun _ => 1) exCacheAfterSetCB exBindPoints
    (fun _ => show (1 : Nat) < 2 ^ 16 by norm_num)
    (fun _ => show (0 : Nat) < 2 ^ 16 by norm_num)).1 0 (by decide))).1

/-! ### Cross-stage consistency (claim C7) -/

/-- One resource kind's descriptor and native-handle arrays agree across
all stages of one multi-stage bind point. -/
def ConsistentAt {α : Type} (desc : Nat → Nat → α) (hand : Nat → Nat → Option Nat)
    (bp : D3D11ResourceBindPoints) : Prop :=
  ∀ i ∈ bp.activeStages, ∀ j ∈ bp.activeStages,
    desc i (bp.Bindings i) = desc j (bp.Bindings j) ∧
    hand i (bp.Bindings i) = hand j (bp.Bindings j)

/-- An operation through bind-point set `bp'` does not touch any of `bp`'s
per-stage slots (the two bind-point sets are slot-disjoint). -/
def WritesDisjointFrom (bp bp' : D3D11ResourceBindPoints) : Prop :=
  ∀ i ∈ bp.activeStages, i ∈ bp'.activeStages → bp'.Bindings i ≠ bp.Bindings i

/-- An operation acting through whole bind-point sets, as seen from `bp`
and the constant-buffer kind: it either uses `bp` itself (for a copy, with
a source itself consistent at `bp`) or is slot-disjoint from `bp`; other
kinds' operations never touch the CB arrays. -/
def CompatCB (bp : D3D11ResourceBindPoints) : CacheOp → Prop
  | .setCB bp' _ _ _ => bp' = bp ∨ WritesDisjointFrom bp bp'
  | .setDynamicCBOffset bp' _ => bp' = bp ∨ WritesDisjointFrom bp bp'
  | .copyCB src bp' => (bp' = bp ∧ ConsistentAt src.cbs src.cbHandles bp) ∨
      WritesDisjointFrom bp bp'
  | _ => True

/-- Whole-bind-point compatibility for the SRV kind. -/
def CompatSRV (bp : D3D11ResourceBindPoints) : CacheOp → Prop
  | .setTexSRV bp' _ => bp' = bp ∨ WritesDisjointFrom bp bp'
  | .setBufSRV bp' _ => bp' = bp ∨ WritesDisjointFrom bp bp'
  | .copySRV src bp' => (bp' = bp ∧ ConsistentAt src.srvs src.srvHandles bp) ∨
      WritesDisjointFrom bp bp'
  | _ => True

/-- Whole-bind-point compatibility for the UAV kind. -/
def CompatUAV (bp : D3D11ResourceBindPoints) : CacheOp → Prop
  | .setTexUAV bp' _ => bp' = bp ∨ WritesDisjointFrom bp bp'
  | .setBufUAV bp' _ => bp' = bp ∨ WritesDisjointFrom bp bp'
  | .copyUAV src bp' => (bp' = bp ∧ ConsistentAt src.uavs src.uavHandles bp) ∨
      WritesDisjointFrom bp bp'
  | _ => True

/-- Whole-bind-point compatibility for the sampler kind. -/
def CompatSampler (bp : D3D11ResourceBindPoints) : CacheOp → Prop
  | .setSampler bp' _ => bp' = bp ∨ WritesDisjointFrom bp bp'
  | .copySampler src bp' => (bp' = bp ∧ ConsistentAt src.samplers src.samplerHandles bp) ∨
      WritesDisjointFrom bp bp'
  | _ => True

/-- Writing one value (and one handle) at every slot of `bp` makes the
kind consistent at `bp`. -/
lemma consistentAt_of_write {α : Type} (bp : D3D11ResourceBindPoints)
    (desc desc' : Nat → Nat → α) (hand hand' : Nat → Nat → Option Nat)
    (v : α) (hv : Option Nat)
    (hdesc : ∀ i b, desc' i b =
      if i ∈ bp.activeStages ∧ b = bp.Bindings i then v else desc i b)
    (hhand : ∀ i b, hand' i b =
      if i ∈ bp.activeStages ∧ b = bp.Bindings i then hv else hand i b) :
    ConsistentAt desc' hand' bp := by
  intro i hi j hj
  constructor
  · rw [hdesc i (bp.Bindings i), hdesc j (bp.Bindings j),
      if_pos ⟨hi, rfl⟩, if_pos ⟨hj, rfl⟩]
  · rw [hhand i (bp.Bindings i), hhand j (bp.Bindings j),
      if_pos ⟨hi, rfl⟩, if_pos ⟨hj, rfl⟩]

/-- Copying from a source consistent at `bp` yields consistency at `bp`. -/
lemma consistentAt_of_copy {α : Type} (bp : D3D11ResourceBindPoints)
    (desc desc' srcdesc : Nat → Nat → α)
    (hand hand' srchand : Nat → Nat → Option Nat)
    (hsrc : ConsistentAt srcdesc srchand bp)
    (hdesc : ∀ i b, desc' i b =
      if i ∈ bp.activeStages ∧ b = bp.Bindings i then srcdesc i (bp.Bindings i)
      else desc i b)
    (hhand : ∀ i b, hand' i b =
      if i ∈ bp.activeStages ∧ b = bp.Bindings i then srchand i (bp.Bindings i)
      else hand i b) :
    ConsistentAt desc' hand' bp := by
  intro i hi j hj
  constructor
  · rw [hdesc i (bp.Bindings i), hdesc j (bp.Bindings j),
      if_pos ⟨hi, rfl⟩, if_pos ⟨hj, rfl⟩]
    exact (hsrc i hi j hj).1
  · rw [hhand i (bp.Bindings i), hhand j (bp.Bindings j),
      if_pos ⟨hi, rfl⟩, if_pos ⟨hj, rfl⟩]
    exact (hsrc i hi j hj).2

/-- Applying one function to every slot of `bp` (the `DynamicOffset`
rewrite of `SetDynamicCBOffset`) preserves consistency at `bp`. -/
lemma consistentAt_of_mapSlot {α : Type} (bp : D3D11ResourceBindPoints)
    (desc desc' : Nat → Nat → α) (hand hand' : Nat → Nat → Option Nat) (f : α → α)
    (hc : ConsistentAt desc hand bp)
    (hdesc : ∀ i b, desc' i b =
      if i ∈ bp.activeStages ∧ b = bp.Bindings i then f (desc i b) else desc i b)
    (hhand : ∀ i ∈ bp.activeStages, hand' i (bp.Bindings i) = hand i (bp.Bindings i)) :
    ConsistentAt desc' hand' bp := by
  intro i hi j hj
  constructor
  · rw [hdesc i (bp.Bindings i), hdesc j (bp.Bindings j),
      if_pos ⟨hi, rfl⟩, if_pos ⟨hj, rfl⟩]
    exact congrArg f (hc i hi j hj).1
  · rw [hhand i hi, hhand j hj]
    exact (hc i hi j hj).2

/-- An operation that leaves all of `bp`'s slots of this kind untouched
preserves consistency at `bp`. -/
lemma consistentAt_of_frame {α : Type} (bp : D3D11ResourceBindPoints)
    (desc desc' : Nat → Nat → α) (hand hand' : Nat → Nat → Option Nat)
    (hc : ConsistentAt desc hand bp)
    (hdesc : ∀ i ∈ bp.activeStages, desc' i (bp.Bindings i) = desc i (bp.Bindings i))
    (hhand : ∀ i ∈ bp.activeStages, hand' i (bp.Bindings i) = hand i (bp.Bindings i)) :
    ConsistentAt desc' hand' bp := by
  intro i hi j hj
  rw [hdesc i hi, hdesc j hj, hhand i hi, hhand j hj]
  exact hc i hi j hj

/-- A slot array updated through a bind-point set slot-disjoint from `bp`
is unchanged at `bp`'s slots. -/
lemma frame_of_disjoint {α : Type} (bp bp' : D3D11ResourceBindPoints)
    (g g' : Nat → Nat → α) (W : Nat → Nat → α)
    (hdis : WritesDisjointFrom bp bp')
    (hg : ∀ i b, g' i b =
      if i ∈ bp'.activeStages ∧ b = bp'.Bindings i then W i b else g i b) :
    ∀ i ∈ bp.activeStages, g' i (bp.Bindings i) = g i (bp.Bindings i) := by
  intro i hi
  rw [hg i (bp.Bindings i), if_neg fun hcond => hdis i hi hcond.1 hcond.2.symm]

/-- Pointwise version of a function-level frame equality. -/
lemma frame_of_eq {α : Type} (bp : D3D11ResourceBindPoints)
    (g g' : Nat → Nat → α) (h : g' = g) :
    ∀ i ∈ bp.activeStages, g' i (bp.Bindings i) = g i (bp.Bindings i) :=
  fun i _ => congrFun (congrFun h i) (bp.Bindings i)

/-- Constant-buffer consistency at a bind point is preserved by every
`CompatCB`-conforming operation. -/
lemma consistentCB_applyOp (s : CacheState) (bp : D3D11ResourceBindPoints) (op : CacheOp)
    (hc : ConsistentAt s.cbs s.cbHandles bp) (hop : CompatCB bp op) :
    ConsistentAt (applyOp s op).cbs (applyOp s op).cbHandles bp := by
  cases op with
  | setCB bp' pBuff off rng =>
    obtain ⟨hcbs, hh, _⟩ :=
      setCBInternal_spec s bp' (CachedCB.set pBuff off rng) (pBuff.map (·.pd3d11Buffer))
    show ConsistentAt
      (setCBInternal s bp' (CachedCB.set pBuff off rng) (pBuff.map (·.pd3d11Buffer))).cbs
      (setCBInternal s bp' (CachedCB.set pBuff off rng) (pBuff.map (·.pd3d11Buffer))).cbHandles
      bp
    rcases hop with rfl | hdis
    · exact consistentAt_of_write bp' s.cbs _ s.cbHandles _ _ _ hcbs hh
    · exact consistentAt_of_frame bp s.cbs _ s.cbHandles _ hc
        (frame_of_disjoint bp bp' s.cbs _ _ hdis hcbs)
        (frame_of_disjoint bp bp' s.cbHandles _ _ hdis hh)
  | setTexSRV bp' v =>
    obtain ⟨_, _, h3, h4, _⟩ :=
      setSRVInternal_spec s bp' (CachedResource.setTex v) (v.map (·.pd3d11View))
    show ConsistentAt
      (setSRVInternal s bp' (CachedResource.setTex v) (v.map (·.pd3d11View))).cbs
      (setSRVInternal s bp' (CachedResource.setTex v) (v.map (·.pd3d11View))).cbHandles bp
    exact consistentAt_of_frame bp s.cbs _ s.cbHandles _ hc
      (frame_of_eq bp s.cbs _ h3) (frame_of_eq bp s.cbHandles _ h4)
  | setBufSRV bp' v =>
    obtain ⟨_, _, h3, h4, _⟩ :=
      setSRVInternal_spec s bp' (CachedResource.setBuf v) (v.map (·.pd3d11View))
    show ConsistentAt
      (setSRVInternal s bp' (CachedResource.setBuf v) (v.map (·.pd3d11View))).cbs
      (setSRVInternal s bp' (CachedResource.setBuf v) (v.map (·.pd3d11View))).cbHandles bp
    exact consistentAt_of_frame bp s.cbs _ s.cbHandles _ hc
      (frame_of_eq bp s.cbs _ h3) (frame_of_eq bp s.cbHandles _ h4)
  | setTexUAV bp' v =>
    obtain ⟨_, _, h3, h4, _⟩ :=
      setUAVInternal_spec s bp' (CachedResource.setTex v) (v.map (·.pd3d11View))
    show ConsistentAt
      (setUAVInternal s bp' (CachedResource.setTex v) (v.map (·.pd3d11View))).cbs
      (setUAVInternal s bp' (CachedResource.setTex v) (v.map (·.pd3d11View))).cbHandles bp
    exact consistentAt_of_frame bp s.cbs _ s.cbHandles _ hc
      (frame_of_eq bp s.cbs _ h3) (frame_of_eq bp s.cbHandles _ h4)
  | setBufUAV bp' v =>
    obtain ⟨_, _, h3, h4, _⟩ :=
      setUAVInternal_spec s bp' (CachedResource.setBuf v) (v.map (·.pd3d11View))
    show ConsistentAt
      (setUAVInternal s bp' (CachedResource.setBuf v) (v.map (·.pd3d11View))).cbs
      (setUAVInternal s bp' (CachedResource.setBuf v) (v.map (·.pd3d11View))).cbHandles bp
    exact consistentAt_of_frame bp s.cbs _ s.cbHandles _ hc
      (frame_of_eq bp s.cbs _ h3) (frame_of_eq bp s.cbHandles _ h4)
  | setSampler bp' sam =>
    obtain ⟨_, _, h3, h4, _⟩ :=
      setSamplerInternal_spec s bp' (CachedSampler.set sam) (sam.map (·.pd3d11Sampler))
    show ConsistentAt
      (setSamplerInternal s bp' (CachedSampler.set sam) (sam.map (·.pd3d11Sampler))).cbs
      (setSamplerInternal s bp' (CachedSampler.set sam) (sam.map (·.pd3d11Sampler))).cbHandles
      bp
    exact consistentAt_of_frame bp s.cbs _ s.cbHandles _ hc
      (frame_of_eq bp s.cbs _ h3) (frame_of_eq bp s.cbHandles _ h4)
  | setDynamicCBOffset bp' v =>
    obtain ⟨hcbs, hh, _⟩ := setDynamicCBOffset_spec s bp' v
    show ConsistentAt (s.SetDynamicCBOffset bp' v).cbs (s.SetDynamicCBOffset bp' v).cbHandles bp
    rcases hop with rfl | hdis
    · exact consistentAt_of_mapSlot bp' s.cbs _ s.cbHandles _
        (fun cb => { cb with DynamicOffset := v }) hc hcbs
        (frame_of_eq bp' s.cbHandles _ hh)
    · exact consistentAt_of_frame bp s.cbs _ s.cbHandles _ hc
        (frame_of_disjoint bp bp' s.cbs _ _ hdis hcbs)
        (frame_of_eq bp s.cbHandles _ hh)
  | copyCB src bp' =>
    obtain ⟨hcbs, hh, _⟩ := copyResourceCB_spec s src bp'
    show ConsistentAt (s.CopyResourceCB src bp').1.cbs (s.CopyResourceCB src bp').1.cbHandles bp
    rcases hop with ⟨rfl, hsrc⟩ | hdis
    · exact consistentAt_of_copy bp' s.cbs _ src.cbs s.cbHandles _ src.cbHandles hsrc hcbs hh
    · exact consistentAt_of_frame bp s.cbs _ s.cbHandles _ hc
        (frame_of_disjoint bp bp' s.cbs _ _ hdis hcbs)
        (frame_of_disjoint bp bp' s.cbHandles _ _ hdis hh)
  | copySRV src bp' =>
    obtain ⟨_, _, _, h4, h5, _⟩ := copyResourceSRV_spec s src bp'
    show ConsistentAt (s.CopyResourceSRV src bp').1.cbs (s.CopyResourceSRV src bp').1.cbHandles bp
    exact consistentAt_of_frame bp s.cbs _ s.cbHandles _ hc
      (frame_of_eq bp s.cbs _ h4) (frame_of_eq bp s.cbHandles _ h5)
  | copyUAV src bp' =>
    obtain ⟨_, _, _, h4, h5, _⟩ := copyResourceUAV_spec s src bp'
    show ConsistentAt (s.CopyResourceUAV src bp').1.cbs (s.CopyResourceUAV src bp').1.cbHandles bp
    exact consistentAt_of_frame bp s.cbs _ s.cbHandles _ hc
      (frame_of_eq bp s.cbs _ h4) (frame_of_eq bp s.cbHandles _ h5)
  | copySampler src bp' =>
    obtain ⟨_, _, _, h4, h5, _⟩ := copyResourceSampler_spec s src bp'
    show ConsistentAt (s.CopyResourceSampler src bp').1.cbs
      (s.CopyResourceSampler src bp').1.cbHandles bp
    exact consistentAt_of_frame bp s.cbs _ s.cbHandles _ hc
      (frame_of_eq bp s.cbs _ h4) (frame_of_eq bp s.cbHandles _ h5)

/-- SRV consistency at a bind point is preserved by every
`CompatSRV`-conforming operation. -/
lemma consistentSRV_applyOp (s : CacheState) (bp : D3D11ResourceBindPoints) (op : CacheOp)
    (hc : ConsistentAt s.srvs s.srvHandles bp) (hop : CompatSRV bp op) :
    ConsistentAt (applyOp s op).srvs (applyOp s op).srvHandles bp := by
  cases op with
  | setCB bp' pBuff off rng =>
    obtain ⟨_, _, _, _, hA, hB, _⟩ := setCBInternal_spec s bp' (CachedCB.set pBuff off rng) (pBuff.map (·.pd3d11Buffer))
    show ConsistentAt (setCBInternal s bp' (CachedCB.set pBuff off rng) (pBuff.map (·.pd3d11Buffer))).srvs (setCBInternal s bp' (CachedCB.set pBuff off rng) (pBuff.map (·.pd3d11Buffer))).srvHandles bp
    exact consistentAt_of_frame bp s.srvs _ s.srvHandles _ hc
      (frame_of_eq bp s.srvs _ hA) (frame_of_eq bp s.srvHandles _ hB)
  | setTexSRV bp' v =>
    obtain ⟨hA, hB, _⟩ := setSRVInternal_spec s bp' (CachedResource.setTex v) (v.map (·.pd3d11View))
    show ConsistentAt (setSRVInternal s bp' (CachedResource.setTex v) (v.map (·.pd3d11View))).srvs (setSRVInternal s bp' (CachedResource.setTex v) (v.map (·.pd3d11View))).srvHandles bp
    rcases hop with rfl | hdis
    · exact consistentAt_of_write bp' s.srvs _ s.srvHandles _ _ _ hA hB
    · exact consistentAt_of_frame bp s.srvs _ s.srvHandles _ hc
        (frame_of_disjoint bp bp' s.srvs _ _ hdis hA)
        (frame_of_disjoint bp bp' s.srvHandles _ _ hdis hB)
  | setBufSRV bp' v =>
    obtain ⟨hA, hB, _⟩ := setSRVInternal_spec s bp' (CachedResource.setBuf v) (v.map (·.pd3d11View))
    show ConsistentAt (setSRVInternal s bp' (CachedResource.setBuf v) (v.map (·.pd3d11View))).srvs (setSRVInternal s bp' (CachedResource.setBuf v) (v.map (·.pd3d11View))).srvHandles bp
    rcases hop with rfl | hdis
    · exact consistentAt_of_write bp' s.srvs _ s.srvHandles _ _ _ hA hB
    · exact consistentAt_of_frame bp s.srvs _ s.srvHandles _ hc
        (frame_of_disjoint bp bp' s.srvs _ _ hdis hA)
        (frame_of_disjoint bp bp' s.srvHandles _ _ hdis hB)
  | setTexUAV bp' v =>
    obtain ⟨_, _, _, _, hA, hB, _⟩ := setUAVInternal_spec s bp' (CachedResource.setTex v) (v.map (·.pd3d11View))
    show ConsistentAt (setUAVInternal s bp' (CachedResource.setTex v) (v.map (·.pd3d11View))).srvs (setUAVInternal s bp' (CachedResource.setTex v) (v.map (·.pd3d11View))).srvHandles bp
    exact consistentAt_of_frame bp s.srvs _ s.srvHandles _ hc
      (frame_of_eq bp s.srvs _ hA) (frame_of_eq bp s.srvHandles _ hB)
  | setBufUAV bp' v =>
    obtain ⟨_, _, _, _, hA, hB, _⟩ := setUAVInternal_spec s bp' (CachedResource.setBuf v) (v.map (·.pd3d11View))
    show ConsistentAt (setUAVInternal s bp' (CachedResource.setBuf v) (v.map (·.pd3d11View))).srvs (setUAVInternal s bp' (CachedResource.setBuf v) (v.map (·.pd3d11View))).srvHandles bp
    exact consistentAt_of_frame bp s.srvs _ s.srvHandles _ hc
      (frame_of_eq bp s.srvs _ hA) (frame_of_eq bp s.srvHandles _ hB)
  | setSampler bp' sam =>
    obtain ⟨_, _, _, _, hA, hB, _⟩ := setSamplerInternal_spec s bp' (CachedSampler.set sam) (sam.map (·.pd3d11Sampler))
    show ConsistentAt (setSamplerInternal s bp' (CachedSampler.set sam) (sam.map (·.pd3d11Sampler))).srvs (setSamplerInternal s bp' (CachedSampler.set sam) (sam.map (·.pd3d11Sampler))).srvHandles bp
    exact consistentAt_of_frame bp s.srvs _ s.srvHandles _ hc
      (frame_of_eq bp s.srvs _ hA) (frame_of_eq bp s.srvHandles _ hB)
  | setDynamicCBOffset bp' v =>
    obtain ⟨_, _, hA, hB, _⟩ := setDynamicCBOffset_spec s bp' v
    show ConsistentAt (s.SetDynamicCBOffset bp' v).srvs (s.SetDynamicCBOffset bp' v).srvHandles bp
    exact consistentAt_of_frame bp s.srvs _ s.srvHandles _ hc
      (frame_of_eq bp s.srvs _ hA) (frame_of_eq bp s.srvHandles _ hB)
  | copyCB src bp' =>
    obtain ⟨_, _, _, _, _, hA, hB, _⟩ := copyResourceCB_spec s src bp'
    show ConsistentAt ((s.CopyResourceCB src bp').1).srvs ((s.CopyResourceCB src bp').1).srvHandles bp
    exact consistentAt_of_frame bp s.srvs _ s.srvHandles _ hc
      (frame_of_eq bp s.srvs _ hA) (frame_of_eq bp s.srvHandles _ hB)
  | copySRV src bp' =>
    obtain ⟨hA, hB, _⟩ := copyResourceSRV_spec s src bp'
    show ConsistentAt ((s.CopyResourceSRV src bp').1).srvs ((s.CopyResourceSRV src bp').1).srvHandles bp
    rcases hop with ⟨rfl, hsrc⟩ | hdis
    · exact consistentAt_of_copy bp' s.srvs _ src.srvs s.srvHandles _ src.srvHandles hsrc hA hB
    · exact consistentAt_of_frame bp s.srvs _ s.srvHandles _ hc
        (frame_of_disjoint bp bp' s.srvs _ _ hdis hA)
        (frame_of_disjoint bp bp' s.srvHandles _ _ hdis hB)
  | copyUAV src bp' =>
    obtain ⟨_, _, _, _, _, hA, hB, _⟩ := copyResourceUAV_spec s src bp'
    show ConsistentAt ((s.CopyResourceUAV src bp').1).srvs ((s.CopyResourceUAV src bp').1).srvHandles bp
    exact consistentAt_of_frame bp s.srvs _ s.srvHandles _ hc
      (frame_of_eq bp s.srvs _ hA) (frame_of_eq bp s.srvHandles _ hB)
  | copySampler src bp' =>
    obtain ⟨_, _, _, _, _, hA, hB, _⟩ := copyResourceSampler_spec s src bp'
    show ConsistentAt ((s.CopyResourceSampler src bp').1).srvs ((s.CopyResourceSampler src bp').1).srvHandles bp
    exact consistentAt_of_frame bp s.srvs _ s.srvHandles _ hc
      (frame_of_eq bp s.srvs _ hA) (frame_of_eq bp s.srvHandles _ hB)

/-- UAV consistency at a bind point is preserved by every
`CompatUAV`-conforming operation. -/
lemma consistentUAV_applyOp (s : CacheState) (bp : D3D11ResourceBindPoints) (op : CacheOp)
    (hc : ConsistentAt s.uavs s.uavHandles bp) (hop : CompatUAV bp op) :
    ConsistentAt (applyOp s op).uavs (applyOp s op).uavHandles bp := by
  cases op with
  | setCB bp' pBuff off rng =>
    obtain ⟨_, _, _, _, _, _, _, _, hA, hB⟩ := setCBInternal_spec s bp' (CachedCB.set pBuff off rng) (pBuff.map (·.pd3d11Buffer))
    show ConsistentAt (setCBInternal s bp' (CachedCB.set pBuff off rng) (pBuff.map (·.pd3d11Buffer))).uavs (setCBInternal s bp' (CachedCB.set pBuff off rng) (pBuff.map (·.pd3d11Buffer))).uavHandles bp
    exact consistentAt_of_frame bp s.uavs _ s.uavHandles _ hc
      (frame_of_eq bp s.uavs _ hA) (frame_of_eq bp s.uavHandles _ hB)
  | setTexSRV bp' v =>
    obtain ⟨_, _, _, _, _, _, hA, hB, _⟩ := setSRVInternal_spec s bp' (CachedResource.setTex v) (v.map (·.pd3d11View))
    show ConsistentAt (setSRVInternal s bp' (CachedResource.setTex v) (v.map (·.pd3d11View))).uavs (setSRVInternal s bp' (CachedResource.setTex v) (v.map (·.pd3d11View))).uavHandles bp
    exact consistentAt_of_frame bp s.uavs _ s.uavHandles _ hc
      (frame_of_eq bp s.uavs _ hA) (frame_of_eq bp s.uavHandles _ hB)
  | setBufSRV bp' v =>
    obtain ⟨_, _, _, _, _, _, hA, hB, _⟩ := setSRVInternal_spec s bp' (CachedResource.setBuf v) (v.map (·.pd3d11View))
    show ConsistentAt (setSRVInternal s bp' (CachedResource.setBuf v) (v.map (·.pd3d11View))).uavs (setSRVInternal s bp' (CachedResource.setBuf v) (v.map (·.pd3d11View))).uavHandles bp
    exact consistentAt_of_frame bp s.uavs _ s.uavHandles _ hc
      (frame_of_eq bp s.uavs _ hA) (frame_of_eq bp s.uavHandles _ hB)
  | setTexUAV bp' v =>
    obtain ⟨hA, hB, _⟩ := setUAVInternal_spec s bp' (CachedResource.setTex v) (v.map (·.pd3d11View))
    show ConsistentAt (setUAVInternal s bp' (CachedResource.setTex v) (v.map (·.pd3d11View))).uavs (setUAVInternal s bp' (CachedResource.setTex v) (v.map (·.pd3d11View))).uavHandles bp
    rcases hop with rfl | hdis
    · exact consistentAt_of_write bp' s.uavs _ s.uavHandles _ _ _ hA hB
    · exact consistentAt_of_frame bp s.uavs _ s.uavHandles _ hc
        (frame_of_disjoint bp bp' s.uavs _ _ hdis hA)
        (frame_of_disjoint bp bp' s.uavHandles _ _ hdis hB)
  | setBufUAV bp' v =>
    obtain ⟨hA, hB, _⟩ := setUAVInternal_spec s bp' (CachedResource.setBuf v) (v.map (·.pd3d11View))
    show ConsistentAt (setUAVInternal s bp' (CachedResource.setBuf v) (v.map (·.pd3d11View))).uavs (setUAVInternal s bp' (CachedResource.setBuf v) (v.map (·.pd3d11View))).uavHandles bp
    rcases hop with rfl | hdis
    · exact consistentAt_of_write bp' s.uavs _ s.uavHandles _ _ _ hA hB
    · exact consistentAt_of_frame bp s.uavs _ s.uavHandles _ hc
        (frame_of_disjoint bp bp' s.uavs _ _ hdis hA)
        (frame_of_disjoint bp bp' s.uavHandles _ _ hdis hB)
  | setSampler bp' sam =>
    obtain ⟨_, _, _, _, _, _, hA, hB, _⟩ := setSamplerInternal_spec s bp' (CachedSampler.set sam) (sam.map (·.pd3d11Sampler))
    show ConsistentAt (setSamplerInternal s bp' (CachedSampler.set sam) (sam.map (·.pd3d11Sampler))).uavs (setSamplerInternal s bp' (CachedSampler.set sam) (sam.map (·.pd3d11Sampler))).uavHandles bp
    exact consistentAt_of_frame bp s.uavs _ s.uavHandles _ hc
      (frame_of_eq bp s.uavs _ hA) (frame_of_eq bp s.uavHandles _ hB)
  | setDynamicCBOffset bp' v =>
    obtain ⟨_, _, _, _, _, _, hA, hB, _⟩ := setDynamicCBOffset_spec s bp' v
    show ConsistentAt (s.SetDynamicCBOffset bp' v).uavs (s.SetDynamicCBOffset bp' v).uavHandles bp
    exact consistentAt_of_frame bp s.uavs _ s.uavHandles _ hc
      (frame_of_eq bp s.uavs _ hA) (frame_of_eq bp s.uavHandles _ hB)
  | copyCB src bp' =>
    obtain ⟨_, _, _, _, _, _, _, _, _, hA, hB⟩ := copyResourceCB_spec s src bp'
    show ConsistentAt ((s.CopyResourceCB src bp').1).uavs ((s.CopyResourceCB src bp').1).uavHandles bp
    exact consistentAt_of_frame bp s.uavs _ s.uavHandles _ hc
      (frame_of_eq bp s.uavs _ hA) (frame_of_eq bp s.uavHandles _ hB)
  | copySRV src bp' =>
    obtain ⟨_, _, _, _, _, _, _, hA, hB, _⟩ := copyResourceSRV_spec s src bp'
    show ConsistentAt ((s.CopyResourceSRV src bp').1).uavs ((s.CopyResourceSRV src bp').1).uavHandles bp
    exact consistentAt_of_frame bp s.uavs _ s.uavHandles _ hc
      (frame_of_eq bp s.uavs _ hA) (frame_of_eq bp s.uavHandles _ hB)
  | copyUAV src bp' =>
    obtain ⟨hA, hB, _⟩ := copyResourceUAV_spec s src bp'
    show ConsistentAt ((s.CopyResourceUAV src bp').1).uavs ((s.CopyResourceUAV src bp').1).uavHandles bp
    rcases hop with ⟨rfl, hsrc⟩ | hdis
    · exact consistentAt_of_copy bp' s.uavs _ src.uavs s.uavHandles _ src.uavHandles hsrc hA hB
    · exact consistentAt_of_frame bp s.uavs _ s.uavHandles _ hc
        (frame_of_disjoint bp bp' s.uavs _ _ hdis hA)
        (frame_of_disjoint bp bp' s.uavHandles _ _ hdis hB)
  | copySampler src bp' =>
    obtain ⟨_, _, _, _, _, _, _, hA, hB, _⟩ := copyResourceSampler_spec s src bp'
    show ConsistentAt ((s.CopyResourceSampler src bp').1).uavs ((s.CopyResourceSampler src bp').1).uavHandles bp
    exact consistentAt_of_frame bp s.uavs _ s.uavHandles _ hc
      (frame_of_eq bp s.uavs _ hA) (frame_of_eq bp s.uavHandles _ hB)

/-- Sampler consistency at a bind point is preserved by every
`CompatSampler`-conforming operation. -/
lemma consistentSampler_applyOp (s : CacheState) (bp : D3D11ResourceBindPoints) (op : CacheOp)
    (hc : ConsistentAt s.samplers s.samplerHandles bp) (hop : CompatSampler bp op) :
    ConsistentAt (applyOp s op).samplers (applyOp s op).samplerHandles bp := by
  cases op with
  | setCB bp' pBuff off rng =>
    obtain ⟨_, _, _, _, _, _, hA, hB, _⟩ := setCBInternal_spec s bp' (CachedCB.set pBuff off rng) (pBuff.map (·.pd3d11Buffer))
    show ConsistentAt (setCBInternal s bp' (CachedCB.set pBuff off rng) (pBuff.map (·.pd3d11Buffer))).samplers (setCBInternal s bp' (CachedCB.set pBuff off rng) (pBuff.map (·.pd3d11Buffer))).samplerHandles bp
    exact consistentAt_of_frame bp s.samplers _ s.samplerHandles _ hc
      (frame_of_eq bp s.samplers _ hA) (frame_of_eq bp s.samplerHandles _ hB)
  | setTexSRV bp' v =>
    obtain ⟨_, _, _, _, hA, hB, _⟩ := setSRVInternal_spec s bp' (CachedResource.setTex v) (v.map (·.pd3d11View))
    show ConsistentAt (setSRVInternal s bp' (CachedResource.setTex v) (v.map (·.pd3d11View))).samplers (setSRVInternal s bp' (CachedResource.setTex v) (v.map (·.pd3d11View))).samplerHandles bp
    exact consistentAt_of_frame bp s.samplers _ s.samplerHandles _ hc
      (frame_of_eq bp s.samplers _ hA) (frame_of_eq bp s.samplerHandles _ hB)
  | setBufSRV bp' v =>
    obtain ⟨_, _, _, _, hA, hB, _⟩ := setSRVInternal_spec s bp' (CachedResource.setBuf v) (v.map (·.pd3d11View))
    show ConsistentAt (setSRVInternal s bp' (CachedResource.setBuf v) (v.map (·.pd3d11View))).samplers (setSRVInternal s bp' (CachedResource.setBuf v) (v.map (·.pd3d11View))).samplerHandles bp
    exact consistentAt_of_frame bp s.samplers _ s.samplerHandles _ hc
      (frame_of_eq bp s.samplers _ hA) (frame_of_eq bp s.samplerHandles _ hB)
  | setTexUAV bp' v =>
    obtain ⟨_, _, _, _, _, _, hA, hB, _⟩ := setUAVInternal_spec s bp' (CachedResource.setTex v) (v.map (·.pd3d11View))
    show ConsistentAt (setUAVInternal s bp' (CachedResource.setTex v) (v.map (·.pd3d11View))).samplers (setUAVInternal s bp' (CachedResource.setTex v) (v.map (·.pd3d11View))).samplerHandles bp
    exact consistentAt_of_frame bp s.samplers _ s.samplerHandles _ hc
      (frame_of_eq bp s.samplers _ hA) (frame_of_eq bp s.samplerHandles _ hB)
  | setBufUAV bp' v =>
    obtain ⟨_, _, _, _, _, _, hA, hB, _⟩ := setUAVInternal_spec s bp' (CachedResource.setBuf v) (v.map (·.pd3d11View))
    show ConsistentAt (setUAVInternal s bp' (CachedResource.setBuf v) (v.map (·.pd3d11View))).samplers (setUAVInternal s bp' (CachedResource.setBuf v) (v.map (·.pd3d11View))).samplerHandles bp
    exact consistentAt_of_frame bp s.samplers _ s.samplerHandles _ hc
      (frame_of_eq bp s.samplers _ hA) (frame_of_eq bp s.samplerHandles _ hB)
  | setSampler bp' sam =>
    obtain ⟨hA, hB, _⟩ := setSamplerInternal_spec s bp' (CachedSampler.set sam) (sam.map (·.pd3d11Sampler))
    show ConsistentAt (setSamplerInternal s bp' (CachedSampler.set sam) (sam.map (·.pd3d11Sampler))).samplers (setSamplerInternal s bp' (CachedSampler.set sam) (sam.map (·.pd3d11Sampler))).samplerHandles bp
    rcases hop with rfl | hdis
    · exact consistentAt_of_write bp' s.samplers _ s.samplerHandles _ _ _ hA hB
    · exact consistentAt_of_frame bp s.samplers _ s.samplerHandles _ hc
        (frame_of_disjoint bp bp' s.samplers _ _ hdis hA)
        (frame_of_disjoint bp bp' s.samplerHandles _ _ hdis hB)
  | setDynamicCBOffset bp' v =>
    obtain ⟨_, _, _, _, hA, hB, _⟩ := setDynamicCBOffset_spec s bp' v
    show ConsistentAt (s.SetDynamicCBOffset bp' v).samplers (s.SetDynamicCBOffset bp' v).samplerHandles bp
    exact consistentAt_of_frame bp s.samplers _ s.samplerHandles _ hc
      (frame_of_eq bp s.samplers _ hA) (frame_of_eq bp s.samplerHandles _ hB)
  | copyCB src bp' =>
    obtain ⟨_, _, _, _, _, _, _, hA, hB, _⟩ := copyResourceCB_spec s src bp'
    show ConsistentAt ((s.CopyResourceCB src bp').1).samplers ((s.CopyResourceCB src bp').1).samplerHandles bp
    exact consistentAt_of_frame bp s.samplers _ s.samplerHandles _ hc
      (frame_of_eq bp s.samplers _ hA) (frame_of_eq bp s.samplerHandles _ hB)
  | copySRV src bp' =>
    obtain ⟨_, _, _, _, _, hA, hB, _⟩ := copyResourceSRV_spec s src bp'
    show ConsistentAt ((s.CopyResourceSRV src bp').1).samplers ((s.CopyResourceSRV src bp').1).samplerHandles bp
    exact consistentAt_of_frame bp s.samplers _ s.samplerHandles _ hc
      (frame_of_eq bp s.samplers _ hA) (frame_of_eq bp s.samplerHandles _ hB)
  | copyUAV src bp' =>
    obtain ⟨_, _, _, _, _, _, _, hA, hB, _⟩ := copyResourceUAV_spec s src bp'
    show ConsistentAt ((s.CopyResourceUAV src bp').1).samplers ((s.CopyResourceUAV src bp').1).samplerHandles bp
    exact consistentAt_of_frame bp s.samplers _ s.samplerHandles _ hc
      (frame_of_eq bp s.samplers _ hA) (frame_of_eq bp s.samplerHandles _ hB)
  | copySampler src bp' =>
    obtain ⟨hA, hB, _⟩ := copyResourceSampler_spec s src bp'
    show ConsistentAt ((s.CopyResourceSampler src bp').1).samplers ((s.CopyResourceSampler src bp').1).samplerHandles bp
    rcases hop with ⟨rfl, hsrc⟩ | hdis
    · exact consistentAt_of_copy bp' s.samplers _ src.samplers s.samplerHandles _ src.samplerHandles hsrc hA hB
    · exact consistentAt_of_frame bp s.samplers _ s.samplerHandles _ hc
        (frame_of_disjoint bp bp' s.samplers _ _ hdis hA)
        (frame_of_disjoint bp bp' s.samplerHandles _ _ hdis hB)

/-- On a CB-consistent bind point, `GetResource<CBV>` (read from the first
active stage) returns the descriptor stored at every active stage. -/
lemma getResourceCB_consistent (s : CacheState) (bp : D3D11ResourceBindPoints)
    (hc : ConsistentAt s.cbs s.cbHandles bp) (hne : bp.activeStages ≠ []) :
    ∀ j ∈ bp.activeStages, s.getResourceCB bp = s.cbs j (bp.Bindings j) := by
  intro j hj
  obtain ⟨i0, rest, heq⟩ := List.exists_cons_of_ne_nil hne
  have hi0 : i0 ∈ bp.activeStages := by rw [heq]; exact List.mem_cons_self _ _
  have h := (hc i0 hi0 j hj).1
  unfold CacheState.getResourceCB
  rw [heq]
  exact h

/-- `GetResource<SRV>` under SRV consistency. -/
lemma getResourceSRV_consistent (s : CacheState) (bp : D3D11ResourceBindPoints)
    (hc : ConsistentAt s.srvs s.srvHandles bp) (hne : bp.activeStages ≠ []) :
    ∀ j ∈ bp.activeStages, s.getResourceSRV bp = s.srvs j (bp.Bindings j) := by
  intro j hj
  obtain ⟨i0, rest, heq⟩ := List.exists_cons_of_ne_nil hne
  have hi0 : i0 ∈ bp.activeStages := by rw [heq]; exact List.mem_cons_self _ _
  have h := (hc i0 hi0 j hj).1
  unfold CacheState.getResourceSRV
  rw [heq]
  exact h

/-- `GetResource<UAV>` under UAV consistency. -/
lemma getResourceUAV_consistent (s : CacheState) (bp : D3D11ResourceBindPoints)
    (hc : ConsistentAt s.uavs s.uavHandles bp) (hne : bp.activeStages ≠ []) :
    ∀ j ∈ bp.activeStages, s.getResourceUAV bp = s.uavs j (bp.Bindings j) := by
  intro j hj
  obtain ⟨i0, rest, heq⟩ := List.exists_cons_of_ne_nil hne
  have hi0 : i0 ∈ bp.activeStages := by rw [heq]; exact List.mem_cons_self _ _
  have h := (hc i0 hi0 j hj).1
  unfold CacheState.getResourceUAV
  rw [heq]
  exact h

/-- `GetResource<SAMPLER>` under sampler consistency. -/
lemma getResourceSampler_consistent (s : CacheState) (bp : D3D11ResourceBindPoints)
    (hc : ConsistentAt s.samplers s.samplerHandles bp) (hne : bp.activeStages ≠ []) :
    ∀ j ∈ bp.activeStages, s.getResourceSampler bp = s.samplers j (bp.Bindings j) := by
  intro j hj
  obtain ⟨i0, rest, heq⟩ := List.exists_cons_of_ne_nil hne
  have hi0 : i0 ∈ bp.activeStages := by rw [heq]; exact List.mem_cons_self _ _
  have h := (hc i0 hi0 j hj).1
  unfold CacheState.getResourceSampler
  rw [heq]
  exact h

/-- CB consistency is preserved by `CompatCB` sequences. -/
lemma consistentCB_applyOps :
    ∀ (ops : List CacheOp) (s : CacheState) (bp : D3D11ResourceBindPoints),
      ConsistentAt s.cbs s.cbHandles bp → (∀ op ∈ ops, CompatCB bp op) →
      ConsistentAt (applyOps s ops).cbs (applyOps s ops).cbHandles bp := by
  intro ops
  induction ops with
  | nil => intro s bp hc _; exact hc
  | cons op ops ih =>
    intro s bp hc hops
    exact ih (applyOp s op) bp
      (consistentCB_applyOp s bp op hc (hops op (List.mem_cons_self _ _)))
      (fun o ho => hops o (List.mem_cons_of_mem _ ho))

/-- SRV consistency is preserved by `CompatSRV` sequences. -/
lemma consistentSRV_applyOps :
    ∀ (ops : List CacheOp) (s : CacheState) (bp : D3D11ResourceBindPoints),
      ConsistentAt s.srvs s.srvHandles bp → (∀ op ∈ ops, CompatSRV bp op) →
      ConsistentAt (applyOps s ops).srvs (applyOps s ops).srvHandles bp := by
  intro ops
  induction ops with
  | nil => intro s bp hc _; exact hc
  | cons op ops ih =>
    intro s bp hc hops
    exact ih (applyOp s op) bp
      (consistentSRV_applyOp s bp op hc (hops op (List.mem_cons_self _ _)))
      (fun o ho => hops o (List.mem_cons_of_mem _ ho))

/-- UAV consistency is preserved by `CompatUAV` sequences. -/
lemma consistentUAV_applyOps :
    ∀ (ops : List CacheOp) (s : CacheState) (bp : D3D11ResourceBindPoints),
      ConsistentAt s.uavs s.uavHandles bp → (∀ op ∈ ops, CompatUAV bp op) →
      ConsistentAt (applyOps s ops).uavs (applyOps s ops).uavHandles bp := by
  intro ops
  induction ops with
  | nil => intro s bp hc _; exact hc
  | cons op ops ih =>
    intro s bp hc hops
    exact ih (applyOp s op) bp
      (consistentUAV_applyOp s bp op hc (hops op (List.mem_cons_self _ _)))
      (fun o ho => hops o (List.mem_cons_of_mem _ ho))

/-- Sampler consistency is preserved by `CompatSampler` sequences. -/
lemma consistentSampler_applyOps :
    ∀ (ops : List CacheOp) (s : CacheState) (bp : D3D11ResourceBindPoints),
      ConsistentAt s.samplers s.samplerHandles bp → (∀ op ∈ ops, CompatSampler bp op) →
      ConsistentAt (applyOps s ops).samplers (applyOps s ops).samplerHandles bp := by
  intro ops
  induction ops with
  | nil => intro s bp hc _; exact hc
  | cons op ops ih =>
    intro s bp hc hops
    exact ih (applyOp s op) bp
      (consistentSampler_applyOp s bp op hc (hops op (List.mem_cons_self _ _)))
      (fun o ho => hops o (List.mem_cons_of_mem _ ho))

/-- C7: every Slot Setter on a multi-stage bind-point set leaves identical
cached descriptors and native handles at the bind point's slot of every
active stage; on any consistent bind point `GetResource` (reading from the
first active stage) returns the descriptor stored at every active stage;
and consistency persists under any further operations that act through
whole bind-point sets (the same set, or a slot-disjoint one; copies from
sources consistent at the set). -/
theorem C7_multi_stage_bind_consistency :
    (∀ (s : CacheState) (bp : D3D11ResourceBindPoints) (pBuff : Option BufferD3D11Impl)
        (off rng : Nat),
      ConsistentAt (s.SetCB bp pBuff off rng).cbs (s.SetCB bp pBuff off rng).cbHandles bp) ∧
    (∀ (s : CacheState) (bp : D3D11ResourceBindPoints) (v : Option TextureViewD3D11Impl),
      ConsistentAt (s.SetTexSRV bp v).srvs (s.SetTexSRV bp v).srvHandles bp) ∧
    (∀ (s : CacheState) (bp : D3D11ResourceBindPoints) (v : Option BufferViewD3D11Impl),
      ConsistentAt (s.SetBufSRV bp v).srvs (s.SetBufSRV bp v).srvHandles bp) ∧
    (∀ (s : CacheState) (bp : D3D11ResourceBindPoints) (v : Option TextureViewD3D11Impl),
      ConsistentAt (s.SetTexUAV bp v).uavs (s.SetTexUAV bp v).uavHandles bp) ∧
    (∀ (s : CacheState) (bp : D3D11ResourceBindPoints) (v : Option BufferViewD3D11Impl),
      ConsistentAt (s.SetBufUAV bp v).uavs (s.SetBufUAV bp v).uavHandles bp) ∧
    (∀ (s : CacheState) (bp : D3D11ResourceBindPoints) (sam : Option SamplerD3D11Impl),
      ConsistentAt (s.SetSampler bp sam).samplers (s.SetSampler bp sam).samplerHandles bp) ∧
    (∀ (s : CacheState) (bp : D3D11ResourceBindPoints),
      ConsistentAt s.cbs s.cbHandles bp → bp.activeStages ≠ [] →
      ∀ j ∈ bp.activeStages, s.getResourceCB bp = s.cbs j (bp.Bindings j)) ∧
    (∀ (s : CacheState) (bp : D3D11ResourceBindPoints),
      ConsistentAt s.srvs s.srvHandles bp → bp.activeStages ≠ [] →
      ∀ j ∈ bp.activeStages, s.getResourceSRV bp = s.srvs j (bp.Bindings j)) ∧
    (∀ (s : CacheState) (bp : D3D11ResourceBindPoints),
      ConsistentAt s.uavs s.uavHandles bp → bp.activeStages ≠ [] →
      ∀ j ∈ bp.activeStages, s.getResourceUAV bp = s.uavs j (bp.Bindings j)) ∧
    (∀ (s : CacheState) (bp : D3D11ResourceBindPoints),
      ConsistentAt s.samplers s.samplerHandles bp → bp.activeStages ≠ [] →
      ∀ j ∈ bp.activeStages, s.getResourceSampler bp = s.samplers j (bp.Bindings j)) ∧
    (∀ (ops : List CacheOp) (s : CacheState) (bp : D3D11ResourceBindPoints),
      ConsistentAt s.cbs s.cbHandles bp → (∀ op ∈ ops, CompatCB bp op) →
      ConsistentAt (applyOps s ops).cbs (applyOps s ops).cbHandles bp) ∧
    (∀ (ops : List CacheOp) (s : CacheState) (bp : D3D11ResourceBindPoints),
      ConsistentAt s.srvs s.srvHandles bp → (∀ op ∈ ops, CompatSRV bp op) →
      ConsistentAt (applyOps s ops).srvs (applyOps s ops).srvHandles bp) ∧
    (∀ (ops : List CacheOp) (s : CacheState) (bp : D3D11ResourceBindPoints),
      ConsistentAt s.uavs s.uavHandles bp → (∀ op ∈ ops, CompatUAV bp op) →
      ConsistentAt (applyOps s ops).uavs (applyOps s ops).uavHandles bp) ∧
    (∀ (ops : List CacheOp) (s : CacheState) (bp : D3D11ResourceBindPoints),
      ConsistentAt s.samplers s.samplerHandles bp → (∀ op ∈ ops, CompatSampler bp op) →
      ConsistentAt (applyOps s ops).samplers (applyOps s ops).samplerHandles bp) := by
  refine ⟨?_, ?_, ?_, ?_, ?_, ?_, getResourceCB_consistent, getResourceSRV_consistent,
    getResourceUAV_consistent, getResourceSampler_consistent, consistentCB_applyOps,
    consistentSRV_applyOps, consistentUAV_applyOps, consistentSampler_applyOps⟩
  · intro s bp pBuff off rng
    obtain ⟨h1, h2, _⟩ :=
      setCBInternal_spec s bp (CachedCB.set pBuff off rng) (pBuff.map (·.pd3d11Buffer))
    exact consistentAt_of_write bp s.cbs _ s.cbHandles _ _ _ h1 h2
  · intro s bp v
    obtain ⟨h1, h2, _⟩ :=
      setSRVInternal_spec s bp (CachedResource.setTex v) (v.map (·.pd3d11View))
    exact consistentAt_of_write bp s.srvs _ s.srvHandles _ _ _ h1 h2
  · intro s bp v
    obtain ⟨h1, h2, _⟩ :=
      setSRVInternal_spec s bp (CachedResource.setBuf v) (v.map (·.pd3d11View))
    exact consistentAt_of_write bp s.srvs _ s.srvHandles _ _ _ h1 h2
  · intro s bp v
    obtain ⟨h1, h2, _⟩ :=
      setUAVInternal_spec s bp (CachedResource.setTex v) (v.map (·.pd3d11View))
    exact consistentAt_of_write bp s.uavs _ s.uavHandles _ _ _ h1 h2
  · intro s bp v
    obtain ⟨h1, h2, _⟩ :=
      setUAVInternal_spec s bp (CachedResource.setBuf v) (v.map (·.pd3d11View))
    exact consistentAt_of_write bp s.uavs _ s.uavHandles _ _ _ h1 h2
  · intro s bp sam
    obtain ⟨h1, h2, _⟩ :=
      setSamplerInternal_spec s bp (CachedSampler.set sam) (sam.map (·.pd3d11Sampler))
    exact consistentAt_of_write bp s.samplers _ s.samplerHandles _ _ _ h1 h2

/-- Witness for C7: after the example `SetCB`, reading the constant buffer
back through `GetResource` from the (single) active stage returns the
stored descriptor. -/
theorem C7_multi_stage_bind_consistency_witness :
    exCacheAfterSetCB.getResourceCB exBindPoints = exCacheAfterSetCB.cbs 0 0 :=
  (C7_multi_stage_bind_consistency.2.2.2.2.2.2.1 exCacheAfterSetCB exBindPoints
    (C7_multi_stage_bind_consistency.1 (initCache fun _ => 1) exBindPoints
      (some exBuffer) 256 1024)
    (by decide)) 0 (by decide)

end DiligentD3D11
